import Mathlib

/-!
# 3DMagic: scene composition, shader binding and render dispatch

A shallow embedding of the parts of 3DMagic that pair a physical body with a
graphical entity (`Objects/Object.h`), multiply 4x4 matrices
(`Math/IntelSIMD/Matrix4.cc`), bind shader inputs (`Shaders/Shader.h`) and
walk the objects of a frame (`World/World.cpp`).

Scalars (`float` in the sources) are an arbitrary commutative semiring `α`, an
ordered field where the code compares or divides; the two divisions that give
the sub-step count of a frame are rounded to `float` (`divFloat`). C++ `int`
values are `Int`. Device calls are recorded in a trace, and a thrown
`MagicException` is the `Except.error` component of a run.
-/

namespace Magic3D

/-! ## Math/IntelSIMD/Matrix4.cc -/

/-- One SSE register: four packed scalars, lane 0 first. -/
abbrev XMM (α : Type) := Fin 4 → α

/-- UNPCKLPS dst, src: interleave the two low lanes of dst and src. -/
def UNPCKLPS {α : Type} (dst src : XMM α) : XMM α :=
  ![dst 0, src 0, dst 1, src 1]

/-- UNPCKHPS dst, src: interleave the two high lanes of dst and src. -/
def UNPCKHPS {α : Type} (dst src : XMM α) : XMM α :=
  ![dst 2, src 2, dst 3, src 3]

/-- DPPS dst, src, imm8: the lanes selected by the high nibble of imm8 are
multiplied pairwise and summed; the sum is written to the lanes selected by the
low nibble, the other lanes are cleared. -/
def DPPS {α : Type} [CommSemiring α] (dst src : XMM α) (imm8 : Nat) : XMM α :=
  let p : XMM α := fun i => if imm8.testBit (4 + i.val) then dst i * src i else 0
  let s : α := (p 0 + p 1) + (p 2 + p 3)
  fun i => if imm8.testBit i.val then s else 0

/-- BLENDPS dst, src, imm8: lane i is taken from src when bit i of imm8 is set. -/
def BLENDPS {α : Type} (dst src : XMM α) (imm8 : Nat) : XMM α :=
  fun i => if imm8.testBit i.val then src i else dst i

/-- A 4x4 matrix: sixteen scalars, `data[(col*4)+row]`. -/
structure Matrix4 (α : Type) where
  data : Fin 16 → α

/-- A 3x3 matrix: nine scalars. -/
structure Matrix3 (α : Type) where
  data : Fin 9 → α

/-- The array handed to the graphics device by `getArray()`. -/
def Matrix4.getArray {α : Type} (m : Matrix4 α) : List α := List.ofFn m.data

/-- The array handed to the graphics device by `getArray()`. -/
def Matrix3.getArray {α : Type} (m : Matrix3 α) : List α := List.ofFn m.data

/-- MOVAPS xmm, [data + n*4]: load four consecutive scalars. -/
def Matrix4.load {α : Type} (m : Matrix4 α) (n : Fin 4) : XMM α :=
  fun i => m.data (Fin.mk (4 * n.val + i.val) (by omega))

/-- The four MOVAPS stores `[out + n*4*4], xmm5` for n = 0..3 together write
all sixteen scalars of the destination. -/
def Matrix4.ofStores {α : Type} (s0 s1 s2 s3 : XMM α) : Matrix4 α :=
  Matrix4.mk (fun k =>
    ![s0, s1, s2, s3] (Fin.mk (k.val / 4) (by omega)) (Fin.mk (k.val % 4) (by omega)))

/-- `Matrix4::identity`. -/
def Matrix4.identity {α : Type} [CommSemiring α] : Matrix4 α :=
  Matrix4.mk ![1, 0, 0, 0,
               0, 1, 0, 0,
               0, 0, 1, 0,
               0, 0, 0, 1]

/-- The COMPUTE_ROW(n) block of `Matrix4::multiply`: xmm3, xmm0, xmm6, xmm1 hold
the transposed first operand, the result is the register stored at `out + n*4`. -/
def COMPUTE_ROW {α : Type} [CommSemiring α] (xmm3 xmm0 xmm6 xmm1 : XMM α)
    (m2 : Matrix4 α) (n : Fin 4) : XMM α :=
  let xmm2 := m2.load n
  let xmm4 := xmm2
  let xmm5 := xmm2
  let xmm2 := DPPS xmm2 xmm3 0xF1
  let xmm4 := DPPS xmm4 xmm0 0xF2
  let xmm2 := BLENDPS xmm2 xmm4 0x2
  let xmm4 := xmm5
  let xmm5 := DPPS xmm5 xmm6 0xF4
  let xmm4 := DPPS xmm4 xmm1 0xF8
  let xmm5 := BLENDPS xmm5 xmm4 0x8
  let xmm5 := BLENDPS xmm5 xmm2 0x3
  xmm5

/-- `Matrix4::multiply(m1, m2)`: the value stored in this matrix. -/
def Matrix4.multiply {α : Type} [CommSemiring α] (m1 m2 : Matrix4 α) : Matrix4 α :=
  let xmm3 := m1.load 0
  let xmm2 := m1.load 1
  let xmm1 := m1.load 2
  let xmm0 := m1.load 3
  let xmm5 := xmm2
  let xmm6 := xmm3
  let xmm2 := UNPCKLPS xmm2 xmm0
  let xmm5 := UNPCKHPS xmm5 xmm0
  let xmm3 := UNPCKLPS xmm3 xmm1
  let xmm6 := UNPCKHPS xmm6 xmm1
  let xmm0 := xmm3
  let xmm1 := xmm6
  let xmm3 := UNPCKLPS xmm3 xmm2
  let xmm0 := UNPCKHPS xmm0 xmm2
  let xmm6 := UNPCKLPS xmm6 xmm5
  let xmm1 := UNPCKHPS xmm1 xmm5
  Matrix4.ofStores
    (COMPUTE_ROW xmm3 xmm0 xmm6 xmm1 m2 0)
    (COMPUTE_ROW xmm3 xmm0 xmm6 xmm1 m2 1)
    (COMPUTE_ROW xmm3 xmm0 xmm6 xmm1 m2 2)
    (COMPUTE_ROW xmm3 xmm0 xmm6 xmm1 m2 3)

/-- `Matrix4::createTranslationMatrix(x, y, z)`. -/
def Matrix4.createTranslationMatrix {α : Type} [CommSemiring α] (x y z : α) : Matrix4 α :=
  let data := (Matrix4.identity : Matrix4 α).data
  let data := Function.update data 12 x
  let data := Function.update data 13 y
  let data := Function.update data 14 z
  Matrix4.mk data

/-- `Matrix4::extractRotation(out)`: three copies of three scalars each. -/
def Matrix4.extractRotation {α : Type} (m : Matrix4 α) : Matrix3 α :=
  Matrix3.mk (fun k =>
    m.data (Fin.mk (4 * (k.val / 3) + k.val % 3) (by omega)))

/-- `memcpy(dst + dstOff, src + srcOff, sizeof(Scalar) * count)` on arrays of
scalars. -/
def memcpyScalars {α : Type} {n m : Nat} (dst : Fin n → α) (dstOff : Nat) (src : Fin m → α)
    (srcOff count : Nat) (h : srcOff + count ≤ m) : Fin n → α :=
  fun k =>
    if hk : dstOff ≤ k.val ∧ k.val < dstOff + count then
      src (Fin.mk (srcOff + (k.val - dstOff)) (by omega))
    else dst k

/-- `Matrix4::extractRotation(out)` statement by statement: the three `memcpy`
calls, run on the matrix that out holds before the call. -/
def Matrix4.extractRotationInto {α : Type} (m : Matrix4 α) (out : Matrix3 α) : Matrix3 α :=
  let data := memcpyScalars out.data 0 m.data 0 3 (by decide)
  let data := memcpyScalars data 3 m.data 4 3 (by decide)
  let data := memcpyScalars data 6 m.data 8 3 (by decide)
  Matrix3.mk data

/-- The matrix a `Matrix4` stands for: entry (row, col) is `data[(col*4)+row]`. -/
def Matrix4.toMatrix {α : Type} (m : Matrix4 α) : Matrix (Fin 4) (Fin 4) α :=
  fun r c => m.data (Fin.mk (4 * c.val + r.val) (by omega))

/-! ## Exceptions and device calls -/

/-- A routine of the engine, run on the trace of device calls made so far: it
ends normally with a value or with the message of the `MagicException` it
threw, and leaves the trace extended by the calls it made. -/
def Routine (C β : Type) : Type := List C → Except String β × List C

/-- Sequencing: an exception thrown by the first part skips the second. -/
def Routine.bind {C β γ : Type} (m : Routine C β) (f : β → Routine C γ) : Routine C γ :=
  fun tr =>
    match m tr with
    | (Except.ok x, tr1) => f x tr1
    | (Except.error e, tr1) => (Except.error e, tr1)

instance {C : Type} : Monad (Routine C) where
  pure x := fun tr => (Except.ok x, tr)
  bind := Routine.bind

/-- Issue one device call. -/
def Routine.call {C : Type} (c : C) : Routine C Unit :=
  fun tr => (Except.ok (), tr ++ [c])

/-- The device calls made so far. -/
def Routine.calls {C : Type} : Routine C (List C) :=
  fun tr => (Except.ok tr, tr)

/-- `throw_MagicException(msg)`. -/
def throw_MagicException {C β : Type} (msg : String) : Routine C β :=
  fun tr => (Except.error msg, tr)

/-- Modelled from the spec: the macro MAGIC_THROW of Util/magic_throw.h, which is
not among the sources. A violated condition is fatal and raised immediately at
the call site: `MAGIC_THROW(cond, msg)` throws msg when cond holds. -/
def MAGIC_THROW {C : Type} (cond : Bool) (msg : String) : Routine C Unit :=
  if cond then throw_MagicException msg else pure ()

/-- Modelled from the spec: the macro MAGIC_ASSERT, which is not among the
sources. A failing assertion is fatal: `MAGIC_ASSERT(cond)` throws unless cond
holds. -/
def MAGIC_ASSERT {C : Type} (cond : Bool) : Routine C Unit :=
  if cond then pure () else throw_MagicException "Assertion failed."

/-- A loop over a list, body run in order; an exception leaves the loop. -/
def Routine.forEach {C β : Type} : List β → (β → Routine C Unit) → Routine C Unit
  | [], _ => pure ()
  | x :: xs, body => do
      body x
      Routine.forEach xs body

/-- A texture object of the graphics device. -/
structure Texture where
  handle : Nat
  deriving DecidableEq, Repr

/-- A vertex buffer of the graphics device. -/
structure Buffer where
  handle : Nat
  deriving DecidableEq, Repr

/-- `VertexArray::DataTypes`. VertexArray.h is not among the sources: FLOAT and
INT are the enumerators World.cpp names, OTHER stands for every other one. -/
inductive DataTypes where
  | FLOAT
  | INT
  | OTHER (code : Nat)
  deriving DecidableEq, Repr

/-- The calls made on the graphics device and on the physics engine. -/
inductive Call (α : Type) where
  | glBindAttribLocation (program : Nat) (index : Int) (name : String)
  | glUniform1fv (id count : Int) (values : List α)
  | glUniform2fv (id count : Int) (values : List α)
  | glUniform3fv (id count : Int) (values : List α)
  | glUniform4fv (id count : Int) (values : List α)
  | glUniform1f (id : Int) (v1 : α)
  | glUniform2f (id : Int) (v1 v2 : α)
  | glUniform3f (id : Int) (v1 v2 v3 : α)
  | glUniform4f (id : Int) (v1 v2 v3 v4 : α)
  | glUniform1iv (id count : Int) (values : List Int)
  | glUniform2iv (id count : Int) (values : List Int)
  | glUniform3iv (id count : Int) (values : List Int)
  | glUniform4iv (id count : Int) (values : List Int)
  | glUniformMatrix2fv (id count : Int) (values : List α)
  | glUniformMatrix3fv (id count : Int) (values : List α)
  | glUniformMatrix4fv (id count : Int) (values : List α)
  | glUniform1i (id : Int) (v : Int)
  | textureBind (tex : Texture)
  | shaderUse (program : Nat)
  | setAttributeArray (bind : Int) (components : Int) (type : DataTypes) (buffer : Buffer)
  | draw (primitive : Nat) (vertexCount : Int)
  | clearDisplay
  | swapBuffers
  | stepSimulation (secs : α) (substeps : Int)
  | addRigidBody (body : Nat)
  | removeRigidBody (body : Nat)
  deriving DecidableEq, Repr

/-- The calls that set the value of a uniform. -/
def Call.isUniform {α : Type} : Call α → Bool
  | Call.glUniform1fv _ _ _ => true
  | Call.glUniform2fv _ _ _ => true
  | Call.glUniform3fv _ _ _ => true
  | Call.glUniform4fv _ _ _ => true
  | Call.glUniform1f _ _ => true
  | Call.glUniform2f _ _ _ => true
  | Call.glUniform3f _ _ _ _ => true
  | Call.glUniform4f _ _ _ _ _ => true
  | Call.glUniform1iv _ _ _ => true
  | Call.glUniform2iv _ _ _ => true
  | Call.glUniform3iv _ _ _ => true
  | Call.glUniform4iv _ _ _ => true
  | Call.glUniformMatrix2fv _ _ _ => true
  | Call.glUniformMatrix3fv _ _ _ => true
  | Call.glUniformMatrix4fv _ _ _ => true
  | Call.glUniform1i _ _ => true
  | _ => false

/-- The draw calls. -/
def Call.isDraw {α : Type} : Call α → Bool
  | Call.draw _ _ => true
  | _ => false

/-- The calls of `stepSimulation`. -/
def Call.isStepSimulation {α : Type} : Call α → Bool
  | Call.stepSimulation _ _ => true
  | _ => false

/-- The calls that supply an attribute array. -/
def Call.isAttributeArray {α : Type} : Call α → Bool
  | Call.setAttributeArray _ _ _ _ => true
  | _ => false

/-- The answers of the graphics library: the location of a uniform name in a
program (negative when the program does not declare it), and whether
`glGetError()` reports an error after the calls made so far. -/
structure GLDevice (α : Type) where
  glGetUniformLocation : Nat → String → Int
  glGetError : List (Call α) → Bool

/-- `glGetError() != GL_NO_ERROR` at this point of the run. -/
def GLDevice.failed {α : Type} (gl : GLDevice α) : Routine (Call α) Bool := do
  let tr ← Routine.calls
  pure (gl.glGetError tr)

/-! ## Shaders/Shader.h -/

/-- `Shader::AttributeType`. -/
inductive AttributeType where
  | VERTEX
  | NORMAL
  | COLOR
  | COLOR2
  | TEX_COORD_0
  | TEX_COORD_1
  | TEX_COORD_2
  | TEX_COORD_3
  | TEX_COORD_4
  | TEX_COORD_5
  | TEX_COORD_6
  | TEX_COORD_7
  | TANGENT
  | BINORMAL
  | MAX_ATTRIBUTE_TYPES
  deriving DecidableEq, Repr

/-- `Shader::AutoUniformType`. -/
inductive AutoUniformType where
  | MODEL_MATRIX
  | VIEW_MATRIX
  | PROJECTION_MATRIX
  | MODEL_VIEW_MATRIX
  | VIEW_PROJECTION_MATRIX
  | MODEL_PROJECTION_MATRIX
  | MODEL_VIEW_PROJECTION_MATRIX
  | NORMAL_MATRIX
  | FPS
  | TEXTURE0
  | TEXTURE1
  | TEXTURE2
  | TEXTURE3
  | TEXTURE4
  | TEXTURE5
  | TEXTURE6
  | TEXTURE7
  | LIGHT_LOCATION
  | FLAT_PROJECTION
  | MAX_AUTO_UNIFORM_TYPE
  deriving DecidableEq, Repr

/-- `Shader::AutoUniform`. -/
structure AutoUniform where
  varName : String
  type : AutoUniformType
  deriving DecidableEq, Repr

/-- The memory a `const void* data` points to, as read through a `const float*`
and through a `const int*`. -/
structure RawData (α : Type) where
  asFloat : List α
  asInt : List Int
  deriving DecidableEq, Repr

/-- `Shader::NamedUniform`. -/
structure NamedUniform (α : Type) where
  varName : String
  datatype : DataTypes
  comp_count : Int
  data : RawData α
  deriving DecidableEq, Repr

/-- `std::map::insert`: an entry whose key is already present is left as it is. -/
def mapInsert {κ ν : Type} [BEq κ] (m : List (κ × ν)) (k : κ) (v : ν) : List (κ × ν) :=
  match m.lookup k with
  | some _ => m
  | none => m ++ [(k, v)]

/-- The state of a `Shader`: program id, next attribute index, attribute indexes. -/
structure Shader where
  programId : Nat
  nextIndex : Int
  attribIndexes : List (AttributeType × Int)
  deriving DecidableEq, Repr

/-- `Shader::bindAttrib(name, type)`; the result is the shader after the call. -/
def Shader.bindAttrib {α : Type} (gl : GLDevice α) (s : Shader) (name : String)
    (type : AttributeType) : Routine (Call α) Shader := do
  Routine.call (Call.glBindAttribLocation s.programId s.nextIndex name)
  MAGIC_THROW (← gl.failed) "Failed to bind attribute."
  let s := { s with attribIndexes := mapInsert s.attribIndexes type s.nextIndex }
  pure { s with nextIndex := s.nextIndex + 1 }

/-- A sequence of `bindAttrib` calls on one shader, in order. -/
def Shader.bindAttribs {α : Type} (gl : GLDevice α) :
    Shader → List (String × AttributeType) → Routine (Call α) Shader
  | s, [] => pure s
  | s, (name, type) :: rest => do
      let s1 ← s.bindAttrib gl name type
      Shader.bindAttribs gl s1 rest

/-- `Shader::getAttribBinding(type)`: a lookup that returns a value and never throws. -/
def Shader.getAttribBinding (s : Shader) (type : AttributeType) : Int :=
  match s.attribIndexes.lookup type with
  | none => -1
  | some index => index

/-- `Shader::setUniformfv(name, components, values, count)`. -/
def Shader.setUniformfv {α : Type} (gl : GLDevice α) (s : Shader) (name : String)
    (components : Int) (values : List α) (count : Int) : Routine (Call α) Unit := do
  let id := gl.glGetUniformLocation s.programId name
  MAGIC_THROW (id < 0) "Tried to set a uniform that is not present in shader."
  if components = 1 then Routine.call (Call.glUniform1fv id count values)
  else if components = 2 then Routine.call (Call.glUniform2fv id count values)
  else if components = 3 then Routine.call (Call.glUniform3fv id count values)
  else if components = 4 then Routine.call (Call.glUniform4fv id count values)
  else throw_MagicException "Attempt to set uniform with invalid component size"
  if (← gl.failed) then
    throw_MagicException "Could not bind float uniform for shader"

/-- `Shader::setUniformf(name, v1)`. -/
def Shader.setUniformf1 {α : Type} (gl : GLDevice α) (s : Shader) (name : String)
    (v1 : α) : Routine (Call α) Unit := do
  let id := gl.glGetUniformLocation s.programId name
  MAGIC_THROW (id < 0) "Tried to set a uniform that is not present in shader."
  Routine.call (Call.glUniform1f id v1)
  if (← gl.failed) then
    throw_MagicException "Could not bind float uniform for shader"

/-- `Shader::setUniformf(name, v1, v2)`. -/
def Shader.setUniformf2 {α : Type} (gl : GLDevice α) (s : Shader) (name : String)
    (v1 v2 : α) : Routine (Call α) Unit := do
  let id := gl.glGetUniformLocation s.programId name
  MAGIC_THROW (id < 0) "Tried to set a uniform that is not present in shader."
  Routine.call (Call.glUniform2f id v1 v2)
  if (← gl.failed) then
    throw_MagicException "Could not bind float uniform for shader"

/-- `Shader::setUniformf(name, v1, v2, v3)`. -/
def Shader.setUniformf3 {α : Type} (gl : GLDevice α) (s : Shader) (name : String)
    (v1 v2 v3 : α) : Routine (Call α) Unit := do
  let id := gl.glGetUniformLocation s.programId name
  MAGIC_THROW (id < 0) "Tried to set a uniform that is not present in shader."
  Routine.call (Call.glUniform3f id v1 v2 v3)
  if (← gl.failed) then
    throw_MagicException "Could not bind float uniform for shader"

/-- `Shader::setUniformf(name, v1, v2, v3, v4)`. -/
def Shader.setUniformf4 {α : Type} (gl : GLDevice α) (s : Shader) (name : String)
    (v1 v2 v3 v4 : α) : Routine (Call α) Unit := do
  let id := gl.glGetUniformLocation s.programId name
  MAGIC_THROW (id < 0) "Tried to set a uniform that is not present in shader."
  Routine.call (Call.glUniform4f id v1 v2 v3 v4)
  if (← gl.failed) then
    throw_MagicException "Could not bind float uniform for shader"

/-- `Shader::setUniformiv(name, components, values, count)`. -/
def Shader.setUniformiv {α : Type} (gl : GLDevice α) (s : Shader) (name : String)
    (components : Int) (values : List Int) (count : Int) : Routine (Call α) Unit := do
  let id := gl.glGetUniformLocation s.programId name
  MAGIC_THROW (id < 0) "Tried to set a uniform that is not present in shader."
  if components = 1 then Routine.call (Call.glUniform1iv id count values)
  else if components = 2 then Routine.call (Call.glUniform2iv id count values)
  else if components = 3 then Routine.call (Call.glUniform3iv id count values)
  else if components = 4 then Routine.call (Call.glUniform4iv id count values)
  else throw_MagicException "Attempt to set uniform with invalid component size"
  if (← gl.failed) then
    throw_MagicException "Could not bind integer uniform for shader"

/-- `Shader::setUniformMatrix(name, components, values, count)`. -/
def Shader.setUniformMatrix {α : Type} (gl : GLDevice α) (s : Shader) (name : String)
    (components : Int) (values : List α) (count : Int) : Routine (Call α) Unit := do
  let id := gl.glGetUniformLocation s.programId name
  MAGIC_THROW (id < 0) "Tried to set a uniform that is not present in shader."
  if components = 2 then Routine.call (Call.glUniformMatrix2fv id count values)
  else if components = 3 then Routine.call (Call.glUniformMatrix3fv id count values)
  else if components = 4 then Routine.call (Call.glUniformMatrix4fv id count values)
  else throw_MagicException "Attempt to set matrix uniform with invalid component size"
  if (← gl.failed) then
    throw_MagicException "Could not bind matrix uniform for shader"

/-- `Shader::setTexture(name, tex)`. -/
def Shader.setTexture {α : Type} (gl : GLDevice α) (s : Shader) (name : String)
    (tex : Texture) : Routine (Call α) Unit := do
  Routine.call (Call.textureBind tex)
  let id := gl.glGetUniformLocation s.programId name
  MAGIC_THROW (id < 0) "Tried to set a uniform that is not present in shader."
  Routine.call (Call.glUniform1i id 0)
  if (← gl.failed) then
    throw_MagicException "Could not bind texture uniform for shader"

/-- `Shader::use()`. -/
def Shader.use {α : Type} (s : Shader) : Routine (Call α) Unit :=
  Routine.call (Call.shaderUse s.programId)

/-! ## Materials, meshes and models, as World.cpp reads them -/

/-- The fields of a `Material` that `World::processFrame` reads (Material.h is
not among the sources): the shader (null when absent), the draw primitive, the
eight texture slots (null when unassigned), the auto uniforms and the named
uniforms, each list as long as its count field. -/
structure Material (α : Type) where
  shader : Option Shader
  primitive : Nat
  textures : Fin 8 → Option Texture
  uniforms : List AutoUniform
  namedUniforms : List (NamedUniform α)

/-- `Mesh::AttributeData`: the kind of a vertex attribute and its buffer. -/
structure AttributeData where
  type : AttributeType
  buffer : Buffer
  deriving DecidableEq, Repr

/-- The fields of a `Mesh` that `World::processFrame` reads: the attribute data
(attributeCount entries) and the vertex count. -/
structure Mesh where
  attributeData : List AttributeData
  vertexCount : Int
  deriving DecidableEq, Repr

/-- The tables `Mesh::attributeTypeNames` and `Mesh::attributeTypeCompCount`,
indexed by attribute kind. Mesh.h is not among the sources, so their contents
are left open. -/
structure MeshTables where
  attributeTypeNames : AttributeType → AttributeType
  attributeTypeCompCount : AttributeType → Int

/-- Modelled from the spec: Model.h is not among the sources. A Model is an
ordered list of (Mesh, Material) pairs; `getMeshCount()` is its length. -/
structure Model (α : Type) where
  pairs : List (Mesh × Material α)

/-- A collision shape of the physics engine. -/
structure CollisionShape where
  handle : Nat
  deriving DecidableEq, Repr

/-! ## Objects/Object.h -/

/-- A point or a vector: three scalars. -/
structure Point3 (α : Type) where
  x : α
  y : α
  z : α
  deriving DecidableEq, Repr

/-- Modelled from the spec: Position.h is not among the sources. A Position is
a location and an orientation basis of a forward and an up vector. -/
structure Position (α : Type) where
  location : Point3 α
  forward : Point3 α
  up : Point3 α
  deriving DecidableEq, Repr

/-- `GraphicalEntity`: the wrapper of the model an object is drawn with;
`getModel()` returns the pointer it was built from. -/
structure GraphicalEntity (α : Type) where
  model : Option (Model α)

/-- `PhysicalBody`: the wrapper of the rigid body of an object, with the
transform the physics engine holds for it. -/
structure PhysicalBody (α : Type) where
  shape : CollisionShape
  mass : α
  transform : Position α
  deriving DecidableEq, Repr

/-- Modelled from the spec: the constructor `PhysicalBody(position, shape, mass)`
is not among the sources. The body starts at the position of its object. -/
def PhysicalBody.create {α : Type} (position : Position α) (shape : CollisionShape)
    (mass : α) : PhysicalBody α :=
  PhysicalBody.mk shape mass position

/-- Modelled from the spec: `PhysicalBody::syncPositionToPhysics()` is not among
the sources. It synchronizes the physics-side transform of the body to match
the Position of the object, as that Position is when the call is made. -/
def PhysicalBody.syncPositionToPhysics {α : Type} (position : Position α)
    (body : PhysicalBody α) : PhysicalBody α :=
  { body with transform := position }

/-- `Object`: position, graphical body and physical body (null when absent). -/
structure Object (α : Type) where
  position : Position α
  graphical : Option (GraphicalEntity α)
  physical : Option (PhysicalBody α)

/-- `Object::build(model, shape, mass)`, run on the object whose members the
constructor has initialised; the result is the object after the call. -/
def Object.build {α : Type} (this : Object α) (model : Option (Model α))
    (shape : Option CollisionShape) (mass : α) : Routine (Call α) (Object α) := do
  let this :=
    match model with
    | some m => { this with graphical := some (GraphicalEntity.mk (some m)) }
    | none => this
  let this :=
    match shape with
    | some sh => { this with physical := some (PhysicalBody.create this.position sh mass) }
    | none => this
  MAGIC_THROW (model.isNone && shape.isNone)
    "Cannot build a object with neither a graphical nor physical entity."
  pure this

/-- `Object(Model* model, CollisionShape* shape, float mass)`; origin is the
value of the default-constructed position member. -/
def Object.newWithMass {α : Type} (origin : Position α) (model : Option (Model α))
    (shape : Option CollisionShape) (mass : α) : Routine (Call α) (Object α) :=
  Object.build (Object.mk origin none none) model shape mass

/-- `Object(Model* model, CollisionShape* shape, Position& p)`. -/
def Object.newAtPosition {α : Type} [CommSemiring α] (model : Option (Model α))
    (shape : Option CollisionShape) (p : Position α) : Routine (Call α) (Object α) :=
  Object.build (Object.mk p none none) model shape 1

/-- `Object(Model* model, CollisionShape* shape, Point3 location)`; origin is
the value of the default-constructed position member. -/
def Object.newAtLocation {α : Type} [CommSemiring α] (origin : Position α)
    (model : Option (Model α)) (shape : Option CollisionShape) (location : Point3 α) :
    Routine (Call α) (Object α) :=
  Object.build (Object.mk { origin with location := location } none none) model shape 1

/-- `Object::setPosition(position)`; sync is what `syncPositionToPhysics()` does
to the body, given the position member at the time of the call. -/
def Object.setPosition {α : Type} (sync : Position α → PhysicalBody α → PhysicalBody α)
    (this : Object α) (position : Position α) : Object α :=
  let this :=
    match this.physical with
    | some body => { this with physical := some (sync this.position body) }
    | none => this
  { this with position := position }

/-- `Object::getPosition()`. -/
def Object.getPosition {α : Type} (this : Object α) : Position α := this.position

/-- `Object::getPhysical()`. -/
def Object.getPhysical {α : Type} (this : Object α) : Option (PhysicalBody α) :=
  this.physical

/-- `Object::getGraphical()`. -/
def Object.getGraphical {α : Type} (this : Object α) : Option (GraphicalEntity α) :=
  this.graphical

/-! ## World/World.cpp -/

/-- What `World::processFrame` takes from the camera and from the math library
(Camera.h, Position.h and Point3.h are not among the sources): the position of
the global camera and its projection matrix, the camera and transform matrices
of a Position, and the transformation of a point by a matrix; and the tables
of Mesh.h. -/
structure Scene (α : Type) where
  cameraPosition : Position α
  projection : Matrix4 α
  getCameraMatrix : Position α → Matrix4 α
  getTransformMatrix : Position α → Matrix4 α
  transform : Point3 α → Matrix4 α → Point3 α
  tables : MeshTables

/-- An `Object*` that the world holds: the address, by which `std::set` and the
physics engine tell objects apart, and the object it points to. -/
structure ObjectRef (α : Type) where
  addr : Nat
  target : Object α

/-- The fields of `World` (World/World.h): the dynamic objects in the iteration
order of the `std::set` (increasing address), the static objects as the
entries of the `unordered_map` from the address of a material to its vector
of objects, and the counters and settings. -/
structure World (α : Type) where
  objects : List (ObjectRef α)
  staticObjects : List (Nat × List (ObjectRef α))
  staticObjectCount : Int
  fps : Int
  physicsStepTime : α
  alignPStep2FPS : Bool
  physicsStepsPerFrame : Int
  actualFPS : Int

/-- The body of the named-uniform loop of `World::processFrame`. -/
def World.setNamedUniform {α : Type} (gl : GLDevice α) (shader : Shader)
    (u : NamedUniform α) : Routine (Call α) Unit :=
  match u.datatype with
  | DataTypes.FLOAT => shader.setUniformfv gl u.varName u.comp_count u.data.asFloat 1
  | DataTypes.INT => shader.setUniformiv gl u.varName u.comp_count u.data.asInt 1
  | _ => throw_MagicException "Unsupported Auto Uniform datatype."

/-- The texture cases of the auto-uniform switch: slot is the index written in
the null check, bound the index written in the `setTexture` call. -/
def World.setAutoTexture {α : Type} (gl : GLDevice α) (shader : Shader)
    (material : Material α) (varName : String) (slot bound : Fin 8) :
    Routine (Call α) Unit := do
  MAGIC_THROW (material.textures slot).isNone
    "Material has auto-bound texture set, but no texture set for the index."
  match material.textures bound with
  | some tex => shader.setTexture gl varName tex
  | none => throw_MagicException "null pointer dereference"

/-- The body of the auto-uniform loop of `World::processFrame`: the switch on
the type of the uniform. -/
def World.setAutoUniform {α : Type} [CommSemiring α] (gl : GLDevice α) (actualFPS : Int)
    (shader : Shader) (material : Material α) (model view projection : Matrix4 α)
    (u : AutoUniform) : Routine (Call α) Unit :=
  match u.type with
  | AutoUniformType.MODEL_MATRIX =>
      shader.setUniformMatrix gl u.varName 4 model.getArray 1
  | AutoUniformType.VIEW_MATRIX =>
      shader.setUniformMatrix gl u.varName 4 view.getArray 1
  | AutoUniformType.PROJECTION_MATRIX =>
      shader.setUniformMatrix gl u.varName 4 projection.getArray 1
  | AutoUniformType.MODEL_VIEW_MATRIX =>
      let temp4m := Matrix4.multiply view model
      shader.setUniformMatrix gl u.varName 4 temp4m.getArray 1
  | AutoUniformType.VIEW_PROJECTION_MATRIX =>
      let temp4m := Matrix4.multiply projection view
      shader.setUniformMatrix gl u.varName 4 temp4m.getArray 1
  | AutoUniformType.MODEL_PROJECTION_MATRIX =>
      let temp4m := Matrix4.multiply projection model
      shader.setUniformMatrix gl u.varName 4 temp4m.getArray 1
  | AutoUniformType.MODEL_VIEW_PROJECTION_MATRIX =>
      let temp4m := Matrix4.multiply view model
      let temp4m2 := Matrix4.multiply projection temp4m
      shader.setUniformMatrix gl u.varName 4 temp4m2.getArray 1
  | AutoUniformType.NORMAL_MATRIX =>
      let temp4m := Matrix4.multiply view model
      let temp3m := temp4m.extractRotation
      shader.setUniformMatrix gl u.varName 3 temp3m.getArray 1
  | AutoUniformType.FPS =>
      shader.setUniformiv gl u.varName 1 [actualFPS] 1
  | AutoUniformType.TEXTURE0 => World.setAutoTexture gl shader material u.varName 0 0
  | AutoUniformType.TEXTURE1 => World.setAutoTexture gl shader material u.varName 1 1
  | AutoUniformType.TEXTURE2 => World.setAutoTexture gl shader material u.varName 2 2
  | AutoUniformType.TEXTURE3 => World.setAutoTexture gl shader material u.varName 3 3
  | AutoUniformType.TEXTURE4 => World.setAutoTexture gl shader material u.varName 4 4
  | AutoUniformType.TEXTURE5 => World.setAutoTexture gl shader material u.varName 5 5
  | AutoUniformType.TEXTURE6 => World.setAutoTexture gl shader material u.varName 6 6
  | AutoUniformType.TEXTURE7 => World.setAutoTexture gl shader material u.varName 7 7
  | AutoUniformType.LIGHT_LOCATION => pure ()
  | _ => MAGIC_ASSERT false

/-- The uniforms of one (mesh, material) pair: `shader->use()`, the named
uniforms, the light position, the auto uniforms. -/
def World.setUniforms {α : Type} [CommSemiring α] (gl : GLDevice α) (scene : Scene α)
    (actualFPS : Int) (shader : Shader) (material : Material α)
    (model view projection : Matrix4 α) : Routine (Call α) Unit := do
  let lightPos : Point3 α := Point3.mk 0 1000 0
  let lightPos := scene.transform lightPos view
  shader.use
  Routine.forEach material.namedUniforms (World.setNamedUniform gl shader)
  shader.setUniformf3 gl "lightPosition" lightPos.x lightPos.y lightPos.z
  Routine.forEach material.uniforms
    (World.setAutoUniform gl actualFPS shader material model view projection)

/-- The body of the attribute loop of `World::processFrame`. -/
def World.bindAttribute {α : Type} (tables : MeshTables) (shader : Shader)
    (a : AttributeData) : Routine (Call α) Unit :=
  let bind := shader.getAttribBinding (tables.attributeTypeNames a.type)
  if bind < 0 then pure ()
  else Routine.call
    (Call.setAttributeArray bind (tables.attributeTypeCompCount a.type) DataTypes.FLOAT a.buffer)

/-- The body of the mesh loop of `World::processFrame`: one (mesh, material) pair. -/
def World.renderMesh {α : Type} [CommSemiring α] (gl : GLDevice α) (scene : Scene α)
    (actualFPS : Int) (model view projection : Matrix4 α) (pair : Mesh × Material α) :
    Routine (Call α) Unit := do
  let mesh := pair.1
  let material := pair.2
  MAGIC_ASSERT material.shader.isSome
  match material.shader with
  | none => throw_MagicException "null pointer dereference"
  | some shader =>
      World.setUniforms gl scene actualFPS shader material model view projection
      Routine.forEach mesh.attributeData (World.bindAttribute scene.tables shader)
      Routine.call (Call.draw material.primitive mesh.vertexCount)

/-- The body of the object loop of `World::processFrame`. -/
def World.renderObject {α : Type} [CommSemiring α] (gl : GLDevice α) (scene : Scene α)
    (actualFPS : Int) (view projection : Matrix4 α) (ob : Object α) :
    Routine (Call α) Unit :=
  match ob.getGraphical with
  | none => pure ()
  | some en => do
      MAGIC_ASSERT en.model.isSome
      match en.model with
      | none => throw_MagicException "null pointer dereference"
      | some m =>
          MAGIC_ASSERT (decide (0 < m.pairs.length))
          let model := scene.getTransformMatrix ob.getPosition
          Routine.forEach m.pairs
            (World.renderMesh gl scene actualFPS model view projection)

/-- The integer nearest to x, the even one of two that are equally near. -/
def roundHalfEven {α : Type} [LinearOrderedField α] [FloorRing α] (x : α) : Int :=
  let f := Int.floor x
  if 2 * (x - (f : α)) < 1 then f
  else if 1 < 2 * (x - (f : α)) then f + 1
  else if f % 2 = 0 then f else f + 1

/-- The value of type `float` that the exact result x of an operation is
rounded to: the nearest number with a significand of 24 binary digits, the
one with the even significand of two that are equally near. The exponent
range of `float` is not modelled (no overflow, no subnormal numbers). -/
def roundFloat {α : Type} [LinearOrderedField α] [FloorRing α] (x : α) : α :=
  if x = 0 then 0
  else
    let ulp : α := (2 : α) ^ (Int.log 2 |x| - 23)
    (roundHalfEven (x / ulp) : α) * ulp

/-- The division `x / y` of two values of type `float`. -/
def divFloat {α : Type} [LinearOrderedField α] [FloorRing α] (x y : α) : α :=
  roundFloat (x / y)

/-- The conversion `(int) x` of a scalar: truncation towards zero. -/
def castInt {α : Type} [LinearOrderedField α] [FloorRing α] (x : α) : Int :=
  if 0 ≤ x then Int.floor x else Int.ceil x

/-- The physics part of `World::processFrame()`: the block under `// step physics`.
The two divisions are divisions of `float` values. -/
def World.stepPhysics {α : Type} [LinearOrderedField α] [FloorRing α] (w : World α) :
    Routine (Call α) Unit := do
  if 0 < w.physicsStepTime then
    let normalStepSize : α := divFloat 1 60
    let subSteps : Int := castInt (divFloat w.physicsStepTime normalStepSize)
    let subSteps : Int := if subSteps < 1 then 1 else subSteps
    Routine.forEach (List.range w.physicsStepsPerFrame.toNat)
      (fun _ => Routine.call (Call.stepSimulation w.physicsStepTime subSteps))

/-- The rendering part of `World::processFrame()`: from the clearing of the
buffers to the buffer swap. -/
def World.renderFrame {α : Type} [CommSemiring α] (gl : GLDevice α)
    (scene : Scene α) (w : World α) : Routine (Call α) Unit := do
  Routine.call Call.clearDisplay
  let view := scene.getCameraMatrix scene.cameraPosition
  let projection := scene.projection
  Routine.forEach (w.objects.map ObjectRef.target)
    (World.renderObject gl scene w.actualFPS view projection)
  Routine.call Call.swapBuffers

/-- `World::processFrame()`. -/
def World.processFrame {α : Type} [LinearOrderedField α] [FloorRing α] (gl : GLDevice α)
    (scene : Scene α) (w : World α) : Routine (Call α) Unit := do
  w.stepPhysics
  w.renderFrame gl scene

/-! ## World/World.h and Physics/PhysicsSystem.h -/

/-- The constructor `World(graphics, physics)`. -/
def World.new {α : Type} [LinearOrderedField α] : World α :=
  World.mk [] [] 0 60 (1 / 60) true 1 0

/-- `std::set::insert` on the set of object pointers, kept in increasing address
order: a pointer that is already in the set is not inserted again. -/
def setInsert {α : Type} : List (ObjectRef α) → ObjectRef α → List (ObjectRef α)
  | [], p => [p]
  | q :: rest, p =>
      if p.addr < q.addr then p :: q :: rest
      else if p.addr = q.addr then q :: rest
      else q :: setInsert rest p

/-- `std::set::find(object) != end()`. -/
def setContains {α : Type} : List (ObjectRef α) → Nat → Bool
  | [], _ => false
  | q :: rest, addr => if q.addr = addr then true else setContains rest addr

/-- `std::set::erase(it)` for the iterator that `find` returned. -/
def setErase {α : Type} : List (ObjectRef α) → Nat → List (ObjectRef α)
  | [], _ => []
  | q :: rest, addr => if q.addr = addr then rest else q :: setErase rest addr

/-- `PhysicsSystem::addBody(ob)`. -/
def PhysicsSystem.addBody {α : Type} (ob : ObjectRef α) : Routine (Call α) Unit :=
  if ob.target.getPhysical.isSome then Routine.call (Call.addRigidBody ob.addr)
  else pure ()

/-- `PhysicsSystem::removeBody(ob)`. -/
def PhysicsSystem.removeBody {α : Type} (ob : ObjectRef α) : Routine (Call α) Unit :=
  if ob.target.getPhysical.isSome then Routine.call (Call.removeRigidBody ob.addr)
  else pure ()

/-- `World::addObject(object)`; the result is the world after the call. -/
def World.addObject {α : Type} (w : World α) (object : ObjectRef α) :
    Routine (Call α) (World α) := do
  let w := { w with objects := setInsert w.objects object }
  PhysicsSystem.addBody object
  pure w

/-- `it->second->push_back(object)` on the entry that `find(material)` returned. -/
def bucketPushBack {α : Type} :
    List (Nat × List (ObjectRef α)) → Nat → ObjectRef α → List (Nat × List (ObjectRef α))
  | [], _, _ => []
  | e :: rest, material, object =>
      if e.1 = material then (e.1, e.2 ++ [object]) :: rest
      else e :: bucketPushBack rest material object

/-- `World::addStaticObject(object)`; materialOf is
`object->getModel()->getMaterial().get()`, the address of the material of the
object (these accessors are not among the sources). -/
def World.addStaticObject {α : Type} (materialOf : ObjectRef α → Nat) (w : World α)
    (object : ObjectRef α) : World α :=
  let material := materialOf object
  let w :=
    match w.staticObjects.lookup material with
    | none => { w with staticObjects := w.staticObjects ++ [(material, [object])] }
    | some _ =>
        { w with staticObjects := bucketPushBack w.staticObjects material object }
  { w with staticObjectCount := w.staticObjectCount + 1 }

/-- `World::removeObject(object)`; the result is the world after the call. -/
def World.removeObject {α : Type} (w : World α) (object : ObjectRef α) :
    Routine (Call α) (World α) :=
  if setContains w.objects object.addr then do
    let w := { w with objects := setErase w.objects object.addr }
    PhysicsSystem.removeBody object
    pure w
  else pure w

/-- `World::setTargetFPS(fps)`. -/
def World.setTargetFPS {α : Type} [LinearOrderedField α] (w : World α) (fps : Int) :
    World α :=
  let w := { w with fps := fps }
  if w.alignPStep2FPS then { w with physicsStepTime := 1 / (fps : α) } else w

/-- `World::alignPhysicsStepToFPS(align)`. -/
def World.alignPhysicsStepToFPS {α : Type} [LinearOrderedField α] (w : World α)
    (align : Bool) : World α :=
  let w := { w with alignPStep2FPS := align }
  if align then
    let w := { w with physicsStepsPerFrame := 1 }
    { w with physicsStepTime := 1 / (w.fps : α) }
  else w

/-- `World::setPhysicsStepTime(time)`; the result is the world after the call. -/
def World.setPhysicsStepTime {α : Type} (w : World α) (time : α) :
    Routine (Call α) (World α) := do
  if w.alignPStep2FPS then
    throw_MagicException
      "Tried to manually set physics step time when physics step is aligned to FPS."
  pure { w with physicsStepTime := time }

/-- `World::setPhysicsStepsPerFrame(steps)`; the result is the world after the call. -/
def World.setPhysicsStepsPerFrame {α : Type} (w : World α) (steps : Int) :
    Routine (Call α) (World α) := do
  if w.alignPStep2FPS then
    throw_MagicException
      "Tried to manually set physics steps per frame when physics step is aligned to FPS."
  pure { w with physicsStepsPerFrame := steps }

/-- The busy wait of `World::endFrame()`, run on the successive values that
`frameTimer.getElapsedTime()` returns: the readings left when the loop ends,
none while every reading is below frameTime. -/
def World.waitFrame {α : Type} [LinearOrderedField α] (frameTime : α) :
    List α → Option (List α)
  | [] => none
  | elapsed :: rest =>
      if elapsed < frameTime then World.waitFrame frameTime rest else some rest

/-- `World::endFrame()`, run on the successive values that
`frameTimer.getElapsedTime()` returns since `startFrame()`; none when the
readings end before the function returns. -/
def World.endFrame {α : Type} [LinearOrderedField α] [FloorRing α] (w : World α)
    (readings : List α) : Option (World α) :=
  let frameTime : α := 1 / (w.fps : α)
  match World.waitFrame frameTime readings with
  | none => none
  | some [] => none
  | some (elapsed :: _) => some { w with actualFPS := castInt (1 / elapsed) }

/-- `World::getActualFPS()`. -/
def World.getActualFPS {α : Type} (w : World α) : Int := w.actualFPS

/-- `World::getObjectCount()`. -/
def World.getObjectCount {α : Type} (w : World α) : Int :=
  (w.objects.length : Int) + w.staticObjectCount

/-- One of the calls `addObject`, `removeObject` and `addStaticObject` on a world. -/
inductive WorldOp (α : Type) where
  | addObject (object : ObjectRef α)
  | removeObject (object : ObjectRef α)
  | addStaticObject (object : ObjectRef α)

/-- The call that a `WorldOp` stands for; the result is the world after it. -/
def World.applyOp {α : Type} (materialOf : ObjectRef α → Nat) (w : World α) :
    WorldOp α → Routine (Call α) (World α)
  | WorldOp.addObject object => w.addObject object
  | WorldOp.removeObject object => w.removeObject object
  | WorldOp.addStaticObject object => pure (w.addStaticObject materialOf object)

/-- A sequence of such calls on one world, in order. -/
def World.applyOps {α : Type} (materialOf : ObjectRef α → Nat) :
    World α → List (WorldOp α) → Routine (Call α) (World α)
  | w, [] => pure w
  | w, op :: ops => do
      let w1 ← w.applyOp materialOf op
      World.applyOps materialOf w1 ops

/-- The total number of objects in the vectors of the static index. -/
def World.staticTotal {α : Type} (w : World α) : Int :=
  (w.staticObjects.map (fun e => (e.2.length : Int))).sum

/-! ## demo/sandbox/sandbox.cpp -/

/-- The pause branch of `keyPressed` for the key p: `alignPhysicsStepToFPS(false)`
followed by `setPhysicsStepsPerFrame(0)`; the result is the world after it. -/
def Sandbox.pause {α : Type} [LinearOrderedField α] (world : World α) :
    Routine (Call α) (World α) := do
  let world := world.alignPhysicsStepToFPS false
  world.setPhysicsStepsPerFrame 0

/-- The unpause branch of `keyPressed` for the key p: `alignPhysicsStepToFPS(true)`. -/
def Sandbox.unpause {α : Type} [LinearOrderedField α] (world : World α) : World α :=
  world.alignPhysicsStepToFPS true

/-! ## Math/IntelSIMD/Matrix4.cc: the operands in memory -/

/-- MOVAPS [data + n*4], xmm: store four consecutive scalars. -/
def Matrix4.store {α : Type} (m : Matrix4 α) (n : Fin 4) (xmm : XMM α) : Matrix4 α :=
  Matrix4.mk (fun k =>
    if k.val / 4 = n.val then xmm (Fin.mk (k.val % 4) (by omega)) else m.data k)

/-- An operand of `Matrix4::multiply`: the matrix that the result is stored in,
or another matrix. -/
inductive Operand (α : Type) where
  | result
  | other (m : Matrix4 α)

/-- The matrix an operand refers to, given what the result matrix holds now. -/
def Operand.read {α : Type} (o : Operand α) (result : Matrix4 α) : Matrix4 α :=
  match o with
  | Operand.result => result
  | Operand.other m => m

/-- `Matrix4::multiply(m1, m2)` on the memory of the result matrix: the first
operand is loaded and transposed, then each COMPUTE_ROW(n) block loads four
scalars of the second operand and stores four scalars of the result, so an
operand that is the result matrix itself is read as the stores before have
left it. -/
def Matrix4.multiplyInPlace {α : Type} [CommSemiring α] (result : Matrix4 α)
    (m1 m2 : Operand α) : Matrix4 α :=
  let xmm3 := (m1.read result).load 0
  let xmm2 := (m1.read result).load 1
  let xmm1 := (m1.read result).load 2
  let xmm0 := (m1.read result).load 3
  let xmm5 := xmm2
  let xmm6 := xmm3
  let xmm2 := UNPCKLPS xmm2 xmm0
  let xmm5 := UNPCKHPS xmm5 xmm0
  let xmm3 := UNPCKLPS xmm3 xmm1
  let xmm6 := UNPCKHPS xmm6 xmm1
  let xmm0 := xmm3
  let xmm1 := xmm6
  let xmm3 := UNPCKLPS xmm3 xmm2
  let xmm0 := UNPCKHPS xmm0 xmm2
  let xmm6 := UNPCKLPS xmm6 xmm5
  let xmm1 := UNPCKHPS xmm1 xmm5
  let result := result.store 0 (COMPUTE_ROW xmm3 xmm0 xmm6 xmm1 (m2.read result) 0)
  let result := result.store 1 (COMPUTE_ROW xmm3 xmm0 xmm6 xmm1 (m2.read result) 1)
  let result := result.store 2 (COMPUTE_ROW xmm3 xmm0 xmm6 xmm1 (m2.read result) 2)
  let result := result.store 3 (COMPUTE_ROW xmm3 xmm0 xmm6 xmm1 (m2.read result) 3)
  result

/-- `Matrix4::multiply(m)`: `multiply(*this, m)`. -/
def Matrix4.multiplyBy {α : Type} [CommSemiring α] (result : Matrix4 α) (m : Operand α) :
    Matrix4 α :=
  Matrix4.multiplyInPlace result Operand.result m

/-! ## Graphics/Image.h and Graphics/Image.cpp -/

/-- Modelled from the spec: a colour, of which Image.h uses the bytes of its
components only, in the order red, green, blue, alpha (Color.h is not among
the sources). -/
structure Color where
  comps : Nat → Nat

/-- Modelled from the spec: `Color::getColor(c, channels)` writes the first
`channels` components of the colour to c[0], c[1], ...; the result is c. -/
def Color.getColor (p : Color) (_channels : Int) : Int → Nat :=
  fun k => p.comps k.toNat

/-- An image. `data i` is the byte at `data[i]`, for every offset i from the
start of the buffer: the buffer allocated by the constructors is the offsets
0 ≤ i < width*height*channels, another offset is memory outside of it. -/
structure Image where
  width : Int
  height : Int
  channels : Int
  data : Int → Nat

/-- `memcpy(&dest[destOff], &src[srcOff], count)`. -/
def memcpyBytes (dest : Int → Nat) (destOff : Int) (src : Int → Nat) (srcOff : Int)
    (count : Int) : Int → Nat :=
  fun i => if destOff ≤ i ∧ i < destOff + count then src (srcOff + (i - destOff)) else dest i

/-- `Image::getPixel(p, x, y)`; the result is the bytes that `p->setColor` is
given, one for each channel. -/
def Image.getPixel {C : Type} (img : Image) (x y : Int) : Routine C (List Nat) := do
  MAGIC_THROW (decide (x ≥ img.width)) "X component out of range"
  MAGIC_THROW (decide (y ≥ img.height)) "Y component out of range"
  pure ((List.range img.channels.toNat).map
    (fun (k : Nat) => img.data (x * y * img.channels + (k : Int))))

/-- `Image::setPixel(p, x, y)`; the result is the image after the call. -/
def Image.setPixel {C : Type} (img : Image) (p : Color) (x y : Int) : Routine C Image := do
  MAGIC_THROW (decide (x ≥ img.width)) "X component out of range"
  MAGIC_THROW (decide (y ≥ img.height)) "Y component out of range"
  let c := p.getColor img.channels
  pure { img with data := memcpyBytes img.data (x * y * img.channels) c 0 img.channels }

/-- The loop `for(int i = ...; i < end; i += channels) memcpy(&data[i], c, channels)`
of `Image::rectFill`, from index i on, at most fuel iterations. -/
def Image.rectFillLoop (c : Int → Nat) (channels end_ : Int) :
    Nat → Int → (Int → Nat) → (Int → Nat)
  | 0, _, data => data
  | fuel + 1, i, data =>
      if i < end_ then
        Image.rectFillLoop c channels end_ fuel (i + channels) (memcpyBytes data i c 0 channels)
      else data

/-- `Image::rectFill(p, x, y, width, height)`; the result is the image after the
call. The loop is given end - x*y*channels iterations, which is all its
iterations when channels is at least 1, as it is in every image with data. -/
def Image.rectFill {C : Type} (img : Image) (p : Color) (x y width height : Int) :
    Routine C Image := do
  MAGIC_THROW (decide (x + width > img.width)) "Width of rect too large."
  MAGIC_THROW (decide (y + height > img.height)) "Height of rect too large."
  let c := p.getColor img.channels
  let end_ := (x + width) * (y + height) * img.channels
  let data := Image.rectFillLoop c img.channels end_ (end_ - x * y * img.channels).toNat
    (x * y * img.channels) img.data
  pure { img with data := data }

/-- `Image::copyImage(dest, source, destX, destY, sourceX, sourceY, width, height)`;
the result is the destination after the call, the source is only read. The
two images are taken to have separate buffers. -/
def Image.copyImage {C : Type} (dest source : Image)
    (destX destY sourceX sourceY width height : Int) : Routine C Image := do
  let width := if width < 0 then source.width else width
  let height := if height < 0 then source.height else height
  MAGIC_THROW (decide (sourceX + width > source.width)) "Width of rect too large."
  MAGIC_THROW (decide (sourceY + height > source.height)) "Height of rect too large."
  MAGIC_THROW (decide (destX + width > dest.width)) "Width of rect too large."
  MAGIC_THROW (decide (destY + height > dest.height)) "Height of rect too large."
  MAGIC_THROW (decide (source.channels ≠ dest.channels)) "Channel counts do not match."
  let data := (List.range height.toNat).foldl
    (fun (data : Int → Nat) (row : Nat) =>
      memcpyBytes data
        (destX * dest.channels + destY * dest.width * dest.channels
          + (row : Int) * dest.width * dest.channels)
        source.data
        (sourceX * source.channels + sourceY * source.width * source.channels
          + (row : Int) * source.width * source.channels)
        (width * dest.channels))
    dest.data
  pure { dest with data := data }

/-- `Image::copyIn(source, destX, destY, sourceX, sourceY, width, height)`. -/
def Image.copyIn {C : Type} (img source : Image)
    (destX destY sourceX sourceY width height : Int) : Routine C Image :=
  Image.copyImage img source destX destY sourceX sourceY width height

/-! ## Vocabulary of the statements -/

/-- Whether a run ended with a thrown exception. -/
def threw {C β : Type} (run : Except String β × List C) : Bool :=
  match run.1 with
  | Except.error _ => true
  | Except.ok _ => false

/-- Every device call the routine makes satisfies P; the calls made before it
started stay in the trace. -/
def Routine.emitsOnly {C β : Type} (P : C → Bool) (m : Routine C β) : Prop :=
  ∀ tr : List C, ∃ new : List C, (m tr).2 = tr ++ new ∧ ∀ c ∈ new, P c = true

/-- The column-major array of a matrix: entry (row, col) at index 4*col + row. -/
def Matrix4.ofMatrix {α : Type} (A : Matrix (Fin 4) (Fin 4) α) : Matrix4 α :=
  Matrix4.mk (fun k => A (Fin.mk (k.val % 4) (by omega)) (Fin.mk (k.val / 4) (by omega)))

/-- The column-major array of a 3x3 matrix: entry (row, col) at index 3*col + row. -/
def Matrix3.ofMatrix {α : Type} (A : Matrix (Fin 3) (Fin 3) α) : Matrix3 α :=
  Matrix3.mk (fun k => A (Fin.mk (k.val % 3) (by omega)) (Fin.mk (k.val / 3) (by omega)))

/-- The `glBindAttribLocation` calls of a run of `bindAttrib` calls that starts
with the counter at index: one call for each request, in order, the counter
going up by one from call to call. -/
def Shader.bindCalls {α : Type} (programId : Nat) :
    Int → List (String × AttributeType) → List (Call α)
  | _, [] => []
  | index, (name, _) :: rest =>
      Call.glBindAttribLocation programId index name ::
        Shader.bindCalls programId (index + 1) rest

/-- The auto-uniform kind TEXTUREi of texture slot i. -/
def AutoUniformType.TEXTURE : Fin 8 → AutoUniformType :=
  ![AutoUniformType.TEXTURE0, AutoUniformType.TEXTURE1, AutoUniformType.TEXTURE2,
    AutoUniformType.TEXTURE3, AutoUniformType.TEXTURE4, AutoUniformType.TEXTURE5,
    AutoUniformType.TEXTURE6, AutoUniformType.TEXTURE7]

/-- One of the calls `setTargetFPS`, `alignPhysicsStepToFPS`, `setPhysicsStepTime`
and `setPhysicsStepsPerFrame` on a world. -/
inductive ConfigOp (α : Type) where
  | setTargetFPS (fps : Int)
  | alignPhysicsStepToFPS (align : Bool)
  | setPhysicsStepTime (time : α)
  | setPhysicsStepsPerFrame (steps : Int)

/-- The world after the call that a `ConfigOp` stands for: the world that the
call returned, or the world as it was when the call threw. -/
def World.applyConfig {α : Type} [LinearOrderedField α] (w : World α) :
    ConfigOp α → World α
  | ConfigOp.setTargetFPS fps => w.setTargetFPS fps
  | ConfigOp.alignPhysicsStepToFPS align => w.alignPhysicsStepToFPS align
  | ConfigOp.setPhysicsStepTime time =>
      match (w.setPhysicsStepTime time ([] : List (Call α))).1 with
      | Except.ok w1 => w1
      | Except.error _ => w
  | ConfigOp.setPhysicsStepsPerFrame steps =>
      match (w.setPhysicsStepsPerFrame steps ([] : List (Call α))).1 with
      | Except.ok w1 => w1
      | Except.error _ => w

/-- The draw calls of the (mesh, material) pairs of an object: one for each pair
of its model, none for an object without a graphical part. -/
def Object.drawCalls {α : Type} (ob : Object α) : List (Call α) :=
  match ob.getGraphical with
  | none => []
  | some en =>
      match en.model with
      | none => []
      | some m => m.pairs.map (fun pair => Call.draw pair.2.primitive pair.1.vertexCount)

/-- The number of meshes of the model of an object, 0 for an object without a
graphical part. -/
def Object.meshCount {α : Type} (ob : Object α) : Nat :=
  match ob.getGraphical with
  | none => 0
  | some en =>
      match en.model with
      | none => 0
      | some m => m.pairs.length

/-- The bytes of pixel (x, y) of an image, one for each channel, under the
layout of the data of Image.h ("no channel, pixel, or row padding"): rows one
after the other, pixel (x, y) at offset (y*width + x)*channels. -/
def Image.pixelAt (img : Image) (x y : Int) : List Nat :=
  (List.range img.channels.toNat).map
    (fun (k : Nat) => img.data ((y * img.width + x) * img.channels + (k : Int)))

/-- The first `channels` components of a colour. -/
def Color.firstComps (p : Color) (channels : Int) : List Nat :=
  (List.range channels.toNat).map p.comps

/-! ## Test inputs -/

/-- A graphics library whose programs declare the single uniform name
"lightPosition", at location 0, and which never reports an error. -/
def Example.gl (α : Type) : GLDevice α :=
  GLDevice.mk (fun _ name => if name = "lightPosition" then 0 else -1) (fun _ => false)

/-- A linked shader program with no bound attribute. -/
def Example.shader : Shader := Shader.mk 1 0 []

/-- A material with a texture in slot 0 that asks for it under the name "tex". -/
def Example.material (α : Type) : Material α :=
  Material.mk (some Example.shader) 4 (fun i => if i = 0 then some (Texture.mk 9) else none)
    [AutoUniform.mk "tex" AutoUniformType.TEXTURE0] []

/-- A scene whose camera and objects sit at the origin: every camera, transform
and projection matrix is the identity, and the light position is left as it is. -/
def Example.scene (α : Type) [CommSemiring α] : Scene α :=
  Scene.mk (Position.mk (Point3.mk 0 0 0) (Point3.mk 0 0 0) (Point3.mk 0 0 0))
    Matrix4.identity (fun _ => Matrix4.identity) (fun _ => Matrix4.identity) (fun p _ => p)
    (MeshTables.mk (fun t => t) (fun _ => 3))

/-- A mesh of three vertices with a position and a normal array. -/
def Example.mesh : Mesh :=
  Mesh.mk [AttributeData.mk AttributeType.VERTEX (Buffer.mk 1),
    AttributeData.mk AttributeType.NORMAL (Buffer.mk 2)] 3

/-- An object without a body, drawn with the example mesh and material. -/
def Example.object (α : Type) [CommSemiring α] : Object α :=
  Object.mk (Position.mk (Point3.mk 0 0 0) (Point3.mk 0 0 0) (Point3.mk 0 0 0))
    (some (GraphicalEntity.mk (some (Model.mk [(Example.mesh, Example.material α)])))) none

/-- A world that holds the example object and does not step its physics. -/
def Example.world : World ℚ :=
  World.mk [ObjectRef.mk 1 (Example.object ℚ)] [] 0 60 0 false 0 0

/-- A material without textures and without uniforms of its own. -/
def Example.plainMaterial (α : Type) : Material α :=
  Material.mk (some Example.shader) 4 (fun _ => none) [] []

/-- A world with two objects: one drawn with the example mesh and the plain
material, one with a body and no graphical part. -/
def Example.plainWorld : World ℚ :=
  World.mk
    [ObjectRef.mk 1 (Object.mk (Example.object ℚ).position
        (some (GraphicalEntity.mk (some (Model.mk [(Example.mesh, Example.plainMaterial ℚ)]))))
        none),
      ObjectRef.mk 2 (Object.mk (Example.object ℚ).position none
        (some (PhysicalBody.mk (CollisionShape.mk 7) 1 (Example.object ℚ).position)))]
    [] 0 60 0 false 0 0

/-- A 2x2 image of one channel, every byte 0. -/
def Example.blank : Image := Image.mk 2 2 1 (fun _ => 0)

/-- A 2x2 image of one channel with the bytes 100, 101, 102, 103, in memory
where the byte at offset i is 100 + i around the buffer as well. -/
def Example.ramp : Image := Image.mk 2 2 1 (fun i => (100 + i).toNat)

/-- A 3x3 image of one channel, every byte 0. -/
def Example.canvas : Image := Image.mk 3 3 1 (fun _ => 0)

/-- The colour with every component 255. -/
def Example.white : Color := Color.mk (fun _ => 255)

end Magic3D

namespace Magic3D

/-! ## Running routines -/

theorem Routine.run_pure {C β : Type} (x : β) (tr : List C) :
    (pure x : Routine C β) tr = (Except.ok x, tr) := rfl

theorem Routine.run_bind {C β γ : Type} (m : Routine C β) (f : β → Routine C γ)
    (tr : List C) : (m >>= f) tr = Routine.bind m f tr := rfl

theorem Routine.bind_ok {C β γ : Type} (m : Routine C β) (f : β → Routine C γ)
    (tr tr1 : List C) (x : β) (h : m tr = (Except.ok x, tr1)) :
    Routine.bind m f tr = f x tr1 := by
  simp [Routine.bind, h]

theorem Routine.bind_error {C β γ : Type} (m : Routine C β) (f : β → Routine C γ)
    (tr tr1 : List C) (e : String) (h : m tr = (Except.error e, tr1)) :
    Routine.bind m f tr = (Except.error e, tr1) := by
  simp [Routine.bind, h]

theorem Routine.run_call {C : Type} (c : C) (tr : List C) :
    Routine.call c tr = (Except.ok (), tr ++ [c]) := rfl

theorem Routine.run_throw {C β : Type} (msg : String) (tr : List C) :
    (throw_MagicException msg : Routine C β) tr = (Except.error msg, tr) := rfl

theorem MAGIC_THROW_true {C : Type} (msg : String) (tr : List C) :
    (MAGIC_THROW true msg : Routine C Unit) tr = (Except.error msg, tr) := rfl

theorem MAGIC_THROW_false {C : Type} (msg : String) (tr : List C) :
    (MAGIC_THROW false msg : Routine C Unit) tr = (Except.ok (), tr) := rfl

theorem Routine.forEach_nil {C β : Type} (body : β → Routine C Unit) (tr : List C) :
    Routine.forEach [] body tr = (Except.ok (), tr) := rfl

theorem Routine.forEach_cons {C β : Type} (x : β) (xs : List β) (body : β → Routine C Unit)
    (tr : List C) :
    Routine.forEach (x :: xs) body tr =
      Routine.bind (body x) (fun _ => Routine.forEach xs body) tr := rfl

/-- A loop whose body throws at an element stops there: the elements after it are not run. -/
theorem Routine.forEach_throws {C β : Type} (body : β → Routine C Unit) (xs ys : List β)
    (x : β) (tr tr1 tr2 : List C) (e : String)
    (h1 : Routine.forEach xs body tr = (Except.ok (), tr1))
    (h2 : body x tr1 = (Except.error e, tr2)) :
    Routine.forEach (xs ++ x :: ys) body tr = (Except.error e, tr2) := by
  induction xs generalizing tr with
  | nil =>
    rw [Routine.forEach_nil] at h1
    cases h1
    rw [List.nil_append, Routine.forEach_cons, Routine.bind_error _ _ _ _ _ h2]
  | cons a as ih =>
    rw [Routine.forEach_cons] at h1
    rw [List.cons_append, Routine.forEach_cons]
    cases hb : body a tr with
    | mk r tr3 =>
      cases r with
      | error e3 =>
        rw [Routine.bind_error _ _ _ _ _ hb] at h1
        cases h1
      | ok u =>
        rw [Routine.bind_ok _ _ _ _ _ hb] at h1
        rw [Routine.bind_ok _ _ _ _ _ hb]
        exact ih tr3 h1

theorem Routine.emitsOnly_pure {C β : Type} (P : C → Bool) (x : β) :
    Routine.emitsOnly P (pure x : Routine C β) := by
  intro tr
  exact ⟨[], by simp [Routine.run_pure], by simp⟩

theorem Routine.emitsOnly_throw {C β : Type} (P : C → Bool) (msg : String) :
    Routine.emitsOnly P (throw_MagicException msg : Routine C β) := by
  intro tr
  exact ⟨[], by simp [Routine.run_throw], by simp⟩

theorem Routine.emitsOnly_call {C : Type} (P : C → Bool) (c : C) (h : P c = true) :
    Routine.emitsOnly P (Routine.call c) := by
  intro tr
  exact ⟨[c], by simp [Routine.run_call], by simpa using h⟩

theorem Routine.emitsOnly_calls {C : Type} (P : C → Bool) :
    Routine.emitsOnly P (Routine.calls : Routine C (List C)) := by
  intro tr
  exact ⟨[], by simp [Routine.calls], by simp⟩

theorem Routine.emitsOnly_bind {C β γ : Type} (P : C → Bool) (m : Routine C β)
    (f : β → Routine C γ) (hm : Routine.emitsOnly P m)
    (hf : ∀ x, Routine.emitsOnly P (f x)) : Routine.emitsOnly P (m >>= f) := by
  intro tr
  obtain ⟨new1, h1, hp1⟩ := hm tr
  rw [Routine.run_bind]
  cases hr : m tr with
  | mk r tr1 =>
    rw [hr] at h1
    simp only at h1
    subst h1
    cases r with
    | error e =>
      rw [Routine.bind_error _ _ _ _ _ hr]
      exact ⟨new1, rfl, hp1⟩
    | ok x =>
      rw [Routine.bind_ok _ _ _ _ _ hr]
      obtain ⟨new2, h2, hp2⟩ := hf x (tr ++ new1)
      refine ⟨new1 ++ new2, by rw [h2, List.append_assoc], ?_⟩
      intro c hc
      rcases List.mem_append.mp hc with h | h
      · exact hp1 c h
      · exact hp2 c h

theorem Routine.emitsOnly_ite {C β : Type} (P : C → Bool) (c : Prop) [Decidable c]
    (a b : Routine C β) (ha : Routine.emitsOnly P a) (hb : Routine.emitsOnly P b) :
    Routine.emitsOnly P (if c then a else b) := by
  split
  · exact ha
  · exact hb

theorem Routine.emitsOnly_forEach {C β : Type} (P : C → Bool) (xs : List β)
    (body : β → Routine C Unit) (h : ∀ x, Routine.emitsOnly P (body x)) :
    Routine.emitsOnly P (Routine.forEach xs body) := by
  induction xs with
  | nil => exact Routine.emitsOnly_pure P ()
  | cons x xs ih => exact Routine.emitsOnly_bind P _ _ (h x) (fun _ => ih)

theorem MAGIC_THROW_emitsOnly {C : Type} (P : C → Bool) (cond : Bool) (msg : String) :
    Routine.emitsOnly P (MAGIC_THROW cond msg : Routine C Unit) := by
  cases cond
  · exact Routine.emitsOnly_pure P ()
  · exact Routine.emitsOnly_throw P msg

theorem MAGIC_ASSERT_emitsOnly {C : Type} (P : C → Bool) (cond : Bool) :
    Routine.emitsOnly P (MAGIC_ASSERT cond : Routine C Unit) := by
  cases cond
  · exact Routine.emitsOnly_throw P _
  · exact Routine.emitsOnly_pure P ()

theorem GLDevice.failed_emitsOnly {α : Type} (P : Call α → Bool) (gl : GLDevice α) :
    Routine.emitsOnly P gl.failed :=
  Routine.emitsOnly_bind P _ _ (Routine.emitsOnly_calls P) (fun _ => Routine.emitsOnly_pure P _)

theorem DPPS_F {α : Type} [CommSemiring α] (dst src : XMM α) (lo : Nat) (hlo : lo < 16) :
    DPPS dst src (0xF0 + lo) =
      fun i => if lo.testBit i.val then
        (dst 0 * src 0 + dst 1 * src 1) + (dst 2 * src 2 + dst 3 * src 3) else 0 := by
  have h : ∀ i : Fin 4, (0xF0 + lo).testBit (4 + i.val) = true ∧
      (0xF0 + lo).testBit i.val = lo.testBit i.val := by
    intro i
    interval_cases lo <;> fin_cases i <;> decide
  funext i
  simp only [DPPS, (h 0).1, (h 1).1, (h 2).1, (h 3).1, (h i).2, if_true]

theorem COMPUTE_ROW_eq {α : Type} [CommSemiring α] (r0 r1 r2 r3 : XMM α) (m2 : Matrix4 α)
    (n : Fin 4) :
    COMPUTE_ROW r0 r1 r2 r3 m2 n =
      fun i => (m2.load n 0 * ![r0, r1, r2, r3] i 0 + m2.load n 1 * ![r0, r1, r2, r3] i 1) +
        (m2.load n 2 * ![r0, r1, r2, r3] i 2 + m2.load n 3 * ![r0, r1, r2, r3] i 3) := by
  have e1 := DPPS_F (m2.load n) r0 1 (by decide)
  have e2 := DPPS_F (m2.load n) r1 2 (by decide)
  have e4 := DPPS_F (m2.load n) r2 4 (by decide)
  have e8 := DPPS_F (m2.load n) r3 8 (by decide)
  norm_num at e1 e2 e4 e8
  funext i
  simp only [COMPUTE_ROW, e1, e2, e4, e8, BLENDPS]
  fin_cases i <;> simp [Nat.testBit]

theorem Matrix4.ofStores_data {α : Type} (s : Fin 4 → XMM α) (c r : Fin 4) :
    (Matrix4.ofStores (s 0) (s 1) (s 2) (s 3)).data (Fin.mk (4 * c.val + r.val) (by omega))
      = s c r := by
  fin_cases c <;> fin_cases r <;> rfl

theorem Matrix4.multiply_data {α : Type} [CommSemiring α] (m1 m2 : Matrix4 α) (c r : Fin 4) :
    (Matrix4.multiply m1 m2).data (Fin.mk (4 * c.val + r.val) (by omega)) =
      (m2.load c 0 * m1.load 0 r + m2.load c 1 * m1.load 1 r) +
        (m2.load c 2 * m1.load 2 r + m2.load c 3 * m1.load 3 r) := by
  have h := Matrix4.ofStores_data
    (fun n => COMPUTE_ROW
      (UNPCKLPS (UNPCKLPS (m1.load 0) (m1.load 2)) (UNPCKLPS (m1.load 1) (m1.load 3)))
      (UNPCKHPS (UNPCKLPS (m1.load 0) (m1.load 2)) (UNPCKLPS (m1.load 1) (m1.load 3)))
      (UNPCKLPS (UNPCKHPS (m1.load 0) (m1.load 2)) (UNPCKHPS (m1.load 1) (m1.load 3)))
      (UNPCKHPS (UNPCKHPS (m1.load 0) (m1.load 2)) (UNPCKHPS (m1.load 1) (m1.load 3)))
      m2 n) c r
  rw [Matrix4.multiply]
  refine h.trans ?_
  rw [COMPUTE_ROW_eq]
  fin_cases r <;> rfl

theorem Matrix4.multiply_toMatrix {α : Type} [CommSemiring α] (m1 m2 : Matrix4 α) :
    (Matrix4.multiply m1 m2).toMatrix = m1.toMatrix * m2.toMatrix := by
  funext r c
  rw [Matrix.mul_apply, Fin.sum_univ_four]
  show (Matrix4.multiply m1 m2).data (Fin.mk (4 * c.val + r.val) (by omega)) = _
  rw [Matrix4.multiply_data]
  simp only [Matrix4.toMatrix, Matrix4.load]
  simp only [mul_comm, add_assoc]

/-! ## Objects -/

theorem Object.build_run {α : Type} (this : Object α) (model : Option (Model α))
    (shape : Option CollisionShape) (mass : α) (tr : List (Call α)) :
    Object.build this model shape mass tr =
      match model, shape with
      | none, none =>
          (Except.error "Cannot build a object with neither a graphical nor physical entity.",
            tr)
      | some m, none =>
          (Except.ok { this with graphical := some (GraphicalEntity.mk (some m)) }, tr)
      | none, some sh =>
          (Except.ok { this with physical := some (PhysicalBody.create this.position sh mass) },
            tr)
      | some m, some sh =>
          (Except.ok (Object.mk this.position (some (GraphicalEntity.mk (some m)))
            (some (PhysicalBody.create this.position sh mass))), tr) := by
  cases model <;> cases shape <;> rfl

/-- C1: for every model, collision shape, mass and initial position, `build` and each
of the three Object constructors throw exactly when the model and the collision
shape are both null, and end normally when at least one of them is present. -/
theorem Object.constructors_throw_iff_both_null {α : Type} [CommSemiring α]
    (this : Object α) (origin p : Position α) (location : Point3 α)
    (model : Option (Model α)) (shape : Option CollisionShape) (mass : α)
    (tr : List (Call α)) :
    threw (Object.build this model shape mass tr) = (model.isNone && shape.isNone) ∧
    threw (Object.newWithMass origin model shape mass tr) = (model.isNone && shape.isNone) ∧
    threw (Object.newAtPosition model shape p tr) = (model.isNone && shape.isNone) ∧
    threw (Object.newAtLocation origin model shape location tr)
      = (model.isNone && shape.isNone) := by
  simp only [Object.newWithMass, Object.newAtPosition, Object.newAtLocation, Object.build_run]
  cases model <;> cases shape <;> simp [threw]

/-- C2: an Object that a constructor returned has a graphical or a physical part; its
graphical part is present exactly when a model was given and its physical part
exactly when a collision shape was given; `setPosition` keeps both parts as
present or absent as they were (the accessors `getPosition`, `getPhysical` and
`getGraphical` return a member and leave the object as it is). -/
theorem Object.constructed_parts {α : Type} [CommSemiring α]
    (origin p : Position α) (location : Point3 α)
    (model : Option (Model α)) (shape : Option CollisionShape) (mass : α)
    (tr : List (Call α)) (run : Except String (Object α) × List (Call α)) (ob : Object α)
    (hrun : run = Object.newWithMass origin model shape mass tr ∨
      run = Object.newAtPosition model shape p tr ∨
      run = Object.newAtLocation origin model shape location tr)
    (hok : run.1 = Except.ok ob) :
    (ob.getGraphical.isSome = true ∨ ob.getPhysical.isSome = true) ∧
    ob.getGraphical.isSome = model.isSome ∧
    ob.getPhysical.isSome = shape.isSome ∧
    ∀ (sync : Position α → PhysicalBody α → PhysicalBody α) (q : Position α),
      (ob.setPosition sync q).getGraphical.isSome = ob.getGraphical.isSome ∧
      (ob.setPosition sync q).getPhysical.isSome = ob.getPhysical.isSome := by
  have hset : ∀ (o : Object α) (sync : Position α → PhysicalBody α → PhysicalBody α)
      (q : Position α),
      (o.setPosition sync q).getGraphical.isSome = o.getGraphical.isSome ∧
      (o.setPosition sync q).getPhysical.isSome = o.getPhysical.isSome := by
    intro o sync q
    cases o with
    | mk pos g ph => cases ph <;> simp [Object.setPosition, Object.getGraphical,
        Object.getPhysical]
  refine ⟨?_, ?_, ?_, hset ob⟩ <;>
    rcases hrun with h | h | h <;>
    subst h <;>
    simp only [Object.newWithMass, Object.newAtPosition, Object.newAtLocation,
      Object.build_run] at hok <;>
    cases model <;> cases shape <;>
    simp [Object.getGraphical, Object.getPhysical] at hok ⊢ <;>
    subst hok <;> simp

/-- Witness of C2: an object built from a collision shape alone. -/
theorem Object.constructed_parts_witness :
    let a : Position Int := Position.mk (Point3.mk 0 0 0) (Point3.mk 0 0 (-1)) (Point3.mk 0 1 0)
    let b : Position Int := Position.mk (Point3.mk 5 0 0) (Point3.mk 0 0 (-1)) (Point3.mk 0 1 0)
    let ob : Object Int := Object.mk a none (some (PhysicalBody.mk (CollisionShape.mk 7) 1 a))
    (ob.getGraphical.isSome = true ∨ ob.getPhysical.isSome = true) ∧
    ob.getGraphical.isSome = (none : Option (Model Int)).isSome ∧
    ob.getPhysical.isSome = (some (CollisionShape.mk 7)).isSome ∧
    (ob.setPosition PhysicalBody.syncPositionToPhysics b).getGraphical.isSome
      = ob.getGraphical.isSome ∧
    (ob.setPosition PhysicalBody.syncPositionToPhysics b).getPhysical.isSome
      = ob.getPhysical.isSome :=
  have h := Object.constructed_parts
    (Position.mk (Point3.mk 0 0 0) (Point3.mk 0 0 (-1)) (Point3.mk 0 1 0))
    (Position.mk (Point3.mk 0 0 0) (Point3.mk 0 0 (-1)) (Point3.mk 0 1 0))
    (Point3.mk 0 0 0) none (some (CollisionShape.mk 7)) 1 []
    (Object.newAtPosition none (some (CollisionShape.mk 7))
      (Position.mk (Point3.mk 0 0 0) (Point3.mk 0 0 (-1)) (Point3.mk 0 1 0)) [])
    (Object.mk (Position.mk (Point3.mk 0 0 0) (Point3.mk 0 0 (-1)) (Point3.mk 0 1 0)) none
      (some (PhysicalBody.mk (CollisionShape.mk 7) 1
        (Position.mk (Point3.mk 0 0 0) (Point3.mk 0 0 (-1)) (Point3.mk 0 1 0)))))
    (Or.inr (Or.inl rfl)) rfl
  ⟨h.1, h.2.1, h.2.2.1,
    h.2.2.2 PhysicalBody.syncPositionToPhysics
      (Position.mk (Point3.mk 5 0 0) (Point3.mk 0 0 (-1)) (Point3.mk 0 1 0))⟩

/-- C3: `setPosition` calls `syncPositionToPhysics` before it overwrites the position
member, so the body is synchronized with the position held before the call: the
body after `setPosition(p)` is the same for every p, and for an object at the
origin with a body, `setPosition` to (5, 0, 0) leaves the physics-side
transform at the origin while the position member is (5, 0, 0). -/
theorem Object.setPosition_syncs_previous_position :
    (∀ (α : Type) (sync : Position α → PhysicalBody α → PhysicalBody α) (ob : Object α)
        (p q : Position α),
        (ob.setPosition sync p).getPhysical = (ob.setPosition sync q).getPhysical ∧
        (ob.setPosition sync p).getPhysical = ob.getPhysical.map (sync ob.getPosition)) ∧
    (let a : Position Int := Position.mk (Point3.mk 0 0 0) (Point3.mk 0 0 (-1)) (Point3.mk 0 1 0)
     let b : Position Int := Position.mk (Point3.mk 5 0 0) (Point3.mk 0 0 (-1)) (Point3.mk 0 1 0)
     let ob : Object Int := Object.mk a none (some (PhysicalBody.create a (CollisionShape.mk 7) 1))
     (ob.setPosition PhysicalBody.syncPositionToPhysics b).getPosition = b ∧
     (ob.setPosition PhysicalBody.syncPositionToPhysics b).getPhysical.map
        PhysicalBody.transform = some a ∧
     a ≠ b) := by
  refine ⟨?_, ?_⟩
  · intro α sync ob p q
    cases ob with
    | mk pos g ph => cases ph <;> simp [Object.setPosition, Object.getPhysical,
        Object.getPosition]
  · decide

/-! ## Auto uniforms -/

theorem Matrix4.ofMatrix_toMatrix {α : Type} (m : Matrix4 α) :
    Matrix4.ofMatrix m.toMatrix = m := by
  cases m with
  | mk data =>
    simp only [Matrix4.ofMatrix, Matrix4.toMatrix, Matrix4.mk.injEq]
    funext k
    congr 1
    apply Fin.ext
    show 4 * (k.val / 4) + k.val % 4 = k.val
    omega

theorem Matrix4.multiply_eq_ofMatrix {α : Type} [CommSemiring α] (m1 m2 : Matrix4 α) :
    Matrix4.multiply m1 m2 = Matrix4.ofMatrix (m1.toMatrix * m2.toMatrix) := by
  rw [← Matrix4.multiply_toMatrix, Matrix4.ofMatrix_toMatrix]

theorem Matrix4.toMatrix_ofMatrix {α : Type} (A : Matrix (Fin 4) (Fin 4) α) :
    (Matrix4.ofMatrix A).toMatrix = A := by
  funext r c
  fin_cases r <;> fin_cases c <;> rfl

/-- C4: `Matrix4::multiply(m1, m2)` computes the product m1·m2 of the matrices stored
column-major, and the auto-uniform switch of `processFrame` passes to
`setUniformMatrix` the array of View·Model for MODEL_VIEW, of Projection·View
for VIEW_PROJECTION, of Projection·Model for MODEL_PROJECTION and of
Projection·(View·Model) for MODEL_VIEW_PROJECTION; with View = Projection =
identity and Model the translation by (1, 0, 0), the MODEL_VIEW_PROJECTION
matrix maps the column vector (0, 0, 0, 1) to (1, 0, 0, 1). -/
theorem World.setAutoUniform_composition {α : Type} [CommSemiring α] (gl : GLDevice α)
    (actualFPS : Int) (shader : Shader) (material : Material α)
    (model view projection : Matrix4 α) (name : String) :
    (∀ m1 m2 : Matrix4 α, (Matrix4.multiply m1 m2).toMatrix = m1.toMatrix * m2.toMatrix) ∧
    World.setAutoUniform gl actualFPS shader material model view projection
        (AutoUniform.mk name AutoUniformType.MODEL_VIEW_MATRIX)
      = shader.setUniformMatrix gl name 4
          (Matrix4.ofMatrix (view.toMatrix * model.toMatrix)).getArray 1 ∧
    World.setAutoUniform gl actualFPS shader material model view projection
        (AutoUniform.mk name AutoUniformType.VIEW_PROJECTION_MATRIX)
      = shader.setUniformMatrix gl name 4
          (Matrix4.ofMatrix (projection.toMatrix * view.toMatrix)).getArray 1 ∧
    World.setAutoUniform gl actualFPS shader material model view projection
        (AutoUniform.mk name AutoUniformType.MODEL_PROJECTION_MATRIX)
      = shader.setUniformMatrix gl name 4
          (Matrix4.ofMatrix (projection.toMatrix * model.toMatrix)).getArray 1 ∧
    World.setAutoUniform gl actualFPS shader material model view projection
        (AutoUniform.mk name AutoUniformType.MODEL_VIEW_PROJECTION_MATRIX)
      = shader.setUniformMatrix gl name 4
          (Matrix4.ofMatrix
            (projection.toMatrix * (view.toMatrix * model.toMatrix))).getArray 1 ∧
    Matrix.mulVec
        (Matrix4.multiply Matrix4.identity
          (Matrix4.multiply Matrix4.identity
            (Matrix4.createTranslationMatrix (1 : α) 0 0))).toMatrix
        ![0, 0, 0, 1]
      = ![1, 0, 0, 1] := by
  refine ⟨Matrix4.multiply_toMatrix, ?_, ?_, ?_, ?_, ?_⟩
  · simp only [World.setAutoUniform, Matrix4.multiply_eq_ofMatrix]
  · simp only [World.setAutoUniform, Matrix4.multiply_eq_ofMatrix]
  · simp only [World.setAutoUniform, Matrix4.multiply_eq_ofMatrix]
  · simp only [World.setAutoUniform, Matrix4.multiply_eq_ofMatrix, Matrix4.toMatrix_ofMatrix]
  · have hid : (Matrix4.identity : Matrix4 α).toMatrix = 1 := by
      funext r c
      fin_cases r <;> fin_cases c <;> rfl
    have htr : ∀ r c : Fin 4,
        (Matrix4.createTranslationMatrix (1 : α) 0 0).toMatrix r c =
          (![![1, 0, 0, 1], ![0, 1, 0, 0], ![0, 0, 1, 0], ![0, 0, 0, 1]] : Fin 4 → Fin 4 → α)
            r c := by
      intro r c
      fin_cases r <;> fin_cases c <;> rfl
    rw [Matrix4.multiply_toMatrix, Matrix4.multiply_toMatrix, hid, one_mul, one_mul]
    funext i
    simp only [Matrix.mulVec, Matrix.dotProduct, Fin.sum_univ_four, htr]
    fin_cases i <;> simp

/-- C5: the auto-uniform switch of `processFrame` has no case for FLAT_PROJECTION: for
every shader, material and matrices, resolving an auto uniform of that kind
reaches the default branch and throws the assertion failure, with no device
call made. -/
theorem World.setAutoUniform_FLAT_PROJECTION_asserts {α : Type} [CommSemiring α]
    (gl : GLDevice α) (actualFPS : Int) (shader : Shader) (material : Material α)
    (model view projection : Matrix4 α) (name : String) (tr : List (Call α)) :
    World.setAutoUniform gl actualFPS shader material model view projection
        (AutoUniform.mk name AutoUniformType.FLAT_PROJECTION) tr
      = (Except.error "Assertion failed.", tr) := by
  rfl

theorem Shader.setTexture_run {α : Type} (gl : GLDevice α) (s : Shader) (name : String)
    (tex : Texture) (tr : List (Call α)) :
    s.setTexture gl name tex tr =
      if gl.glGetUniformLocation s.programId name < 0 then
        (Except.error "Tried to set a uniform that is not present in shader.",
          tr ++ [Call.textureBind tex])
      else if gl.glGetError (tr ++ [Call.textureBind tex,
          Call.glUniform1i (gl.glGetUniformLocation s.programId name) 0]) then
        (Except.error "Could not bind texture uniform for shader",
          tr ++ [Call.textureBind tex,
            Call.glUniform1i (gl.glGetUniformLocation s.programId name) 0])
      else
        (Except.ok (), tr ++ [Call.textureBind tex,
          Call.glUniform1i (gl.glGetUniformLocation s.programId name) 0]) := by
  by_cases h : gl.glGetUniformLocation s.programId name < 0
  · simp [Shader.setTexture, Routine.run_bind, Routine.bind, Routine.call, MAGIC_THROW, h,
      throw_MagicException]
  · by_cases hg : gl.glGetError (tr ++ [Call.textureBind tex,
        Call.glUniform1i (gl.glGetUniformLocation s.programId name) 0]) = true
    · simp [Shader.setTexture, Routine.run_bind, Routine.bind, Routine.call, MAGIC_THROW, h,
        throw_MagicException, GLDevice.failed, Routine.calls, Routine.run_pure, hg]
    · simp [Shader.setTexture, Routine.run_bind, Routine.bind, Routine.call, MAGIC_THROW, h,
        throw_MagicException, GLDevice.failed, Routine.calls, Routine.run_pure, hg]

theorem Shader.setUniformfv_noDraw {α : Type} (gl : GLDevice α) (s : Shader) (name : String)
    (components : Int) (values : List α) (count : Int) :
    Routine.emitsOnly (fun c => !c.isDraw) (s.setUniformfv gl name components values count) := by
  simp only [Shader.setUniformfv]
  repeat' first
    | exact MAGIC_THROW_emitsOnly _ _ _
    | exact MAGIC_ASSERT_emitsOnly _ _
    | exact GLDevice.failed_emitsOnly _ _
    | exact Routine.emitsOnly_throw _ _
    | exact Routine.emitsOnly_pure _ _
    | exact Routine.emitsOnly_call _ _ rfl
    | apply Routine.emitsOnly_ite
    | apply Routine.emitsOnly_bind
    | intro _

theorem Shader.setUniformf1_noDraw {α : Type} (gl : GLDevice α) (s : Shader) (name : String)
    (v1 : α) :
    Routine.emitsOnly (fun c => !c.isDraw) (s.setUniformf1 gl name v1) := by
  simp only [Shader.setUniformf1]
  repeat' first
    | exact MAGIC_THROW_emitsOnly _ _ _
    | exact MAGIC_ASSERT_emitsOnly _ _
    | exact GLDevice.failed_emitsOnly _ _
    | exact Routine.emitsOnly_throw _ _
    | exact Routine.emitsOnly_pure _ _
    | exact Routine.emitsOnly_call _ _ rfl
    | apply Routine.emitsOnly_ite
    | apply Routine.emitsOnly_bind
    | intro _

theorem Shader.setUniformf2_noDraw {α : Type} (gl : GLDevice α) (s : Shader) (name : String)
    (v1 v2 : α) :
    Routine.emitsOnly (fun c => !c.isDraw) (s.setUniformf2 gl name v1 v2) := by
  simp only [Shader.setUniformf2]
  repeat' first
    | exact MAGIC_THROW_emitsOnly _ _ _
    | exact MAGIC_ASSERT_emitsOnly _ _
    | exact GLDevice.failed_emitsOnly _ _
    | exact Routine.emitsOnly_throw _ _
    | exact Routine.emitsOnly_pure _ _
    | exact Routine.emitsOnly_call _ _ rfl
    | apply Routine.emitsOnly_ite
    | apply Routine.emitsOnly_bind
    | intro _

theorem Shader.setUniformf3_noDraw {α : Type} (gl : GLDevice α) (s : Shader) (name : String)
    (v1 v2 v3 : α) :
    Routine.emitsOnly (fun c => !c.isDraw) (s.setUniformf3 gl name v1 v2 v3) := by
  simp only [Shader.setUniformf3]
  repeat' first
    | exact MAGIC_THROW_emitsOnly _ _ _
    | exact MAGIC_ASSERT_emitsOnly _ _
    | exact GLDevice.failed_emitsOnly _ _
    | exact Routine.emitsOnly_throw _ _
    | exact Routine.emitsOnly_pure _ _
    | exact Routine.emitsOnly_call _ _ rfl
    | apply Routine.emitsOnly_ite
    | apply Routine.emitsOnly_bind
    | intro _

theorem Shader.setUniformf4_noDraw {α : Type} (gl : GLDevice α) (s : Shader) (name : String)
    (v1 v2 v3 v4 : α) :
    Routine.emitsOnly (fun c => !c.isDraw) (s.setUniformf4 gl name v1 v2 v3 v4) := by
  simp only [Shader.setUniformf4]
  repeat' first
    | exact MAGIC_THROW_emitsOnly _ _ _
    | exact MAGIC_ASSERT_emitsOnly _ _
    | exact GLDevice.failed_emitsOnly _ _
    | exact Routine.emitsOnly_throw _ _
    | exact Routine.emitsOnly_pure _ _
    | exact Routine.emitsOnly_call _ _ rfl
    | apply Routine.emitsOnly_ite
    | apply Routine.emitsOnly_bind
    | intro _

theorem Shader.setUniformiv_noDraw {α : Type} (gl : GLDevice α) (s : Shader) (name : String)
    (components : Int) (values : List Int) (count : Int) :
    Routine.emitsOnly (fun c => !c.isDraw) (s.setUniformiv gl name components values count) := by
  simp only [Shader.setUniformiv]
  repeat' first
    | exact MAGIC_THROW_emitsOnly _ _ _
    | exact MAGIC_ASSERT_emitsOnly _ _
    | exact GLDevice.failed_emitsOnly _ _
    | exact Routine.emitsOnly_throw _ _
    | exact Routine.emitsOnly_pure _ _
    | exact Routine.emitsOnly_call _ _ rfl
    | apply Routine.emitsOnly_ite
    | apply Routine.emitsOnly_bind
    | intro _

theorem Shader.setUniformMatrix_noDraw {α : Type} (gl : GLDevice α) (s : Shader) (name : String)
    (components : Int) (values : List α) (count : Int) :
    Routine.emitsOnly (fun c => !c.isDraw) (s.setUniformMatrix gl name components values count) := by
  simp only [Shader.setUniformMatrix]
  repeat' first
    | exact MAGIC_THROW_emitsOnly _ _ _
    | exact MAGIC_ASSERT_emitsOnly _ _
    | exact GLDevice.failed_emitsOnly _ _
    | exact Routine.emitsOnly_throw _ _
    | exact Routine.emitsOnly_pure _ _
    | exact Routine.emitsOnly_call _ _ rfl
    | apply Routine.emitsOnly_ite
    | apply Routine.emitsOnly_bind
    | intro _

theorem Shader.setTexture_noDraw {α : Type} (gl : GLDevice α) (s : Shader) (name : String)
    (tex : Texture) :
    Routine.emitsOnly (fun c => !c.isDraw) (s.setTexture gl name tex) := by
  simp only [Shader.setTexture]
  repeat' first
    | exact MAGIC_THROW_emitsOnly _ _ _
    | exact MAGIC_ASSERT_emitsOnly _ _
    | exact GLDevice.failed_emitsOnly _ _
    | exact Routine.emitsOnly_throw _ _
    | exact Routine.emitsOnly_pure _ _
    | exact Routine.emitsOnly_call _ _ rfl
    | apply Routine.emitsOnly_ite
    | apply Routine.emitsOnly_bind
    | intro _

theorem World.setNamedUniform_noDraw {α : Type} (gl : GLDevice α) (shader : Shader)
    (u : NamedUniform α) :
    Routine.emitsOnly (fun c => !c.isDraw) (World.setNamedUniform gl shader u) := by
  simp only [World.setNamedUniform]
  split
  · exact Shader.setUniformfv_noDraw _ _ _ _ _ _
  · exact Shader.setUniformiv_noDraw _ _ _ _ _ _
  · exact Routine.emitsOnly_throw _ _

theorem World.setAutoTexture_noDraw {α : Type} (gl : GLDevice α) (shader : Shader)
    (material : Material α) (varName : String) (slot bound : Fin 8) :
    Routine.emitsOnly (fun c => !c.isDraw)
      (World.setAutoTexture gl shader material varName slot bound) := by
  simp only [World.setAutoTexture]
  apply Routine.emitsOnly_bind
  · exact MAGIC_THROW_emitsOnly _ _ _
  · intro _
    split
    · exact Shader.setTexture_noDraw _ _ _ _
    · exact Routine.emitsOnly_throw _ _

theorem World.setAutoUniform_noDraw {α : Type} [CommSemiring α] (gl : GLDevice α)
    (actualFPS : Int) (shader : Shader) (material : Material α)
    (model view projection : Matrix4 α) (u : AutoUniform) :
    Routine.emitsOnly (fun c => !c.isDraw)
      (World.setAutoUniform gl actualFPS shader material model view projection u) := by
  simp only [World.setAutoUniform]
  split <;> first
    | exact Shader.setUniformMatrix_noDraw _ _ _ _ _ _
    | exact Shader.setUniformiv_noDraw _ _ _ _ _ _
    | exact World.setAutoTexture_noDraw _ _ _ _ _ _
    | exact Routine.emitsOnly_pure _ _
    | exact MAGIC_ASSERT_emitsOnly _ _

theorem World.setUniforms_noDraw {α : Type} [CommSemiring α] (gl : GLDevice α)
    (scene : Scene α) (actualFPS : Int) (shader : Shader) (material : Material α)
    (model view projection : Matrix4 α) :
    Routine.emitsOnly (fun c => !c.isDraw)
      (World.setUniforms gl scene actualFPS shader material model view projection) := by
  simp only [World.setUniforms, Shader.use]
  apply Routine.emitsOnly_bind
  · exact Routine.emitsOnly_call _ _ rfl
  · intro _
    apply Routine.emitsOnly_bind
    · exact Routine.emitsOnly_forEach _ _ _ (World.setNamedUniform_noDraw gl shader)
    · intro _
      apply Routine.emitsOnly_bind
      · exact Shader.setUniformf3_noDraw _ _ _ _ _ _
      · intro _
        exact Routine.emitsOnly_forEach _ _ _
          (World.setAutoUniform_noDraw gl actualFPS shader material model view projection)

/-- C6 as stated fails: with a texture assigned to slot 0, resolving TEXTURE0 under a name
that the shader does not declare throws although the slot is not null. -/
theorem World.setAutoUniform_TEXTURE_throws_with_texture_present :
    ¬ ∀ (gl : GLDevice Int) (shader : Shader) (material : Material Int)
        (model view projection : Matrix4 Int) (name : String) (i : Fin 8)
        (tr : List (Call Int)),
        threw (World.setAutoUniform gl 0 shader material model view projection
          (AutoUniform.mk name (AutoUniformType.TEXTURE i)) tr)
          = (material.textures i).isNone := by
  intro h
  have h1 := h (Example.gl Int) Example.shader (Example.material Int) Matrix4.identity
    Matrix4.identity Matrix4.identity "tex" 0 []
  revert h1
  decide

/-- C6 amended: for every texture slot i in 0..7 and every material, resolving TEXTUREi throws
the missing-texture error, with no device call, when the texture at slot i is
null. Otherwise it binds the texture stored at that same slot i; it then
throws when the shader does not declare the name of the uniform, else sets the
uniform of that name and throws exactly when the graphics library reports an
error. -/
theorem World.setAutoUniform_TEXTURE_run {α : Type} [CommSemiring α] (gl : GLDevice α)
    (actualFPS : Int) (shader : Shader) (material : Material α)
    (model view projection : Matrix4 α) (name : String) (i : Fin 8) (tr : List (Call α)) :
    World.setAutoUniform gl actualFPS shader material model view projection
        (AutoUniform.mk name (AutoUniformType.TEXTURE i)) tr
      = match material.textures i with
        | none =>
            (Except.error
              "Material has auto-bound texture set, but no texture set for the index.", tr)
        | some tex =>
            if gl.glGetUniformLocation shader.programId name < 0 then
              (Except.error "Tried to set a uniform that is not present in shader.",
                tr ++ [Call.textureBind tex])
            else if gl.glGetError (tr ++ [Call.textureBind tex,
                Call.glUniform1i (gl.glGetUniformLocation shader.programId name) 0]) then
              (Except.error "Could not bind texture uniform for shader",
                tr ++ [Call.textureBind tex,
                  Call.glUniform1i (gl.glGetUniformLocation shader.programId name) 0])
            else
              (Except.ok (), tr ++ [Call.textureBind tex,
                Call.glUniform1i (gl.glGetUniformLocation shader.programId name) 0]) := by
  have key : ∀ j : Fin 8, World.setAutoTexture gl shader material name j j tr
      = match material.textures j with
        | none =>
            (Except.error
              "Material has auto-bound texture set, but no texture set for the index.", tr)
        | some tex => shader.setTexture gl name tex tr := by
    intro j
    cases hj : material.textures j <;>
      simp [World.setAutoTexture, Routine.run_bind, Routine.bind, MAGIC_THROW, hj,
        throw_MagicException, Routine.run_pure]
  have hsw : World.setAutoUniform gl actualFPS shader material model view projection
        (AutoUniform.mk name (AutoUniformType.TEXTURE i))
      = World.setAutoTexture gl shader material name i i := by
    fin_cases i <;> rfl
  rw [hsw, key i]
  cases material.textures i with
  | none => rfl
  | some tex => exact Shader.setTexture_run gl shader name tex tr

/-- C7: for a uniform name that the bound program does not declare (its location is
negative), `setUniformfv`, the four `setUniformf`, `setUniformiv` and
`setUniformMatrix` throw with no device call made, and `setTexture` throws
after binding the texture only: no uniform value is set and none of them ends
normally. -/
theorem Shader.setUniform_undeclared_throws {α : Type} (gl : GLDevice α) (s : Shader)
    (name : String) (components count : Int) (values : List α) (ivalues : List Int)
    (v1 v2 v3 v4 : α) (tex : Texture) (tr : List (Call α))
    (h : gl.glGetUniformLocation s.programId name < 0) :
    s.setUniformfv gl name components values count tr
      = (Except.error "Tried to set a uniform that is not present in shader.", tr) ∧
    s.setUniformf1 gl name v1 tr
      = (Except.error "Tried to set a uniform that is not present in shader.", tr) ∧
    s.setUniformf2 gl name v1 v2 tr
      = (Except.error "Tried to set a uniform that is not present in shader.", tr) ∧
    s.setUniformf3 gl name v1 v2 v3 tr
      = (Except.error "Tried to set a uniform that is not present in shader.", tr) ∧
    s.setUniformf4 gl name v1 v2 v3 v4 tr
      = (Except.error "Tried to set a uniform that is not present in shader.", tr) ∧
    s.setUniformiv gl name components ivalues count tr
      = (Except.error "Tried to set a uniform that is not present in shader.", tr) ∧
    s.setUniformMatrix gl name components values count tr
      = (Except.error "Tried to set a uniform that is not present in shader.", tr) ∧
    s.setTexture gl name tex tr
      = (Except.error "Tried to set a uniform that is not present in shader.",
          tr ++ [Call.textureBind tex]) ∧
    (tr ++ [Call.textureBind tex]).filter Call.isUniform = tr.filter Call.isUniform := by
  refine ⟨?_, ?_, ?_, ?_, ?_, ?_, ?_, ?_, ?_⟩
  · simp [Shader.setUniformfv, Routine.run_bind, Routine.bind, MAGIC_THROW, h,
      throw_MagicException]
  · simp [Shader.setUniformf1, Routine.run_bind, Routine.bind, MAGIC_THROW, h,
      throw_MagicException]
  · simp [Shader.setUniformf2, Routine.run_bind, Routine.bind, MAGIC_THROW, h,
      throw_MagicException]
  · simp [Shader.setUniformf3, Routine.run_bind, Routine.bind, MAGIC_THROW, h,
      throw_MagicException]
  · simp [Shader.setUniformf4, Routine.run_bind, Routine.bind, MAGIC_THROW, h,
      throw_MagicException]
  · simp [Shader.setUniformiv, Routine.run_bind, Routine.bind, MAGIC_THROW, h,
      throw_MagicException]
  · simp [Shader.setUniformMatrix, Routine.run_bind, Routine.bind, MAGIC_THROW, h,
      throw_MagicException]
  · rw [Shader.setTexture_run, if_pos h]
  · simp [List.filter_append, Call.isUniform]

/-- Witness of C7: the program declares "lightPosition" only, and the name "tex" is set. -/
theorem Shader.setUniform_undeclared_throws_witness :
    (Example.gl Int).glGetUniformLocation Example.shader.programId "tex" < 0 ∧
    Example.shader.setUniformfv (Example.gl Int) "tex" 3 [1, 2, 3] 1 []
      = (Except.error "Tried to set a uniform that is not present in shader.", []) ∧
    Example.shader.setTexture (Example.gl Int) "tex" (Texture.mk 9) []
      = (Except.error "Tried to set a uniform that is not present in shader.",
          [Call.textureBind (Texture.mk 9)]) :=
  have h := Shader.setUniform_undeclared_throws (Example.gl Int) Example.shader "tex" 3 1
    [1, 2, 3] [1, 2, 3] 1 2 3 4 (Texture.mk 9) [] (by decide)
  ⟨by decide, h.1, h.2.2.2.2.2.2.2.1⟩

/-! ## The frame -/

theorem World.renderMesh_uniform_error {α : Type} [CommSemiring α] (gl : GLDevice α)
    (scene : Scene α) (actualFPS : Int) (model view projection : Matrix4 α) (mesh : Mesh)
    (material : Material α) (shader : Shader) (tr tr1 : List (Call α)) (e : String)
    (hs : material.shader = some shader)
    (h : World.setUniforms gl scene actualFPS shader material model view projection tr
      = (Except.error e, tr1)) :
    World.renderMesh gl scene actualFPS model view projection (mesh, material) tr
      = (Except.error e, tr1) := by
  simp [World.renderMesh, hs, MAGIC_ASSERT, Routine.run_bind, Routine.bind, h,
    Routine.run_pure]

/-- C8: when the uniforms of a (mesh, material) pair that `processFrame` has reached throw
(shader use, named uniforms, light position, auto uniforms), the frame ends
with that exception in the state the uniforms left: the calls made since the
pair was reached contain no draw call, and nothing is run after them. -/
theorem World.processFrame_uniform_error_before_draw {α : Type} [LinearOrderedField α]
    [FloorRing α] (gl : GLDevice α) (scene : Scene α) (w : World α)
    (obs1 obs2 : List (Object α)) (ob : Object α) (m : Model α)
    (ps1 ps2 : List (Mesh × Material α)) (mesh : Mesh) (material : Material α)
    (shader : Shader) (tr0 t1 trA trB trC : List (Call α)) (e : String)
    (hobs : w.objects.map ObjectRef.target = obs1 ++ ob :: obs2)
    (hg : ob.getGraphical = some (GraphicalEntity.mk (some m)))
    (hp : m.pairs = ps1 ++ (mesh, material) :: ps2)
    (hs : material.shader = some shader)
    (h1 : w.stepPhysics tr0 = (Except.ok (), t1))
    (h2 : Routine.forEach obs1
        (World.renderObject gl scene w.actualFPS
          (scene.getCameraMatrix scene.cameraPosition) scene.projection)
        (t1 ++ [Call.clearDisplay]) = (Except.ok (), trA))
    (h3 : Routine.forEach ps1
        (World.renderMesh gl scene w.actualFPS (scene.getTransformMatrix ob.getPosition)
          (scene.getCameraMatrix scene.cameraPosition) scene.projection)
        trA = (Except.ok (), trB))
    (h4 : World.setUniforms gl scene w.actualFPS shader material
        (scene.getTransformMatrix ob.getPosition)
        (scene.getCameraMatrix scene.cameraPosition) scene.projection trB
        = (Except.error e, trC)) :
    World.processFrame gl scene w tr0 = (Except.error e, trC) ∧
    ∃ new : List (Call α), trC = trB ++ new ∧ ∀ c ∈ new, c.isDraw = false := by
  constructor
  · have hmesh := World.renderMesh_uniform_error gl scene w.actualFPS
      (scene.getTransformMatrix ob.getPosition)
      (scene.getCameraMatrix scene.cameraPosition) scene.projection mesh material shader
      trB trC e hs h4
    have hpairs := Routine.forEach_throws _ ps1 ps2 (mesh, material) trA trB trC e h3 hmesh
    have hob : World.renderObject gl scene w.actualFPS
        (scene.getCameraMatrix scene.cameraPosition) scene.projection ob trA
        = (Except.error e, trC) := by
      rw [← hp] at hpairs
      have hlen : 0 < m.pairs.length := by
        rw [hp]
        simp
      simp only [World.renderObject, hg]
      simp [MAGIC_ASSERT, Routine.run_bind, Routine.bind, Routine.run_pure, hlen, hpairs]
    have hobjs := Routine.forEach_throws _ obs1 obs2 ob _ trA trC e h2 hob
    rw [← hobs] at hobjs
    simp [World.processFrame, World.renderFrame, Routine.run_bind, Routine.bind, h1,
      Routine.run_call, hobjs]
  · obtain ⟨new, hnew, hall⟩ := World.setUniforms_noDraw gl scene w.actualFPS shader material
      (scene.getTransformMatrix ob.getPosition)
      (scene.getCameraMatrix scene.cameraPosition) scene.projection trB
    rw [h4] at hnew
    refine ⟨new, hnew, ?_⟩
    intro c hc
    simpa using hall c hc

/-- Witness of C8: the example material asks for the uniform "tex", which the program
does not declare; the frame stops inside `setTexture` and draws nothing. -/
theorem World.processFrame_uniform_error_before_draw_witness :
    World.processFrame (Example.gl ℚ) (Example.scene ℚ) Example.world []
      = (Except.error "Tried to set a uniform that is not present in shader.",
          [Call.clearDisplay, Call.shaderUse 1, Call.glUniform3f 0 0 1000 0,
            Call.textureBind (Texture.mk 9)]) ∧
    ∃ new : List (Call ℚ),
      [Call.clearDisplay, Call.shaderUse 1, Call.glUniform3f 0 0 1000 0,
        Call.textureBind (Texture.mk 9)] = [Call.clearDisplay] ++ new ∧
      ∀ c ∈ new, c.isDraw = false :=
  World.processFrame_uniform_error_before_draw (Example.gl ℚ) (Example.scene ℚ)
    Example.world [] [] (Example.object ℚ) (Model.mk [(Example.mesh, Example.material ℚ)])
    [] [] Example.mesh (Example.material ℚ) Example.shader [] [] [Call.clearDisplay]
    [Call.clearDisplay]
    [Call.clearDisplay, Call.shaderUse 1, Call.glUniform3f 0 0 1000 0,
      Call.textureBind (Texture.mk 9)]
    "Tried to set a uniform that is not present in shader."
    rfl rfl rfl rfl
    (by simp [World.stepPhysics, Example.world, Routine.run_pure])
    rfl rfl
    (by
      simp [World.setUniforms, Example.material, Example.gl, Example.shader, Example.scene,
        Example.world, Shader.use, Routine.run_bind, Routine.bind, Routine.run_call,
        Routine.forEach, Routine.run_pure, Shader.setUniformf3, MAGIC_THROW,
        GLDevice.failed, Routine.calls, World.setAutoUniform, World.setAutoTexture,
        Shader.setTexture, throw_MagicException])

/-! ## Attribute bindings -/

theorem lookup_append_singleton (m : List (AttributeType × Int)) (k t : AttributeType)
    (v : Int) :
    (m ++ [(k, v)]).lookup t =
      match m.lookup t with
      | some x => some x
      | none => if t = k then some v else none := by
  induction m with
  | nil =>
    by_cases h : t = k
    · subst h
      simp [List.lookup]
    · have hb : (t == k) = false := by simpa using h
      simp [List.lookup, hb, h]
  | cons a as ih =>
    obtain ⟨k1, v1⟩ := a
    by_cases h1 : t = k1
    · subst h1
      simp [List.lookup]
    · have hb : (t == k1) = false := by simpa using h1
      simp only [List.cons_append, List.lookup, hb]
      exact ih

theorem mapInsert_lookup (m : List (AttributeType × Int)) (k t : AttributeType) (v : Int) :
    (mapInsert m k v).lookup t =
      match m.lookup t with
      | some x => some x
      | none => if t = k then some v else none := by
  unfold mapInsert
  cases hk : m.lookup k with
  | some x =>
    simp only
    cases ht : m.lookup t with
    | some y => rfl
    | none =>
      have hne : t ≠ k := by
        intro h
        rw [h, hk] at ht
        cases ht
      simp [hne]
  | none =>
    simp only
    exact lookup_append_singleton m k t v

theorem Shader.bindAttrib_run {α : Type} (gl : GLDevice α) (s : Shader) (name : String)
    (type : AttributeType) (tr : List (Call α)) :
    s.bindAttrib gl name type tr =
      if gl.glGetError (tr ++ [Call.glBindAttribLocation s.programId s.nextIndex name]) then
        (Except.error "Failed to bind attribute.",
          tr ++ [Call.glBindAttribLocation s.programId s.nextIndex name])
      else
        (Except.ok (Shader.mk s.programId (s.nextIndex + 1)
            (mapInsert s.attribIndexes type s.nextIndex)),
          tr ++ [Call.glBindAttribLocation s.programId s.nextIndex name]) := by
  by_cases hg : gl.glGetError
      (tr ++ [Call.glBindAttribLocation s.programId s.nextIndex name]) = true
  · simp [Shader.bindAttrib, Routine.run_bind, Routine.bind, Routine.call, MAGIC_THROW,
      throw_MagicException, GLDevice.failed, Routine.calls, Routine.run_pure, hg]
  · simp [Shader.bindAttrib, Routine.run_bind, Routine.bind, Routine.call, MAGIC_THROW,
      throw_MagicException, GLDevice.failed, Routine.calls, Routine.run_pure, hg]

/-- What a run of successful `bindAttrib` calls keeps: the counter and the stored slots stay
non-negative, a kind that is not bound by the run keeps its entry, and a kind that
has an entry or is bound by the run has an entry afterwards. -/
theorem Shader.bindAttribs_entries {α : Type} (gl : GLDevice α)
    (reqs : List (String × AttributeType)) :
    ∀ (s0 s : Shader) (tr tr1 : List (Call α)),
      Shader.bindAttribs gl s0 reqs tr = (Except.ok s, tr1) →
      0 ≤ s0.nextIndex →
      (∀ t v, s0.attribIndexes.lookup t = some v → 0 ≤ v) →
      (0 ≤ s.nextIndex ∧ (∀ t v, s.attribIndexes.lookup t = some v → 0 ≤ v)) ∧
      (∀ t, t ∉ reqs.map Prod.snd → s.attribIndexes.lookup t = s0.attribIndexes.lookup t) ∧
      (∀ t, (s0.attribIndexes.lookup t).isSome = true ∨ t ∈ reqs.map Prod.snd →
        (s.attribIndexes.lookup t).isSome = true) := by
  induction reqs with
  | nil =>
    intro s0 s tr tr1 hrun hn hv
    simp only [Shader.bindAttribs, Routine.run_pure, Prod.mk.injEq, Except.ok.injEq] at hrun
    obtain ⟨hs, _⟩ := hrun
    subst hs
    refine ⟨⟨hn, hv⟩, fun t _ => rfl, ?_⟩
    intro t ht
    rcases ht with h | h
    · exact h
    · simp at h
  | cons r rest ih =>
    intro s0 s tr tr1 hrun hn hv
    obtain ⟨name, type⟩ := r
    simp only [Shader.bindAttribs, Routine.run_bind] at hrun
    rw [Routine.bind, Shader.bindAttrib_run] at hrun
    by_cases hg : gl.glGetError
        (tr ++ [Call.glBindAttribLocation s0.programId s0.nextIndex name]) = true
    · simp [hg] at hrun
    · simp only [hg] at hrun
      have hn1 : 0 ≤ (Shader.mk s0.programId (s0.nextIndex + 1)
          (mapInsert s0.attribIndexes type s0.nextIndex)).nextIndex := by
        show 0 ≤ s0.nextIndex + 1
        omega
      have hv1 : ∀ t v, (Shader.mk s0.programId (s0.nextIndex + 1)
          (mapInsert s0.attribIndexes type s0.nextIndex)).attribIndexes.lookup t = some v →
          0 ≤ v := by
        intro t v hl
        simp only [mapInsert_lookup] at hl
        cases h0 : s0.attribIndexes.lookup t with
        | some x =>
          rw [h0] at hl
          simp only [Option.some.injEq] at hl
          subst hl
          exact hv t x h0
        | none =>
          rw [h0] at hl
          by_cases htk : t = type
          · simp only [htk, if_true, Option.some.injEq] at hl
            omega
          · simp [htk] at hl
      obtain ⟨hwf, hkeep, hsome⟩ := ih _ s _ tr1 hrun hn1 hv1
      refine ⟨hwf, ?_, ?_⟩
      · intro t ht
        simp only [List.map_cons, List.mem_cons, not_or] at ht
        rw [hkeep t ht.2]
        simp only [mapInsert_lookup]
        cases h0 : s0.attribIndexes.lookup t with
        | some x => rfl
        | none => simp [ht.1]
      · intro t ht
        apply hsome t
        simp only [List.map_cons, List.mem_cons] at ht
        simp only [mapInsert_lookup]
        cases h0 : s0.attribIndexes.lookup t with
        | some x => left; rfl
        | none =>
          rw [h0] at ht
          rcases ht with h | h | h
          · simp at h
          · left
            simp [h]
          · right
            exact h

/-- C9: on a shader that started with no attribute index and a non-negative counter and went
through a run of successful `bindAttrib` calls, `getAttribBinding` (a lookup that
returns a value and cannot throw) returns the sentinel -1 for every kind that no
call bound, and a slot index >= 0 for every kind that a call bound. -/
theorem Shader.getAttribBinding_unbound_sentinel {α : Type} (gl : GLDevice α)
    (s0 s : Shader) (reqs : List (String × AttributeType)) (tr tr1 : List (Call α))
    (type : AttributeType)
    (hfresh : s0.attribIndexes = [])
    (hn : 0 ≤ s0.nextIndex)
    (hrun : Shader.bindAttribs gl s0 reqs tr = (Except.ok s, tr1)) :
    (type ∉ reqs.map Prod.snd → s.getAttribBinding type = -1) ∧
    (type ∈ reqs.map Prod.snd → 0 ≤ s.getAttribBinding type) := by
  have hv : ∀ t v, s0.attribIndexes.lookup t = some v → 0 ≤ v := by
    intro t v h
    rw [hfresh] at h
    simp [List.lookup] at h
  obtain ⟨⟨_, hvals⟩, hkeep, hsome⟩ :=
    Shader.bindAttribs_entries gl reqs s0 s tr tr1 hrun hn hv
  constructor
  · intro h
    have hl := hkeep type h
    rw [hfresh] at hl
    simp only [List.lookup] at hl
    simp [Shader.getAttribBinding, hl]
  · intro h
    have hl := hsome type (Or.inr h)
    cases hx : s.attribIndexes.lookup type with
    | none => simp [hx] at hl
    | some v =>
      simp only [Shader.getAttribBinding, hx]
      exact hvals type v hx

/-- Witness of C9: a shader that bound "vertex" and "normal" answers -1 for COLOR and a slot
for VERTEX. -/
theorem Shader.getAttribBinding_unbound_sentinel_witness :
    (Shader.mk 1 2 [(AttributeType.VERTEX, 0), (AttributeType.NORMAL, 1)]).getAttribBinding
        AttributeType.COLOR = -1 ∧
    0 ≤ (Shader.mk 1 2 [(AttributeType.VERTEX, 0), (AttributeType.NORMAL, 1)]).getAttribBinding
        AttributeType.VERTEX :=
  ⟨(Shader.getAttribBinding_unbound_sentinel (Example.gl Int) Example.shader
      (Shader.mk 1 2 [(AttributeType.VERTEX, 0), (AttributeType.NORMAL, 1)])
      [("vertex", AttributeType.VERTEX), ("normal", AttributeType.NORMAL)] []
      [Call.glBindAttribLocation 1 0 "vertex", Call.glBindAttribLocation 1 1 "normal"]
      AttributeType.COLOR rfl (by decide) rfl).1 (by decide),
   (Shader.getAttribBinding_unbound_sentinel (Example.gl Int) Example.shader
      (Shader.mk 1 2 [(AttributeType.VERTEX, 0), (AttributeType.NORMAL, 1)])
      [("vertex", AttributeType.VERTEX), ("normal", AttributeType.NORMAL)] []
      [Call.glBindAttribLocation 1 0 "vertex", Call.glBindAttribLocation 1 1 "normal"]
      AttributeType.VERTEX rfl (by decide) rfl).2 (by decide)⟩

/-- C10: for every mesh and shader, the attribute loop of `processFrame` ends normally and
makes exactly the `setAttributeArray` calls of the mesh attributes whose kind has
a non-negative binding, in mesh order, each at that binding, with the component
count of its kind and its buffer; an attribute whose kind is unbound adds no
call and throws nothing. -/
theorem World.bindAttribute_loop {α : Type} (tables : MeshTables) (shader : Shader)
    (attributes : List AttributeData) (tr : List (Call α)) :
    Routine.forEach attributes (World.bindAttribute tables shader) tr =
      (Except.ok (),
        tr ++ attributes.filterMap (fun a =>
          if shader.getAttribBinding (tables.attributeTypeNames a.type) < 0 then none
          else some (Call.setAttributeArray
            (shader.getAttribBinding (tables.attributeTypeNames a.type))
            (tables.attributeTypeCompCount a.type) DataTypes.FLOAT a.buffer))) := by
  induction attributes generalizing tr with
  | nil => simp [Routine.forEach_nil]
  | cons a as ih =>
    rw [Routine.forEach_cons]
    by_cases h : shader.getAttribBinding (tables.attributeTypeNames a.type) < 0
    · have hb : World.bindAttribute tables shader a tr = (Except.ok (), tr) := by
        simp [World.bindAttribute, h, Routine.run_pure]
      rw [Routine.bind_ok _ _ _ _ _ hb, ih]
      simp [List.filterMap_cons, h]
    · have hb : World.bindAttribute tables shader a tr = (Except.ok (),
          tr ++ [Call.setAttributeArray
            (shader.getAttribBinding (tables.attributeTypeNames a.type))
            (tables.attributeTypeCompCount a.type) DataTypes.FLOAT a.buffer]) := by
        simp [World.bindAttribute, h, Routine.run_call]
      rw [Routine.bind_ok _ _ _ _ _ hb, ih]
      simp [List.filterMap_cons, h]

/-! ## Slots of a run of bindings -/

theorem Shader.bindCalls_get {α : Type} (programId : Nat)
    (reqs : List (String × AttributeType)) :
    ∀ (index : Int) (i : Nat) (name : String) (type : AttributeType),
      reqs[i]? = some (name, type) →
      (Shader.bindCalls programId index reqs : List (Call α))[i]?
        = some (Call.glBindAttribLocation programId (index + i) name) := by
  induction reqs with
  | nil =>
    intro index i name type h
    simp at h
  | cons r rest ih =>
    intro index i name type h
    obtain ⟨name0, type0⟩ := r
    cases i with
    | zero =>
      simp only [List.getElem?_cons_zero, Option.some.injEq, Prod.mk.injEq] at h
      simp [Shader.bindCalls, h.1]
    | succ j =>
      simp only [List.getElem?_cons_succ] at h
      have := ih (index + 1) j name type h
      simp only [Shader.bindCalls, List.getElem?_cons_succ, this]
      congr 2
      push_cast
      ring

/-- A run of successful `bindAttrib` calls on pairwise distinct kinds that the shader has
not bound before: the counter, the device calls and the slot of each kind. -/
theorem Shader.bindAttribs_slots {α : Type} (gl : GLDevice α)
    (reqs : List (String × AttributeType)) :
    ∀ (s0 s : Shader) (tr tr1 : List (Call α)),
      (reqs.map Prod.snd).Nodup →
      (∀ t ∈ reqs.map Prod.snd, s0.attribIndexes.lookup t = none) →
      Shader.bindAttribs gl s0 reqs tr = (Except.ok s, tr1) →
      s.programId = s0.programId ∧
      s.nextIndex = s0.nextIndex + reqs.length ∧
      tr1 = tr ++ Shader.bindCalls s0.programId s0.nextIndex reqs ∧
      (∀ t, t ∉ reqs.map Prod.snd →
        s.attribIndexes.lookup t = s0.attribIndexes.lookup t) ∧
      (∀ (i : Nat) (name : String) (type : AttributeType),
        reqs[i]? = some (name, type) → s.attribIndexes.lookup type = some (s0.nextIndex + i))
      := by
  induction reqs with
  | nil =>
    intro s0 s tr tr1 _ _ hrun
    simp only [Shader.bindAttribs, Routine.run_pure, Prod.mk.injEq, Except.ok.injEq] at hrun
    obtain ⟨hs, ht⟩ := hrun
    subst hs
    subst ht
    refine ⟨rfl, by simp, by simp [Shader.bindCalls], fun t _ => rfl, ?_⟩
    intro i name type h
    simp at h
  | cons r rest ih =>
    intro s0 s tr tr1 hnd hfresh hrun
    obtain ⟨name0, type0⟩ := r
    simp only [Shader.bindAttribs, Routine.run_bind] at hrun
    rw [Routine.bind, Shader.bindAttrib_run] at hrun
    by_cases hg : gl.glGetError
        (tr ++ [Call.glBindAttribLocation s0.programId s0.nextIndex name0]) = true
    · simp [hg] at hrun
    · simp only [hg] at hrun
      simp only [List.map_cons, List.nodup_cons] at hnd
      have h0 : s0.attribIndexes.lookup type0 = none :=
        hfresh type0 (by simp)
      have hfresh1 : ∀ t ∈ rest.map Prod.snd,
          (Shader.mk s0.programId (s0.nextIndex + 1)
            (mapInsert s0.attribIndexes type0 s0.nextIndex)).attribIndexes.lookup t
            = none := by
        intro t ht
        have hne : t ≠ type0 := by
          intro h
          rw [h] at ht
          exact hnd.1 ht
        have ht0 : s0.attribIndexes.lookup t = none := hfresh t (by simp [ht])
        simp [mapInsert_lookup, ht0, hne]
      obtain ⟨hp, hn, htr, hkeep, hslot⟩ := ih _ s _ tr1 hnd.2 hfresh1 hrun
      refine ⟨hp, ?_, ?_, ?_, ?_⟩
      · rw [hn]
        simp only [List.length_cons]
        push_cast
        ring
      · rw [htr]
        simp [Shader.bindCalls]
      · intro t ht
        simp only [List.map_cons, List.mem_cons, not_or] at ht
        rw [hkeep t ht.2]
        simp only [mapInsert_lookup]
        cases hl : s0.attribIndexes.lookup t with
        | some x => rfl
        | none => simp [ht.1]
      · intro i name type h
        cases i with
        | zero =>
          simp only [List.getElem?_cons_zero, Option.some.injEq, Prod.mk.injEq] at h
          obtain ⟨_, ht⟩ := h
          subst ht
          rw [hkeep type0 hnd.1]
          simp [mapInsert_lookup, h0]
        | succ j =>
          simp only [List.getElem?_cons_succ] at h
          rw [hslot j name type h]
          congr 1
          show s0.nextIndex + 1 + (j : Int) = s0.nextIndex + ((j + 1 : Nat) : Int)
          push_cast
          ring

/-- C11 as stated fails: a shader with counter 1 that has bound VERTEX at slot 0 binds
VERTEX again, alone; the call succeeds, and `getAttribBinding` still returns 0. -/
theorem Shader.bindAttrib_bound_kind_keeps_slot :
    ¬ ∀ (gl : GLDevice Int) (s0 s : Shader) (reqs : List (String × AttributeType))
        (tr tr1 : List (Call Int)),
        (reqs.map Prod.snd).Nodup →
        Shader.bindAttribs gl s0 reqs tr = (Except.ok s, tr1) →
        ∀ (i : Nat) (name : String) (type : AttributeType),
          reqs[i]? = some (name, type) → s.getAttribBinding type = s0.nextIndex + i := by
  intro h
  have h1 := h (Example.gl Int) (Shader.mk 1 1 [(AttributeType.VERTEX, 0)])
    (Shader.mk 1 2 [(AttributeType.VERTEX, 0)]) [("position", AttributeType.VERTEX)] []
    [Call.glBindAttribLocation 1 1 "position"] (by decide) rfl 0 "position"
    AttributeType.VERTEX rfl
  revert h1
  decide

/-- C11 amended: starting from a shader whose counter nextIndex is n, a run of k successful
`bindAttrib` calls on pairwise distinct attribute kinds, none of which has an
entry in the attribute indexes of the shader yet, passes the slots n, n+1, ..., n+k-1 to the device in call
order, leaves nextIndex = n+k, and afterwards `getAttribBinding` of the kind of
call number i (counted from 0) returns n+i. -/
theorem Shader.bindAttribs_assigns_consecutive_slots {α : Type} (gl : GLDevice α)
    (s0 s : Shader) (reqs : List (String × AttributeType)) (tr tr1 : List (Call α))
    (hdistinct : (reqs.map Prod.snd).Nodup)
    (hunbound : ∀ t ∈ reqs.map Prod.snd, s0.attribIndexes.lookup t = none)
    (hrun : Shader.bindAttribs gl s0 reqs tr = (Except.ok s, tr1)) :
    s.nextIndex = s0.nextIndex + reqs.length ∧
    tr1 = tr ++ Shader.bindCalls s0.programId s0.nextIndex reqs ∧
    ∀ (i : Nat) (name : String) (type : AttributeType),
      reqs[i]? = some (name, type) →
      (Shader.bindCalls s0.programId s0.nextIndex reqs : List (Call α))[i]?
          = some (Call.glBindAttribLocation s0.programId (s0.nextIndex + i) name) ∧
      s.getAttribBinding type = s0.nextIndex + i := by
  obtain ⟨_, hnext, htr, _, hslot⟩ :=
    Shader.bindAttribs_slots gl reqs s0 s tr tr1 hdistinct hunbound hrun
  refine ⟨hnext, htr, ?_⟩
  intro i name type h
  refine ⟨Shader.bindCalls_get s0.programId reqs s0.nextIndex i name type h, ?_⟩
  simp [Shader.getAttribBinding, hslot i name type h]

/-- Witness of C11: an unbound shader binds "vertex" and then "normal". -/
theorem Shader.bindAttribs_assigns_consecutive_slots_witness :
    (Shader.mk 1 2 [(AttributeType.VERTEX, 0), (AttributeType.NORMAL, 1)]).nextIndex
      = Example.shader.nextIndex + 2 ∧
    (Shader.mk 1 2 [(AttributeType.VERTEX, 0), (AttributeType.NORMAL, 1)]).getAttribBinding
      AttributeType.NORMAL = Example.shader.nextIndex + 1 :=
  have h := Shader.bindAttribs_assigns_consecutive_slots (Example.gl Int) Example.shader
    (Shader.mk 1 2 [(AttributeType.VERTEX, 0), (AttributeType.NORMAL, 1)])
    [("vertex", AttributeType.VERTEX), ("normal", AttributeType.NORMAL)] []
    [Call.glBindAttribLocation 1 0 "vertex", Call.glBindAttribLocation 1 1 "normal"]
    (by decide) (by decide) rfl
  ⟨h.1, (h.2.2 1 "normal" AttributeType.NORMAL rfl).2⟩

/-! ## The normal matrix -/

theorem Matrix4.extractRotationInto_eq {α : Type} (m : Matrix4 α) (out : Matrix3 α) :
    m.extractRotationInto out = m.extractRotation := by
  simp only [Matrix4.extractRotationInto, Matrix4.extractRotation, Matrix3.mk.injEq]
  funext k
  fin_cases k <;> rfl

/-- C12: `Matrix4::extractRotation` writes out[3c+r] = data[4c+r] for all r, c in 0..2 whatever
out held before, so its result is the same whatever stands in the fourth row
and the fourth column of the matrix (the translation entries data[12..14]
among them); the NORMAL matrix that `processFrame` passes to the shader is
the upper-left 3x3 block of View·Model. -/
theorem Matrix4.extractRotation_upper_left_block {α : Type} [CommSemiring α]
    (gl : GLDevice α) (actualFPS : Int) (shader : Shader) (material : Material α)
    (model view projection m : Matrix4 α) (name : String) :
    (∀ out : Matrix3 α, m.extractRotationInto out = m.extractRotation) ∧
    (∀ r c : Fin 3,
      m.extractRotation.data (Fin.mk (3 * c.val + r.val) (by omega))
        = m.data (Fin.mk (4 * c.val + r.val) (by omega))) ∧
    (∀ f : Fin 16 → α,
      (Matrix4.mk (fun k => if k.val % 4 = 3 ∨ k.val / 4 = 3 then f k else m.data k)
        ).extractRotation = m.extractRotation) ∧
    World.setAutoUniform gl actualFPS shader material model view projection
        (AutoUniform.mk name AutoUniformType.NORMAL_MATRIX)
      = shader.setUniformMatrix gl name 3
          (Matrix3.ofMatrix
            ((view.toMatrix * model.toMatrix).submatrix Fin.castSucc Fin.castSucc)).getArray
          1 := by
  refine ⟨Matrix4.extractRotationInto_eq m, ?_, ?_, ?_⟩
  · intro r c
    fin_cases r <;> fin_cases c <;> rfl
  · intro f
    simp only [Matrix4.extractRotation, Matrix3.mk.injEq]
    funext k
    fin_cases k <;> simp
  · have hblock : (Matrix4.multiply view model).extractRotation
        = Matrix3.ofMatrix
            ((view.toMatrix * model.toMatrix).submatrix Fin.castSucc Fin.castSucc) := by
      rw [← Matrix4.multiply_toMatrix]
      simp only [Matrix4.extractRotation, Matrix3.ofMatrix, Matrix3.mk.injEq]
      funext k
      fin_cases k <;> rfl
    simp only [World.setAutoUniform, hblock]

/-! ## Named uniforms -/

theorem Shader.setUniformfv_invalid_size {α : Type} (gl : GLDevice α) (s : Shader)
    (name : String) (components count : Int) (values : List α) (tr : List (Call α))
    (hc : components < 1 ∨ 4 < components) :
    threw (s.setUniformfv gl name components values count tr) = true ∧
    (s.setUniformfv gl name components values count tr).2 = tr := by
  have h1 : components ≠ 1 := by omega
  have h2 : components ≠ 2 := by omega
  have h3 : components ≠ 3 := by omega
  have h4 : components ≠ 4 := by omega
  by_cases h : gl.glGetUniformLocation s.programId name < 0
  · simp [Shader.setUniformfv, Routine.run_bind, Routine.bind, MAGIC_THROW, h,
      throw_MagicException, threw]
  · simp [Shader.setUniformfv, Routine.run_bind, Routine.bind, MAGIC_THROW, h,
      throw_MagicException, threw, h1, h2, h3, h4, Routine.run_pure]

theorem Shader.setUniformiv_invalid_size {α : Type} (gl : GLDevice α) (s : Shader)
    (name : String) (components count : Int) (values : List Int) (tr : List (Call α))
    (hc : components < 1 ∨ 4 < components) :
    threw (s.setUniformiv gl name components values count tr) = true ∧
    (s.setUniformiv gl name components values count tr).2 = tr := by
  have h1 : components ≠ 1 := by omega
  have h2 : components ≠ 2 := by omega
  have h3 : components ≠ 3 := by omega
  have h4 : components ≠ 4 := by omega
  by_cases h : gl.glGetUniformLocation s.programId name < 0
  · simp [Shader.setUniformiv, Routine.run_bind, Routine.bind, MAGIC_THROW, h,
      throw_MagicException, threw]
  · simp [Shader.setUniformiv, Routine.run_bind, Routine.bind, MAGIC_THROW, h,
      throw_MagicException, threw, h1, h2, h3, h4, Routine.run_pure]

theorem Shader.setUniformMatrix_invalid_size {α : Type} (gl : GLDevice α) (s : Shader)
    (name : String) (components count : Int) (values : List α) (tr : List (Call α))
    (hc : components < 2 ∨ 4 < components) :
    threw (s.setUniformMatrix gl name components values count tr) = true ∧
    (s.setUniformMatrix gl name components values count tr).2 = tr := by
  have h2 : components ≠ 2 := by omega
  have h3 : components ≠ 3 := by omega
  have h4 : components ≠ 4 := by omega
  by_cases h : gl.glGetUniformLocation s.programId name < 0
  · simp [Shader.setUniformMatrix, Routine.run_bind, Routine.bind, MAGIC_THROW, h,
      throw_MagicException, threw]
  · simp [Shader.setUniformMatrix, Routine.run_bind, Routine.bind, MAGIC_THROW, h,
      throw_MagicException, threw, h2, h3, h4, Routine.run_pure]

/-- C13: the named-uniform loop of `processFrame` hands the name, the component count and the
data of a named uniform unchanged to `setUniformfv` when its datatype is FLOAT
and to `setUniformiv` when it is INT, and throws for every other datatype; it
takes the uniforms in list order, the next one only when the one before did
not throw. `setUniformfv` and `setUniformiv` throw, with no device call, for
every component count outside 1..4, and `setUniformMatrix` for every size
outside 2..4. -/
theorem World.setNamedUniform_passthrough {α : Type} (gl : GLDevice α) (shader : Shader)
    (name : String) (components size count : Int) (values : List α) (ivalues : List Int)
    (tr : List (Call α))
    (hc : components < 1 ∨ 4 < components) (hm : size < 2 ∨ 4 < size) :
    (∀ (varName : String) (comp_count : Int) (data : RawData α),
      World.setNamedUniform gl shader
          (NamedUniform.mk varName DataTypes.FLOAT comp_count data)
        = shader.setUniformfv gl varName comp_count data.asFloat 1) ∧
    (∀ (varName : String) (comp_count : Int) (data : RawData α),
      World.setNamedUniform gl shader
          (NamedUniform.mk varName DataTypes.INT comp_count data)
        = shader.setUniformiv gl varName comp_count data.asInt 1) ∧
    (∀ (varName : String) (code : Nat) (comp_count : Int) (data : RawData α)
        (tr0 : List (Call α)),
      World.setNamedUniform gl shader
          (NamedUniform.mk varName (DataTypes.OTHER code) comp_count data) tr0
        = (Except.error "Unsupported Auto Uniform datatype.", tr0)) ∧
    (∀ (u : NamedUniform α) (us : List (NamedUniform α)) (tr0 : List (Call α)),
      Routine.forEach (u :: us) (World.setNamedUniform gl shader) tr0
        = Routine.bind (World.setNamedUniform gl shader u)
            (fun _ => Routine.forEach us (World.setNamedUniform gl shader)) tr0) ∧
    (threw (shader.setUniformfv gl name components values count tr) = true ∧
      (shader.setUniformfv gl name components values count tr).2 = tr) ∧
    (threw (shader.setUniformiv gl name components ivalues count tr) = true ∧
      (shader.setUniformiv gl name components ivalues count tr).2 = tr) ∧
    (threw (shader.setUniformMatrix gl name size values count tr) = true ∧
      (shader.setUniformMatrix gl name size values count tr).2 = tr) := by
  refine ⟨fun _ _ _ => rfl, fun _ _ _ => rfl, fun _ _ _ _ _ => rfl,
    fun _ _ _ => rfl,
    Shader.setUniformfv_invalid_size gl shader name components count values tr hc,
    Shader.setUniformiv_invalid_size gl shader name components count ivalues tr hc,
    Shader.setUniformMatrix_invalid_size gl shader name size count values tr hm⟩

/-- Witness of C13: five components and a 5x5 matrix, under a name that the program declares. -/
theorem World.setNamedUniform_passthrough_witness :
    threw (Example.shader.setUniformfv (Example.gl Int) "lightPosition" 5 [1, 2, 3, 4, 5] 1 [])
      = true ∧
    threw (Example.shader.setUniformMatrix (Example.gl Int) "lightPosition" 5 [] 1 [])
      = true :=
  have h := World.setNamedUniform_passthrough (Example.gl Int) Example.shader "lightPosition"
    5 5 1 [1, 2, 3, 4, 5] [] [] (by decide) (by decide)
  ⟨h.2.2.2.2.1.1, h.2.2.2.2.2.2.1⟩

/-! ## Physics steps of a frame -/

theorem Shader.setUniformfv_noStep {α : Type} (gl : GLDevice α) (s : Shader) (name : String)
    (components : Int) (values : List α) (count : Int) :
    Routine.emitsOnly (fun c => !c.isStepSimulation) (s.setUniformfv gl name components values count) := by
  simp only [Shader.setUniformfv]
  repeat' first
    | exact MAGIC_THROW_emitsOnly _ _ _
    | exact MAGIC_ASSERT_emitsOnly _ _
    | exact GLDevice.failed_emitsOnly _ _
    | exact Routine.emitsOnly_throw _ _
    | exact Routine.emitsOnly_pure _ _
    | exact Routine.emitsOnly_call _ _ rfl
    | apply Routine.emitsOnly_ite
    | apply Routine.emitsOnly_bind
    | intro _

theorem Shader.setUniformf3_noStep {α : Type} (gl : GLDevice α) (s : Shader) (name : String)
    (v1 v2 v3 : α) :
    Routine.emitsOnly (fun c => !c.isStepSimulation) (s.setUniformf3 gl name v1 v2 v3) := by
  simp only [Shader.setUniformf3]
  repeat' first
    | exact MAGIC_THROW_emitsOnly _ _ _
    | exact MAGIC_ASSERT_emitsOnly _ _
    | exact GLDevice.failed_emitsOnly _ _
    | exact Routine.emitsOnly_throw _ _
    | exact Routine.emitsOnly_pure _ _
    | exact Routine.emitsOnly_call _ _ rfl
    | apply Routine.emitsOnly_ite
    | apply Routine.emitsOnly_bind
    | intro _

theorem Shader.setUniformiv_noStep {α : Type} (gl : GLDevice α) (s : Shader) (name : String)
    (components : Int) (values : List Int) (count : Int) :
    Routine.emitsOnly (fun c => !c.isStepSimulation) (s.setUniformiv gl name components values count) := by
  simp only [Shader.setUniformiv]
  repeat' first
    | exact MAGIC_THROW_emitsOnly _ _ _
    | exact MAGIC_ASSERT_emitsOnly _ _
    | exact GLDevice.failed_emitsOnly _ _
    | exact Routine.emitsOnly_throw _ _
    | exact Routine.emitsOnly_pure _ _
    | exact Routine.emitsOnly_call _ _ rfl
    | apply Routine.emitsOnly_ite
    | apply Routine.emitsOnly_bind
    | intro _

theorem Shader.setUniformMatrix_noStep {α : Type} (gl : GLDevice α) (s : Shader) (name : String)
    (components : Int) (values : List α) (count : Int) :
    Routine.emitsOnly (fun c => !c.isStepSimulation) (s.setUniformMatrix gl name components values count) := by
  simp only [Shader.setUniformMatrix]
  repeat' first
    | exact MAGIC_THROW_emitsOnly _ _ _
    | exact MAGIC_ASSERT_emitsOnly _ _
    | exact GLDevice.failed_emitsOnly _ _
    | exact Routine.emitsOnly_throw _ _
    | exact Routine.emitsOnly_pure _ _
    | exact Routine.emitsOnly_call _ _ rfl
    | apply Routine.emitsOnly_ite
    | apply Routine.emitsOnly_bind
    | intro _

theorem Shader.setTexture_noStep {α : Type} (gl : GLDevice α) (s : Shader) (name : String)
    (tex : Texture) :
    Routine.emitsOnly (fun c => !c.isStepSimulation) (s.setTexture gl name tex) := by
  simp only [Shader.setTexture]
  repeat' first
    | exact MAGIC_THROW_emitsOnly _ _ _
    | exact MAGIC_ASSERT_emitsOnly _ _
    | exact GLDevice.failed_emitsOnly _ _
    | exact Routine.emitsOnly_throw _ _
    | exact Routine.emitsOnly_pure _ _
    | exact Routine.emitsOnly_call _ _ rfl
    | apply Routine.emitsOnly_ite
    | apply Routine.emitsOnly_bind
    | intro _

theorem World.setNamedUniform_noStep {α : Type} (gl : GLDevice α) (shader : Shader)
    (u : NamedUniform α) :
    Routine.emitsOnly (fun c => !c.isStepSimulation) (World.setNamedUniform gl shader u) := by
  simp only [World.setNamedUniform]
  split
  · exact Shader.setUniformfv_noStep _ _ _ _ _ _
  · exact Shader.setUniformiv_noStep _ _ _ _ _ _
  · exact Routine.emitsOnly_throw _ _

theorem World.setAutoTexture_noStep {α : Type} (gl : GLDevice α) (shader : Shader)
    (material : Material α) (varName : String) (slot bound : Fin 8) :
    Routine.emitsOnly (fun c => !c.isStepSimulation)
      (World.setAutoTexture gl shader material varName slot bound) := by
  simp only [World.setAutoTexture]
  apply Routine.emitsOnly_bind
  · exact MAGIC_THROW_emitsOnly _ _ _
  · intro _
    split
    · exact Shader.setTexture_noStep _ _ _ _
    · exact Routine.emitsOnly_throw _ _

theorem World.setAutoUniform_noStep {α : Type} [CommSemiring α] (gl : GLDevice α)
    (actualFPS : Int) (shader : Shader) (material : Material α)
    (model view projection : Matrix4 α) (u : AutoUniform) :
    Routine.emitsOnly (fun c => !c.isStepSimulation)
      (World.setAutoUniform gl actualFPS shader material model view projection u) := by
  simp only [World.setAutoUniform]
  split <;> first
    | exact Shader.setUniformMatrix_noStep _ _ _ _ _ _
    | exact Shader.setUniformiv_noStep _ _ _ _ _ _
    | exact World.setAutoTexture_noStep _ _ _ _ _ _
    | exact Routine.emitsOnly_pure _ _
    | exact MAGIC_ASSERT_emitsOnly _ _

theorem World.setUniforms_noStep {α : Type} [CommSemiring α] (gl : GLDevice α)
    (scene : Scene α) (actualFPS : Int) (shader : Shader) (material : Material α)
    (model view projection : Matrix4 α) :
    Routine.emitsOnly (fun c => !c.isStepSimulation)
      (World.setUniforms gl scene actualFPS shader material model view projection) := by
  simp only [World.setUniforms, Shader.use]
  apply Routine.emitsOnly_bind
  · exact Routine.emitsOnly_call _ _ rfl
  · intro _
    apply Routine.emitsOnly_bind
    · exact Routine.emitsOnly_forEach _ _ _ (World.setNamedUniform_noStep gl shader)
    · intro _
      apply Routine.emitsOnly_bind
      · exact Shader.setUniformf3_noStep _ _ _ _ _ _
      · intro _
        exact Routine.emitsOnly_forEach _ _ _
          (World.setAutoUniform_noStep gl actualFPS shader material model view projection)

theorem World.bindAttribute_noStep {α : Type} (tables : MeshTables) (shader : Shader)
    (a : AttributeData) :
    Routine.emitsOnly (fun c : Call α => !c.isStepSimulation)
      (World.bindAttribute tables shader a) := by
  simp only [World.bindAttribute]
  apply Routine.emitsOnly_ite
  · exact Routine.emitsOnly_pure _ _
  · exact Routine.emitsOnly_call _ _ rfl

theorem World.renderMesh_noStep {α : Type} [CommSemiring α] (gl : GLDevice α)
    (scene : Scene α) (actualFPS : Int) (model view projection : Matrix4 α)
    (pair : Mesh × Material α) :
    Routine.emitsOnly (fun c => !c.isStepSimulation)
      (World.renderMesh gl scene actualFPS model view projection pair) := by
  simp only [World.renderMesh]
  apply Routine.emitsOnly_bind
  · exact MAGIC_ASSERT_emitsOnly _ _
  · intro _
    split
    · exact Routine.emitsOnly_throw _ _
    · apply Routine.emitsOnly_bind
      · exact World.setUniforms_noStep _ _ _ _ _ _ _ _
      · intro _
        apply Routine.emitsOnly_bind
        · exact Routine.emitsOnly_forEach _ _ _ (World.bindAttribute_noStep _ _)
        · intro _
          exact Routine.emitsOnly_call _ _ rfl

theorem World.renderObject_noStep {α : Type} [CommSemiring α] (gl : GLDevice α)
    (scene : Scene α) (actualFPS : Int) (view projection : Matrix4 α) (ob : Object α) :
    Routine.emitsOnly (fun c => !c.isStepSimulation)
      (World.renderObject gl scene actualFPS view projection ob) := by
  simp only [World.renderObject]
  split
  · exact Routine.emitsOnly_pure _ _
  · apply Routine.emitsOnly_bind
    · exact MAGIC_ASSERT_emitsOnly _ _
    · intro _
      split
      · exact Routine.emitsOnly_throw _ _
      · apply Routine.emitsOnly_bind
        · exact MAGIC_ASSERT_emitsOnly _ _
        · intro _
          exact Routine.emitsOnly_forEach _ _ _ (World.renderMesh_noStep _ _ _ _ _ _)

theorem World.renderFrame_noStep {α : Type} [CommSemiring α] (gl : GLDevice α)
    (scene : Scene α) (w : World α) :
    Routine.emitsOnly (fun c => !c.isStepSimulation) (w.renderFrame gl scene) := by
  simp only [World.renderFrame]
  apply Routine.emitsOnly_bind
  · exact Routine.emitsOnly_call _ _ rfl
  · intro _
    apply Routine.emitsOnly_bind
    · exact Routine.emitsOnly_forEach _ _ _ (World.renderObject_noStep _ _ _ _ _)
    · intro _
      exact Routine.emitsOnly_call _ _ rfl

theorem Routine.emitsOnly_filter {C β : Type} (Q : C → Bool) (m : Routine C β)
    (h : Routine.emitsOnly (fun c => !Q c) m) (tr : List C) :
    ((m tr).2).filter Q = tr.filter Q := by
  obtain ⟨new, hnew, hall⟩ := h tr
  rw [hnew, List.filter_append]
  have : new.filter Q = [] := by
    rw [List.filter_eq_nil_iff]
    intro c hc
    simpa using hall c hc
  rw [this, List.append_nil]

theorem Routine.forEach_call {C β : Type} (c : C) (xs : List β) (tr : List C) :
    Routine.forEach xs (fun _ => Routine.call c) tr
      = (Except.ok (), tr ++ List.replicate xs.length c) := by
  induction xs generalizing tr with
  | nil => simp [Routine.forEach_nil]
  | cons x xs ih =>
    rw [Routine.forEach_cons, Routine.bind_ok _ _ _ _ _ (Routine.run_call c tr), ih]
    simp [List.replicate_succ]

theorem castInt_max_one {α : Type} [LinearOrderedField α] [FloorRing α] (x : α) :
    (if castInt x < 1 then (1 : Int) else castInt x) = max 1 (Int.floor x) := by
  unfold castInt
  by_cases hx : 0 ≤ x
  · rw [if_pos hx]
    split
    · rw [max_eq_left]
      omega
    · rw [max_eq_right]
      omega
  · rw [if_neg hx]
    have hc : Int.ceil x ≤ 0 := Int.ceil_le.2 (by push_cast; linarith)
    have hf : Int.floor x < 1 := Int.floor_lt.2 (by push_cast; linarith)
    rw [if_pos (by omega), max_eq_left (by omega)]

theorem World.stepPhysics_run {α : Type} [LinearOrderedField α] [FloorRing α] (w : World α)
    (tr : List (Call α)) :
    w.stepPhysics tr =
      (Except.ok (),
        tr ++
          if 0 < w.physicsStepTime then
            List.replicate w.physicsStepsPerFrame.toNat
              (Call.stepSimulation w.physicsStepTime
                (max 1 (Int.floor (divFloat w.physicsStepTime (divFloat 1 60)))))
          else []) := by
  by_cases ht : 0 < w.physicsStepTime
  · simp only [World.stepPhysics, ht, if_true]
    rw [castInt_max_one, Routine.forEach_call]
    simp
  · simp only [World.stepPhysics, ht, if_false]
    simp [Routine.run_pure]

theorem World.processFrame_stepSimulation_filter {α : Type} [LinearOrderedField α]
    [FloorRing α] (gl : GLDevice α) (scene : Scene α) (w : World α) (tr : List (Call α)) :
    ((World.processFrame gl scene w tr).2).filter Call.isStepSimulation =
      tr.filter Call.isStepSimulation ++
        if 0 < w.physicsStepTime then
          List.replicate w.physicsStepsPerFrame.toNat
            (Call.stepSimulation w.physicsStepTime
              (max 1 (Int.floor (divFloat w.physicsStepTime (divFloat 1 60)))))
        else [] := by
  have hrun : World.processFrame gl scene w tr
      = w.renderFrame gl scene
          (tr ++
            if 0 < w.physicsStepTime then
              List.replicate w.physicsStepsPerFrame.toNat
                (Call.stepSimulation w.physicsStepTime
                  (max 1 (Int.floor (divFloat w.physicsStepTime (divFloat 1 60)))))
            else []) := by
    simp only [World.processFrame, Routine.run_bind]
    rw [Routine.bind_ok _ _ _ _ _ (World.stepPhysics_run w tr)]
  rw [hrun, Routine.emitsOnly_filter _ _ (World.renderFrame_noStep gl scene w),
    List.filter_append]
  congr 1
  split
  · rw [List.filter_eq_self]
    intro c hc
    rw [List.eq_of_mem_replicate hc]
    rfl
  · rfl

/-! ## Divisions of float values -/

theorem roundHalfEven_eq {α : Type} [LinearOrderedField α] [FloorRing α] (x : α) (n : Int)
    (h1 : (n : α) - 1 / 2 < x) (h2 : x < (n : α) + 1 / 2) : roundHalfEven x = n := by
  have hf1 : ((Int.floor x : Int) : α) ≤ x := Int.floor_le x
  have hf2 : x < ((Int.floor x : Int) : α) + 1 := Int.lt_floor_add_one x
  have hle : Int.floor x ≤ n := by
    by_contra hc
    have h : n + 1 ≤ Int.floor x := by omega
    have h3 : ((n + 1 : Int) : α) ≤ ((Int.floor x : Int) : α) := by exact_mod_cast h
    push_cast at h3
    linarith
  have hge : n ≤ Int.floor x + 1 := by
    by_contra hc
    have h : Int.floor x + 2 ≤ n := by omega
    have h3 : ((Int.floor x + 2 : Int) : α) ≤ (n : α) := by exact_mod_cast h
    push_cast at h3
    linarith
  unfold roundHalfEven
  dsimp only
  rcases (by omega : Int.floor x = n ∨ Int.floor x = n - 1) with h | h
  · rw [h, if_pos (by linarith)]
  · rw [h]
    push_cast
    rw [if_neg (by linarith), if_pos (by linarith)]
    ring

theorem roundFloat_eq {α : Type} [LinearOrderedField α] [FloorRing α] (x : α) (e n : Int)
    (h1 : (2 : α) ^ e ≤ x) (h2 : x < (2 : α) ^ (e + 1))
    (hn : roundHalfEven (x / (2 : α) ^ (e - 23)) = n) :
    roundFloat x = (n : α) * (2 : α) ^ (e - 23) := by
  have hx : 0 < x := lt_of_lt_of_le (zpow_pos (by norm_num) e) h1
  have hlog : Int.log 2 |x| = e := by
    rw [abs_of_pos hx]
    apply le_antisymm
    · have := (Int.lt_zpow_iff_log_lt (R := α) (b := 2) (by norm_num) hx (x := e + 1)).1
        (by exact_mod_cast h2)
      omega
    · exact (Int.zpow_le_iff_le_log (R := α) (b := 2) (by norm_num) hx (x := e)).1
        (by exact_mod_cast h1)
  unfold roundFloat
  rw [if_neg (ne_of_gt hx)]
  dsimp only
  rw [hlog, hn]

theorem roundFloat_one_sixtieth : roundFloat (1 / 60 : ℚ) = 8947849 / 536870912 := by
  rw [roundFloat_eq (1 / 60 : ℚ) (-6) 8947849 (by norm_num) (by norm_num)
    (roundHalfEven_eq _ _ (by norm_num) (by norm_num))]
  norm_num

theorem divFloat_half_second :
    divFloat (1 / 2 : ℚ) (divFloat 1 60) = 15728639 / 524288 := by
  unfold divFloat
  rw [roundFloat_one_sixtieth,
    roundFloat_eq _ 4 15728639 (by norm_num) (by norm_num)
      (roundHalfEven_eq _ _ (by norm_num) (by norm_num))]
  norm_num

theorem floor_divFloat_half_second :
    Int.floor (divFloat (1 / 2 : ℚ) (divFloat 1 60)) = 29 := by
  rw [divFloat_half_second, Int.floor_eq_iff]
  constructor <;> norm_num

/-- C14 as stated fails: in the state that `setTargetFPS(2)` leaves a new world in (step
aligned, physicsStepTime = 0.5, one step per frame), `processFrame` calls
`stepSimulation(0.5, 29)`, while max(1, floor(0.5 / (1/60))) is 30: the float
constant 1.0f/60.0f is 8947849/2^29, above 1/60, and the float quotient of
0.5 by it is 15728639/2^19, below 30. -/
theorem World.processFrame_half_second_substeps :
    ((World.processFrame (Example.gl ℚ) (Example.scene ℚ)
        (World.mk [] [] 0 2 (1 / 2) true 1 0) []).2).filter Call.isStepSimulation
      = [Call.stepSimulation (1 / 2) 29] ∧
    max 1 (Int.floor ((1 / 2 : ℚ) / (1 / 60))) = 30 ∧
    (World.new : World ℚ).setTargetFPS 2 = World.mk [] [] 0 2 (1 / 2) true 1 0 ∧
    ¬ ∀ (gl : GLDevice ℚ) (scene : Scene ℚ) (w : World ℚ) (tr : List (Call ℚ)),
        ((World.processFrame gl scene w tr).2).filter Call.isStepSimulation =
          tr.filter Call.isStepSimulation ++
            if 0 < w.physicsStepTime then
              List.replicate w.physicsStepsPerFrame.toNat
                (Call.stepSimulation w.physicsStepTime
                  (max 1 (Int.floor (w.physicsStepTime / (1 / 60)))))
            else [] := by
  have hrun : ((World.processFrame (Example.gl ℚ) (Example.scene ℚ)
        (World.mk [] [] 0 2 (1 / 2) true 1 0) []).2).filter Call.isStepSimulation
      = [Call.stepSimulation (1 / 2) 29] := by
    rw [World.processFrame_stepSimulation_filter]
    simp only [floor_divFloat_half_second]
    norm_num
  have hexact : max 1 (Int.floor ((1 / 2 : ℚ) / (1 / 60))) = 30 := by
    have hf : Int.floor ((1 / 2 : ℚ) / (1 / 60)) = 30 := by
      rw [Int.floor_eq_iff]
      constructor <;> norm_num
    rw [hf]
    rfl
  refine ⟨hrun, hexact, ?_, ?_⟩
  · simp [World.new, World.setTargetFPS]
  · intro h
    have h1 := h (Example.gl ℚ) (Example.scene ℚ) (World.mk [] [] 0 2 (1 / 2) true 1 0) []
    rw [hrun] at h1
    simp only [hexact] at h1
    norm_num at h1

/-- C14 amended: in every World state, `processFrame` calls `stepSimulation` exactly
physicsStepsPerFrame times (no time when that count is <= 0) when
physicsStepTime > 0, each time with the slice physicsStepTime and the sub-step
count max(1, floor(q)), where q is the float quotient of physicsStepTime by
the float constant 1.0f/60.0f (each division rounded to the nearest float),
and never when physicsStepTime <= 0: these are all the `stepSimulation` calls
that the frame adds to the calls made before it. -/
theorem World.processFrame_stepSimulation_calls {α : Type} [LinearOrderedField α]
    [FloorRing α] (gl : GLDevice α) (scene : Scene α) (w : World α) (tr : List (Call α)) :
    ((World.processFrame gl scene w tr).2).filter Call.isStepSimulation =
      tr.filter Call.isStepSimulation ++
        if 0 < w.physicsStepTime then
          List.replicate w.physicsStepsPerFrame.toNat
            (Call.stepSimulation w.physicsStepTime
              (max 1 (Int.floor (divFloat w.physicsStepTime (divFloat 1 60)))))
        else [] :=
  World.processFrame_stepSimulation_filter gl scene w tr

/-! ## Pausing -/

theorem Sandbox.pause_run {α : Type} [LinearOrderedField α] (w : World α)
    (tr : List (Call α)) :
    Sandbox.pause w tr =
      (Except.ok (World.mk w.objects w.staticObjects w.staticObjectCount w.fps
        w.physicsStepTime false 0 w.actualFPS), tr) := by
  rfl

theorem World.processFrame_without_steps {α : Type} [LinearOrderedField α] [FloorRing α]
    (gl : GLDevice α) (scene : Scene α) (w : World α) (h : w.physicsStepsPerFrame = 0)
    (tr : List (Call α)) :
    World.processFrame gl scene w tr = w.renderFrame gl scene tr := by
  simp only [World.processFrame, Routine.run_bind]
  rw [Routine.bind_ok _ _ _ _ _ (World.stepPhysics_run w tr)]
  simp [h]

/-- C15: the pause sequence (`alignPhysicsStepToFPS(false)`, then
`setPhysicsStepsPerFrame(0)`) ends normally in every World state and leaves
physicsStepsPerFrame = 0; any number of consecutive `processFrame` calls on
worlds that keep this value adds no `stepSimulation` call, and each of these
frames is its rendering part, run as in a frame that is not paused. -/
theorem Sandbox.pause_stops_physics {α : Type} [LinearOrderedField α] [FloorRing α]
    (w : World α) (tr : List (Call α))
    (frames : List (GLDevice α × Scene α × World α))
    (hframes : ∀ f ∈ frames, f.2.2.physicsStepsPerFrame = 0) :
    Sandbox.pause w tr =
      (Except.ok (World.mk w.objects w.staticObjects w.staticObjectCount w.fps
        w.physicsStepTime false 0 w.actualFPS), tr) ∧
    ((Routine.forEach frames (fun f => World.processFrame f.1 f.2.1 f.2.2) tr).2).filter
        Call.isStepSimulation = tr.filter Call.isStepSimulation ∧
    ∀ f ∈ frames, ∀ tr0 : List (Call α),
      World.processFrame f.1 f.2.1 f.2.2 tr0 = f.2.2.renderFrame f.1 f.2.1 tr0 := by
  refine ⟨Sandbox.pause_run w tr, ?_, ?_⟩
  · induction frames generalizing tr with
    | nil => rfl
    | cons f fs ih =>
      have hf : f.2.2.physicsStepsPerFrame = 0 := hframes f (by simp)
      have hfs : ∀ g ∈ fs, g.2.2.physicsStepsPerFrame = 0 :=
        fun g hg => hframes g (by simp [hg])
      have hstep := Routine.emitsOnly_filter Call.isStepSimulation _
        (World.renderFrame_noStep f.1 f.2.1 f.2.2) tr
      rw [Routine.forEach_cons]
      cases hr : World.processFrame f.1 f.2.1 f.2.2 tr with
      | mk r tr1 =>
        have h1 : tr1.filter Call.isStepSimulation = tr.filter Call.isStepSimulation := by
          rw [← World.processFrame_without_steps f.1 f.2.1 f.2.2 hf tr, hr] at hstep
          exact hstep
        cases r with
        | error e =>
          rw [Routine.bind_error _ _ _ _ _ hr]
          exact h1
        | ok u =>
          rw [Routine.bind_ok _ _ _ _ _ hr, ih tr1 hfs]
          exact h1
  · intro f hf tr0
    exact World.processFrame_without_steps f.1 f.2.1 f.2.2 (hframes f hf) tr0

/-- Witness of C15: two frames of a paused world that holds the example object and whose
physics step time is 1/60. -/
theorem Sandbox.pause_stops_physics_witness :
    ((Routine.forEach
        [(Example.gl ℚ, Example.scene ℚ,
            World.mk [ObjectRef.mk 1 (Example.object ℚ)] [] 0 60 (1 / 60) false 0 0),
          (Example.gl ℚ, Example.scene ℚ,
            World.mk [ObjectRef.mk 1 (Example.object ℚ)] [] 0 60 (1 / 60) false 0 0)]
        (fun f => World.processFrame f.1 f.2.1 f.2.2) []).2).filter
      Call.isStepSimulation = [] :=
  (Sandbox.pause_stops_physics
    (World.mk [ObjectRef.mk 1 (Example.object ℚ)] [] 0 60 (1 / 60) true 1 0) []
    [(Example.gl ℚ, Example.scene ℚ,
        World.mk [ObjectRef.mk 1 (Example.object ℚ)] [] 0 60 (1 / 60) false 0 0),
      (Example.gl ℚ, Example.scene ℚ,
        World.mk [ObjectRef.mk 1 (Example.object ℚ)] [] 0 60 (1 / 60) false 0 0)]
    (by
      intro f hf
      simp only [List.mem_cons, List.mem_singleton, List.not_mem_nil, or_false, or_self]
        at hf
      rw [hf])).2.1

/-- C16 as stated fails: a world whose step is not aligned, with a step time of 1/120 and two
steps per frame, comes out of pausing and unpausing with a step time of 1/60
and one step per frame. -/
theorem Sandbox.unpause_resets_custom_step :
    ¬ ∀ (w wp : World ℚ) (tr : List (Call ℚ)),
        Sandbox.pause w tr = (Except.ok wp, tr) →
        (Sandbox.unpause wp).physicsStepTime = w.physicsStepTime ∧
        (Sandbox.unpause wp).physicsStepsPerFrame = w.physicsStepsPerFrame := by
  intro h
  have h1 := h (World.mk [] [] 0 60 (1 / 120) false 2 0)
    (World.mk [] [] 0 60 (1 / 120) false 0 0) [] rfl
  have h2 : (1 : Int) = 2 := h1.2
  omega

/-- C16 amended: in every World state the pause sequence ends normally, and the world comes
out of pausing and unpausing with the step aligned, a step time of 1/fps and
one step per frame, and with fps as it was; in a World state whose physics
step time is 1/fps and whose physics steps per frame is 1 (the values of a
step that is aligned to the frame rate), this restores both values. -/
theorem Sandbox.unpause_restores_aligned_step {α : Type} [LinearOrderedField α]
    (w : World α) (tr : List (Call α)) :
    ∃ wp : World α, Sandbox.pause w tr = (Except.ok wp, tr) ∧
      (Sandbox.unpause wp).alignPStep2FPS = true ∧
      (Sandbox.unpause wp).physicsStepTime = 1 / (w.fps : α) ∧
      (Sandbox.unpause wp).physicsStepsPerFrame = 1 ∧
      (Sandbox.unpause wp).fps = w.fps ∧
      (w.physicsStepTime = 1 / (w.fps : α) → w.physicsStepsPerFrame = 1 →
        (Sandbox.unpause wp).physicsStepTime = w.physicsStepTime ∧
        (Sandbox.unpause wp).physicsStepsPerFrame = w.physicsStepsPerFrame) := by
  refine ⟨_, Sandbox.pause_run w tr, rfl, rfl, rfl, rfl, ?_⟩
  intro htime hsteps
  constructor
  · rw [htime]
    rfl
  · rw [hsteps]
    rfl

/-- Witness of C16: the world as its constructor leaves it. -/
theorem Sandbox.unpause_restores_aligned_step_witness :
    ∃ wp : World ℚ, Sandbox.pause (World.new : World ℚ) [] = (Except.ok wp, []) ∧
      (Sandbox.unpause wp).physicsStepTime = (World.new : World ℚ).physicsStepTime ∧
      (Sandbox.unpause wp).physicsStepsPerFrame
        = (World.new : World ℚ).physicsStepsPerFrame := by
  obtain ⟨wp, h1, _, _, _, _, h2⟩ :=
    Sandbox.unpause_restores_aligned_step (World.new : World ℚ) []
  exact ⟨wp, h1, h2 (by norm_num [World.new]) rfl⟩

/-! ## Frame pacing -/

theorem World.waitFrame_eq_some {α : Type} [LinearOrderedField α] (frameTime : α)
    (readings rest : List α) :
    World.waitFrame frameTime readings = some rest ↔
      ∃ (waited : List α) (reached : α),
        readings = waited ++ reached :: rest ∧ (∀ x ∈ waited, x < frameTime) ∧
          frameTime ≤ reached := by
  induction readings with
  | nil =>
    simp [World.waitFrame]
  | cons r rs ih =>
    by_cases hr : r < frameTime
    · simp only [World.waitFrame, hr, if_true, ih]
      constructor
      · rintro ⟨waited, reached, hrs, hw, hreach⟩
        refine ⟨r :: waited, reached, by simp [hrs], ?_, hreach⟩
        intro x hx
        rcases List.mem_cons.mp hx with h | h
        · rw [h]
          exact hr
        · exact hw x h
      · rintro ⟨waited, reached, hrs, hw, hreach⟩
        cases waited with
        | nil =>
          simp only [List.nil_append, List.cons.injEq] at hrs
          rw [hrs.1] at hr
          exact absurd hr (not_lt.mpr hreach)
        | cons a as =>
          simp only [List.cons_append, List.cons.injEq] at hrs
          exact ⟨as, reached, hrs.2, fun x hx => hw x (by simp [hx]), hreach⟩
    · simp only [World.waitFrame, hr, if_false, Option.some.injEq]
      constructor
      · intro h
        exact ⟨[], r, by simp [h], by simp, not_lt.mp hr⟩
      · rintro ⟨waited, reached, hrs, hw, _⟩
        cases waited with
        | nil =>
          simp only [List.nil_append, List.cons.injEq] at hrs
          exact hrs.2
        | cons a as =>
          simp only [List.cons_append, List.cons.injEq] at hrs
          have := hw a (by simp)
          rw [← hrs.1] at this
          exact absurd this hr

/-- C17: for every target fps > 0 and every non-decreasing sequence of readings of the elapsed
time, `endFrame` returns exactly when some reading is >= 1/fps and another
reading follows it; every reading before the first such one is below 1/fps,
and the actual FPS it records is the integer part of 1/elapsed for the reading
made after the wait, which is <= fps. -/
theorem World.endFrame_paces {α : Type} [LinearOrderedField α] [FloorRing α] (w : World α)
    (readings : List α)
    (hfps : 0 < w.fps)
    (hmono : readings.Pairwise (fun a b => a ≤ b)) :
    ((∃ w1, w.endFrame readings = some w1) ↔
      ∃ (waited : List α) (reached elapsed : α) (rest : List α),
        readings = waited ++ reached :: elapsed :: rest ∧
        (∀ x ∈ waited, x < 1 / (w.fps : α)) ∧ 1 / (w.fps : α) ≤ reached) ∧
    ∀ w1, w.endFrame readings = some w1 →
      ∃ (waited : List α) (reached elapsed : α) (rest : List α),
        readings = waited ++ reached :: elapsed :: rest ∧
        (∀ x ∈ waited, x < 1 / (w.fps : α)) ∧ 1 / (w.fps : α) ≤ reached ∧
        1 / (w.fps : α) ≤ elapsed ∧
        w1 = { w with actualFPS := Int.floor (1 / elapsed) } ∧
        w1.getActualFPS ≤ w.fps := by
  have hft : (0 : α) < 1 / (w.fps : α) := by
    have : (0 : α) < (w.fps : α) := by exact_mod_cast hfps
    positivity
  have key : ∀ w1, w.endFrame readings = some w1 →
      ∃ (waited : List α) (reached elapsed : α) (rest : List α),
        readings = waited ++ reached :: elapsed :: rest ∧
        (∀ x ∈ waited, x < 1 / (w.fps : α)) ∧ 1 / (w.fps : α) ≤ reached ∧
        1 / (w.fps : α) ≤ elapsed ∧
        w1 = { w with actualFPS := Int.floor (1 / elapsed) } ∧
        w1.getActualFPS ≤ w.fps := by
    intro w1 h
    unfold World.endFrame at h
    dsimp only at h
    cases hwait : World.waitFrame (1 / (w.fps : α)) readings with
    | none =>
      rw [hwait] at h
      cases h
    | some left =>
      cases left with
      | nil =>
        rw [hwait] at h
        cases h
      | cons elapsed rest =>
        rw [hwait] at h
        replace h : { w with actualFPS := castInt (1 / elapsed) } = w1 :=
          Option.some.inj h
        obtain ⟨waited, reached, hrd, hw, hreach⟩ :=
          (World.waitFrame_eq_some _ _ _).mp hwait
        have hle : reached ≤ elapsed := by
          rw [hrd, List.pairwise_append] at hmono
          have := hmono.2.1
          rw [List.pairwise_cons] at this
          exact this.1 elapsed (by simp)
        have helapsed : 1 / (w.fps : α) ≤ elapsed := le_trans hreach hle
        have hpos : 0 < elapsed := lt_of_lt_of_le hft helapsed
        have hnn : (0 : α) ≤ 1 / elapsed := by positivity
        have hcast : castInt (1 / elapsed) = Int.floor (1 / elapsed) := by
          unfold castInt
          rw [if_pos hnn]
        have hbound : 1 / elapsed ≤ (w.fps : α) := by
          have hfpos : (0 : α) < (w.fps : α) := by exact_mod_cast hfps
          rw [div_le_iff₀ hpos]
          have := (div_le_iff₀ hfpos).mp helapsed
          linarith
        refine ⟨waited, reached, elapsed, rest, hrd, hw, hreach, helapsed, ?_, ?_⟩
        · rw [← h, hcast]
        · rw [← h, hcast]
          show Int.floor (1 / elapsed) ≤ w.fps
          have h1 : ((Int.floor (1 / elapsed) : Int) : α) ≤ (w.fps : α) :=
            le_trans (Int.floor_le _) hbound
          exact_mod_cast h1
  refine ⟨⟨?_, ?_⟩, key⟩
  · rintro ⟨w1, h⟩
    obtain ⟨waited, reached, elapsed, rest, hrd, hw, hreach, _⟩ := key w1 h
    exact ⟨waited, reached, elapsed, rest, hrd, hw, hreach⟩
  · rintro ⟨waited, reached, elapsed, rest, hrd, hw, hreach⟩
    have hwait : World.waitFrame (1 / (w.fps : α)) readings = some (elapsed :: rest) :=
      (World.waitFrame_eq_some _ _ _).mpr ⟨waited, reached, hrd, hw, hreach⟩
    refine ⟨{ w with actualFPS := castInt (1 / elapsed) }, ?_⟩
    unfold World.endFrame
    dsimp only
    rw [hwait]

/-- Witness of C17: a target of 60 and the readings 0, 1/120, 1/60, 1/50; the wait ends at
1/60 and the frame records 50. -/
theorem World.endFrame_paces_witness :
    ∃ (waited : List ℚ) (reached elapsed : ℚ) (rest : List ℚ),
      [0, 1 / 120, 1 / 60, 1 / 50] = waited ++ reached :: elapsed :: rest ∧
      (∀ x ∈ waited, x < 1 / (((World.new : World ℚ).fps : Int) : ℚ)) ∧
      1 / (((World.new : World ℚ).fps : Int) : ℚ) ≤ reached ∧
      1 / (((World.new : World ℚ).fps : Int) : ℚ) ≤ elapsed ∧
      (World.mk [] [] 0 60 (1 / 60) true 1 50 : World ℚ)
        = { (World.new : World ℚ) with actualFPS := Int.floor (1 / elapsed) } ∧
      (World.mk [] [] 0 60 (1 / 60) true 1 50 : World ℚ).getActualFPS
        ≤ (World.new : World ℚ).fps :=
  (World.endFrame_paces (World.new : World ℚ) [0, 1 / 120, 1 / 60, 1 / 50]
    (by decide)
    (by
      simp only [List.pairwise_cons, List.mem_cons, List.mem_singleton, List.not_mem_nil,
        List.Pairwise.nil, and_true]
      norm_num)).2
    (World.mk [] [] 0 60 (1 / 60) true 1 50)
    (by
      simp only [World.endFrame, World.waitFrame, World.new, castInt]
      norm_num)

/-! ## Static objects -/

theorem bucketPushBack_lookup {α : Type} (m : List (Nat × List (ObjectRef α)))
    (material k : Nat) (object : ObjectRef α) :
    (bucketPushBack m material object).lookup k =
      if k = material then (m.lookup k).map (fun bucket => bucket ++ [object])
      else m.lookup k := by
  induction m with
  | nil => simp [bucketPushBack, List.lookup]
  | cons e rest ih =>
    obtain ⟨key, bucket⟩ := e
    by_cases hkey : key = material
    · subst hkey
      by_cases hk : k = key
      · subst hk
        simp [bucketPushBack, List.lookup]
      · have hb : (k == key) = false := by simpa using hk
        simp [bucketPushBack, List.lookup, hb, hk]
    · by_cases hk : k = key
      · subst hk
        simp [bucketPushBack, List.lookup, hkey]
      · have hb : (k == key) = false := by simpa using hk
        simp only [bucketPushBack, hkey, if_false, List.lookup, hb]
        exact ih

theorem bucketPushBack_keys {α : Type} (m : List (Nat × List (ObjectRef α)))
    (material : Nat) (object : ObjectRef α) :
    (bucketPushBack m material object).map Prod.fst = m.map Prod.fst := by
  induction m with
  | nil => rfl
  | cons e rest ih =>
    by_cases hkey : e.1 = material
    · simp [bucketPushBack, hkey]
    · simp [bucketPushBack, hkey, ih]

theorem lookup_bucket_append {α : Type} (m : List (Nat × List (ObjectRef α)))
    (material k : Nat) (bucket : List (ObjectRef α)) :
    (m ++ [(material, bucket)]).lookup k =
      match m.lookup k with
      | some b => some b
      | none => if k = material then some bucket else none := by
  induction m with
  | nil =>
    by_cases h : k = material
    · subst h
      simp [List.lookup]
    · have hb : (k == material) = false := by simpa using h
      simp [List.lookup, hb, h]
  | cons e rest ih =>
    obtain ⟨key, b⟩ := e
    by_cases hk : k = key
    · subst hk
      simp [List.lookup]
    · have hb : (k == key) = false := by simpa using hk
      simp only [List.cons_append, List.lookup, hb]
      exact ih

theorem lookup_none_iff_not_key {α : Type} (m : List (Nat × List (ObjectRef α))) (k : Nat) :
    m.lookup k = none ↔ k ∉ m.map Prod.fst := by
  induction m with
  | nil => simp [List.lookup]
  | cons e rest ih =>
    obtain ⟨key, b⟩ := e
    by_cases hk : k = key
    · subst hk
      simp [List.lookup]
    · have hb : (k == key) = false := by simpa using hk
      simp only [List.lookup, hb, ih, List.map_cons, List.mem_cons, not_or]
      exact ⟨fun h => ⟨hk, h⟩, fun h => h.2⟩

theorem World.addStaticObject_of_none {α : Type} (materialOf : ObjectRef α → Nat)
    (w : World α) (object : ObjectRef α)
    (h : w.staticObjects.lookup (materialOf object) = none) :
    (w.addStaticObject materialOf object).staticObjects
      = w.staticObjects ++ [(materialOf object, [object])] := by
  simp only [World.addStaticObject, h]

theorem World.addStaticObject_of_some {α : Type} (materialOf : ObjectRef α → Nat)
    (w : World α) (object : ObjectRef α) (bucket : List (ObjectRef α))
    (h : w.staticObjects.lookup (materialOf object) = some bucket) :
    (w.addStaticObject materialOf object).staticObjects
      = bucketPushBack w.staticObjects (materialOf object) object := by
  simp only [World.addStaticObject, h]

/-- The entry of a material after `addStaticObject`: the object is appended to the vector of
its own material, which is created when the material has none; the other
vectors are left as they are. -/
theorem World.addStaticObject_lookup {α : Type} (materialOf : ObjectRef α → Nat)
    (w : World α) (object : ObjectRef α) (k : Nat) :
    (w.addStaticObject materialOf object).staticObjects.lookup k =
      if k = materialOf object then
        some ((w.staticObjects.lookup k).getD [] ++ [object])
      else w.staticObjects.lookup k := by
  cases hl : w.staticObjects.lookup (materialOf object) with
  | none =>
    rw [World.addStaticObject_of_none materialOf w object hl, lookup_bucket_append]
    by_cases hk : k = materialOf object
    · subst hk
      simp [hl]
    · simp only [hk, if_false]
      cases w.staticObjects.lookup k <;> rfl
  | some bucket =>
    rw [World.addStaticObject_of_some materialOf w object bucket hl, bucketPushBack_lookup]
    by_cases hk : k = materialOf object
    · subst hk
      simp [hl]
    · simp [hk]

theorem World.addStaticObject_keys {α : Type} (materialOf : ObjectRef α → Nat)
    (w : World α) (object : ObjectRef α) :
    (w.addStaticObject materialOf object).staticObjects.map Prod.fst =
      if materialOf object ∈ w.staticObjects.map Prod.fst then w.staticObjects.map Prod.fst
      else w.staticObjects.map Prod.fst ++ [materialOf object] := by
  cases hl : w.staticObjects.lookup (materialOf object) with
  | none =>
    have hnot := (lookup_none_iff_not_key _ _).mp hl
    rw [World.addStaticObject_of_none materialOf w object hl]
    simp only [hnot, if_false, List.map_append, List.map_cons, List.map_nil]
  | some bucket =>
    have hin : materialOf object ∈ w.staticObjects.map Prod.fst := by
      by_contra hnot
      rw [(lookup_none_iff_not_key _ _).mpr hnot] at hl
      cases hl
    rw [World.addStaticObject_of_some materialOf w object bucket hl]
    simp only [hin, if_true, bucketPushBack_keys]

theorem World.addStaticObjects_keys {α : Type} (materialOf : ObjectRef α → Nat)
    (objects : List (ObjectRef α)) :
    ∀ w : World α, (w.staticObjects.map Prod.fst).Nodup →
      ((objects.foldl (World.addStaticObject materialOf) w).staticObjects.map Prod.fst).Nodup ∧
      ∀ k, k ∈ (objects.foldl (World.addStaticObject materialOf) w).staticObjects.map Prod.fst ↔
        k ∈ w.staticObjects.map Prod.fst ∨ k ∈ objects.map materialOf := by
  induction objects with
  | nil =>
    intro w hw
    exact ⟨hw, fun k => by simp⟩
  | cons x xs ih =>
    intro w hw
    have hkeys := World.addStaticObject_keys materialOf w x
    have hnd : ((w.addStaticObject materialOf x).staticObjects.map Prod.fst).Nodup := by
      rw [hkeys]
      split
      · exact hw
      · rename_i hnot
        rw [List.nodup_append]
        refine ⟨hw, List.nodup_singleton _, ?_⟩
        intro a ha hb
        rw [List.mem_singleton] at hb
        rw [hb] at ha
        exact hnot ha
    obtain ⟨h1, h2⟩ := ih (w.addStaticObject materialOf x) hnd
    refine ⟨h1, ?_⟩
    intro k
    simp only [List.foldl_cons]
    rw [h2 k, hkeys]
    split
    · rename_i hin
      simp only [List.map_cons, List.mem_cons]
      constructor
      · rintro (h | h)
        · exact Or.inl h
        · exact Or.inr (Or.inr h)
      · rintro (h | h | h)
        · exact Or.inl h
        · rw [h]
          exact Or.inl hin
        · exact Or.inr h
    · simp only [List.mem_append, List.mem_singleton, List.map_cons, List.mem_cons]
      tauto

/-- C18: in a world whose static index has one entry per material, adding two objects that
share a material leaves exactly one entry for that material, whose vector is
the vector the material had before (empty when it had none) followed by the
two objects in the order added. An `addStaticObject` keeps every vector that
was there and only appends to it; starting from a new world, the index has
one entry for each distinct material among the added objects. -/
theorem World.addStaticObject_buckets {α : Type} [LinearOrderedField α]
    (materialOf : ObjectRef α → Nat) (w : World α) (a b : ObjectRef α)
    (hkeys : (w.staticObjects.map Prod.fst).Nodup)
    (hsame : materialOf a = materialOf b) :
    (((w.addStaticObject materialOf a).addStaticObject materialOf b).staticObjects.map
        Prod.fst).count (materialOf a) = 1 ∧
    ((w.addStaticObject materialOf a).addStaticObject materialOf b).staticObjects.lookup
        (materialOf a)
      = some ((w.staticObjects.lookup (materialOf a)).getD [] ++ [a, b]) ∧
    (∀ (w0 : World α) (x : ObjectRef α) (k : Nat) (bucket : List (ObjectRef α)),
      w0.staticObjects.lookup k = some bucket →
      (w0.addStaticObject materialOf x).staticObjects.lookup k
        = some (bucket ++ if k = materialOf x then [x] else [])) ∧
    (∀ objects : List (ObjectRef α),
      ((objects.foldl (World.addStaticObject materialOf)
          (World.new : World α)).staticObjects.map Prod.fst).Nodup ∧
      (objects.foldl (World.addStaticObject materialOf)
          (World.new : World α)).staticObjects.length
        = (objects.map materialOf).toFinset.card) := by
  refine ⟨?_, ?_, ?_, ?_⟩
  · obtain ⟨hnd, hmem⟩ := World.addStaticObjects_keys materialOf [a, b] w hkeys
    simp only [List.foldl_cons, List.foldl_nil] at hnd hmem
    exact List.count_eq_one_of_mem hnd ((hmem _).mpr (Or.inr (by simp)))
  · rw [World.addStaticObject_lookup, World.addStaticObject_lookup]
    simp [hsame]
  · intro w0 x k bucket hl
    rw [World.addStaticObject_lookup, hl]
    by_cases hk : k = materialOf x
    · simp [hk]
    · simp [hk]
  · intro objects
    obtain ⟨hnd, hmem⟩ := World.addStaticObjects_keys materialOf objects
      (World.new : World α) (by simp [World.new])
    refine ⟨hnd, ?_⟩
    have hset : ((objects.foldl (World.addStaticObject materialOf)
        (World.new : World α)).staticObjects.map Prod.fst).toFinset
        = (objects.map materialOf).toFinset := by
      ext k
      simp only [List.mem_toFinset]
      rw [hmem k]
      simp [World.new]
    rw [← hset, List.toFinset_card_of_nodup hnd, List.length_map]

/-- Witness of C18: two objects with the material at address 7 are added to a new world. -/
theorem World.addStaticObject_buckets_witness :
    ((((World.new : World ℚ).addStaticObject (fun _ => 7)
        (ObjectRef.mk 1 (Example.object ℚ))).addStaticObject (fun _ => 7)
        (ObjectRef.mk 2 (Example.object ℚ))).staticObjects.map Prod.fst).count 7 = 1 ∧
    (((World.new : World ℚ).addStaticObject (fun _ => 7)
        (ObjectRef.mk 1 (Example.object ℚ))).addStaticObject (fun _ => 7)
        (ObjectRef.mk 2 (Example.object ℚ))).staticObjects.lookup 7
      = some (((World.new : World ℚ).staticObjects.lookup 7).getD [] ++
          [ObjectRef.mk 1 (Example.object ℚ), ObjectRef.mk 2 (Example.object ℚ)]) :=
  have h := World.addStaticObject_buckets (fun _ => 7) (World.new : World ℚ)
    (ObjectRef.mk 1 (Example.object ℚ)) (ObjectRef.mk 2 (Example.object ℚ))
    (by simp [World.new]) rfl
  ⟨h.1, h.2.1⟩

/-! ## Object counts -/

theorem PhysicsSystem.addBody_run {α : Type} (ob : ObjectRef α) (tr : List (Call α)) :
    PhysicsSystem.addBody ob tr =
      (Except.ok (),
        tr ++ if ob.target.getPhysical.isSome then [Call.addRigidBody ob.addr] else []) := by
  unfold PhysicsSystem.addBody
  split <;> simp [Routine.run_call, Routine.run_pure]

theorem PhysicsSystem.removeBody_run {α : Type} (ob : ObjectRef α) (tr : List (Call α)) :
    PhysicsSystem.removeBody ob tr =
      (Except.ok (),
        tr ++ if ob.target.getPhysical.isSome then [Call.removeRigidBody ob.addr] else [])
      := by
  unfold PhysicsSystem.removeBody
  split <;> simp [Routine.run_call, Routine.run_pure]

theorem World.addObject_run {α : Type} (w : World α) (object : ObjectRef α)
    (tr : List (Call α)) :
    w.addObject object tr =
      (Except.ok { w with objects := setInsert w.objects object },
        tr ++ if object.target.getPhysical.isSome then [Call.addRigidBody object.addr]
          else []) := by
  simp only [World.addObject, Routine.run_bind]
  rw [Routine.bind_ok _ _ _ _ _ (PhysicsSystem.addBody_run object tr)]
  rfl

theorem World.removeObject_run {α : Type} (w : World α) (object : ObjectRef α)
    (tr : List (Call α)) :
    w.removeObject object tr =
      if setContains w.objects object.addr then
        (Except.ok { w with objects := setErase w.objects object.addr },
          tr ++ if object.target.getPhysical.isSome then [Call.removeRigidBody object.addr]
            else [])
      else (Except.ok w, tr) := by
  unfold World.removeObject
  split
  · simp only [Routine.run_bind]
    rw [Routine.bind_ok _ _ _ _ _ (PhysicsSystem.removeBody_run object tr)]
    rfl
  · rfl

theorem bucketPushBack_total {α : Type} (m : List (Nat × List (ObjectRef α)))
    (material : Nat) (object : ObjectRef α) (bucket : List (ObjectRef α))
    (h : m.lookup material = some bucket) :
    ((bucketPushBack m material object).map (fun e => (e.2.length : Int))).sum
      = (m.map (fun e => (e.2.length : Int))).sum + 1 := by
  induction m with
  | nil => simp [List.lookup] at h
  | cons e rest ih =>
    obtain ⟨key, b⟩ := e
    by_cases hkey : key = material
    · subst hkey
      simp only [bucketPushBack, if_true, List.map_cons, List.sum_cons, List.length_append,
        List.length_singleton]
      push_cast
      ring
    · have hb : (material == key) = false := by
        simpa using fun h' : material = key => hkey h'.symm
      simp only [List.lookup, hb] at h
      simp only [bucketPushBack, hkey, if_false, List.map_cons, List.sum_cons, ih h]
      ring

theorem World.addStaticObject_total {α : Type} (materialOf : ObjectRef α → Nat)
    (w : World α) (object : ObjectRef α) :
    (w.addStaticObject materialOf object).staticTotal = w.staticTotal + 1 ∧
    (w.addStaticObject materialOf object).staticObjectCount = w.staticObjectCount + 1 ∧
    (w.addStaticObject materialOf object).objects = w.objects := by
  refine ⟨?_, ?_, ?_⟩
  · unfold World.staticTotal
    cases hl : w.staticObjects.lookup (materialOf object) with
    | none =>
      rw [World.addStaticObject_of_none materialOf w object hl]
      simp
    | some bucket =>
      rw [World.addStaticObject_of_some materialOf w object bucket hl]
      exact bucketPushBack_total _ _ _ bucket hl
  · cases hl : w.staticObjects.lookup (materialOf object) <;>
      simp only [World.addStaticObject, hl]
  · cases hl : w.staticObjects.lookup (materialOf object) <;>
      simp only [World.addStaticObject, hl]

theorem World.applyOps_count {α : Type} (materialOf : ObjectRef α → Nat)
    (ops : List (WorldOp α)) :
    ∀ (w : World α) (tr : List (Call α)), w.staticObjectCount = w.staticTotal →
      ∃ (w1 : World α) (tr1 : List (Call α)),
        World.applyOps materialOf w ops tr = (Except.ok w1, tr1) ∧
        w1.staticObjectCount = w1.staticTotal := by
  induction ops with
  | nil =>
    intro w tr h
    exact ⟨w, tr, rfl, h⟩
  | cons op rest ih =>
    intro w tr h
    simp only [World.applyOps, Routine.run_bind]
    cases op with
    | addObject object =>
      have hrun : World.applyOp materialOf w (WorldOp.addObject object) tr = _ :=
        World.addObject_run w object tr
      rw [Routine.bind_ok _ _ _ _ _ hrun]
      exact ih _ _ h
    | removeObject object =>
      have hrun : World.applyOp materialOf w (WorldOp.removeObject object) tr = _ :=
        World.removeObject_run w object tr
      by_cases hc : setContains w.objects object.addr = true
      · rw [if_pos hc] at hrun
        rw [Routine.bind_ok _ _ _ _ _ hrun]
        exact ih _ _ h
      · rw [if_neg hc] at hrun
        rw [Routine.bind_ok _ _ _ _ _ hrun]
        exact ih _ _ h
    | addStaticObject object =>
      have hrun : World.applyOp materialOf w (WorldOp.addStaticObject object) tr
          = (Except.ok (w.addStaticObject materialOf object), tr) := rfl
      rw [Routine.bind_ok _ _ _ _ _ hrun]
      obtain ⟨ht, hc, _⟩ := World.addStaticObject_total materialOf w object
      exact ih _ _ (by rw [ht, hc, h])

/-- C19: every sequence of `addObject`, `removeObject` and `addStaticObject` calls on a new
world ends normally, in a state where staticObjectCount is the sum of the
sizes of the vectors of the static index, so that `getObjectCount()` is the
size of the dynamic set plus the number of static objects in all vectors. -/
theorem World.getObjectCount_reachable {α : Type} [LinearOrderedField α]
    (materialOf : ObjectRef α → Nat) (ops : List (WorldOp α)) (tr : List (Call α)) :
    ∃ (w : World α) (tr1 : List (Call α)),
      World.applyOps materialOf (World.new : World α) ops tr = (Except.ok w, tr1) ∧
      w.staticObjectCount = (w.staticObjects.map (fun e => (e.2.length : Int))).sum ∧
      w.getObjectCount
        = (w.objects.length : Int) + (w.staticObjects.map (fun e => (e.2.length : Int))).sum
      := by
  obtain ⟨w, tr1, hrun, hcount⟩ :=
    World.applyOps_count materialOf ops (World.new : World α) tr (by simp [World.new,
      World.staticTotal])
  refine ⟨w, tr1, hrun, hcount, ?_⟩
  unfold World.getObjectCount
  rw [hcount]
  rfl

/-! ## The dynamic set -/

theorem setContains_iff {α : Type} (l : List (ObjectRef α)) (a : Nat) :
    setContains l a = true ↔ ∃ q ∈ l, q.addr = a := by
  induction l with
  | nil => simp [setContains]
  | cons q rest ih =>
    by_cases h : q.addr = a
    · simp [setContains, h]
    · simp [setContains, h, ih]

theorem setInsert_mem {α : Type} (l : List (ObjectRef α)) (p x : ObjectRef α)
    (h : x ∈ setInsert l p) : x = p ∨ x ∈ l := by
  induction l with
  | nil =>
    simp only [setInsert, List.mem_singleton] at h
    exact Or.inl h
  | cons q rest ih =>
    simp only [setInsert] at h
    split at h
    · rcases List.mem_cons.mp h with h1 | h1
      · exact Or.inl h1
      · exact Or.inr h1
    · split at h
      · exact Or.inr h
      · rcases List.mem_cons.mp h with h1 | h1
        · exact Or.inr (by simp [h1])
        · rcases ih h1 with h2 | h2
          · exact Or.inl h2
          · exact Or.inr (by simp [h2])

theorem setInsert_contains {α : Type} (l : List (ObjectRef α)) (p : ObjectRef α) (a : Nat) :
    setContains (setInsert l p) a = (decide (p.addr = a) || setContains l a) := by
  induction l with
  | nil => simp [setInsert, setContains]
  | cons q rest ih =>
    simp only [setInsert]
    split
    · simp [setContains]
    · split
      · rename_i heq
        by_cases hq : q.addr = a
        · simp [setContains, hq]
        · have hp : ¬ p.addr = a := by rw [heq]; exact hq
          simp [setContains, hq, hp]
      · by_cases hq : q.addr = a
        · simp [setContains, hq]
        · simp [setContains, hq, ih]

theorem setInsert_of_contains {α : Type} (l : List (ObjectRef α)) (p : ObjectRef α)
    (hs : l.Pairwise (fun a b => a.addr < b.addr))
    (h : setContains l p.addr = true) : setInsert l p = l := by
  induction l with
  | nil => simp [setContains] at h
  | cons q rest ih =>
    rw [List.pairwise_cons] at hs
    simp only [setInsert]
    split
    · rename_i hlt
      exfalso
      obtain ⟨x, hx, hxa⟩ := (setContains_iff _ _).mp h
      rcases List.mem_cons.mp hx with h1 | h1
      · rw [h1] at hxa
        omega
      · have := hs.1 x h1
        omega
    · split
      · rfl
      · rename_i hnlt hne
        have hq : ¬ q.addr = p.addr := fun h' => hne h'.symm
        simp only [setContains, hq, if_false] at h
        rw [ih hs.2 h]

theorem setInsert_length {α : Type} (l : List (ObjectRef α)) (p : ObjectRef α)
    (h : setContains l p.addr = false) : (setInsert l p).length = l.length + 1 := by
  induction l with
  | nil => rfl
  | cons q rest ih =>
    by_cases hq : q.addr = p.addr
    · simp [setContains, hq] at h
    · simp only [setContains, hq, if_false] at h
      have hne : ¬ p.addr = q.addr := fun h' => hq h'.symm
      simp only [setInsert, hne, if_false]
      split
      · rfl
      · simp [ih h]

theorem setInsert_pairwise {α : Type} (l : List (ObjectRef α)) (p : ObjectRef α)
    (hs : l.Pairwise (fun a b => a.addr < b.addr)) :
    (setInsert l p).Pairwise (fun a b => a.addr < b.addr) := by
  induction l with
  | nil => simp [setInsert]
  | cons q rest ih =>
    have hs0 := hs
    rw [List.pairwise_cons] at hs
    simp only [setInsert]
    split
    · rename_i hlt
      rw [List.pairwise_cons]
      refine ⟨?_, hs0⟩
      intro x hx
      rcases List.mem_cons.mp hx with h1 | h1
      · rw [h1]
        exact hlt
      · have := hs.1 x h1
        omega
    · split
      · exact hs0
      · rename_i hnlt hne
        rw [List.pairwise_cons]
        refine ⟨?_, ih hs.2⟩
        intro x hx
        rcases setInsert_mem rest p x hx with h1 | h1
        · rw [h1]
          omega
        · exact hs.1 x h1

theorem setErase_insert {α : Type} (l : List (ObjectRef α)) (p : ObjectRef α)
    (h : setContains l p.addr = false) : setErase (setInsert l p) p.addr = l := by
  induction l with
  | nil => simp [setInsert, setErase]
  | cons q rest ih =>
    by_cases hq : q.addr = p.addr
    · simp [setContains, hq] at h
    · simp only [setContains, hq, if_false] at h
      have hne : ¬ p.addr = q.addr := fun h' => hq h'.symm
      simp only [setInsert, hne, if_false]
      split
      · simp [setErase]
      · simp [setErase, hq, ih h]

theorem setErase_sublist {α : Type} (l : List (ObjectRef α)) (a : Nat) :
    (setErase l a).Sublist l := by
  induction l with
  | nil => exact List.Sublist.refl _
  | cons q rest ih =>
    simp only [setErase]
    split
    · exact List.sublist_cons_self q rest
    · exact List.Sublist.cons₂ q ih

theorem setErase_length {α : Type} (l : List (ObjectRef α)) (a : Nat)
    (h : setContains l a = true) : (setErase l a).length + 1 = l.length := by
  induction l with
  | nil => simp [setContains] at h
  | cons q rest ih =>
    by_cases hq : q.addr = a
    · simp [setErase, hq]
    · simp only [setContains, hq, if_false] at h
      simp [setErase, hq, ih h]

theorem setErase_contains {α : Type} (l : List (ObjectRef α)) (a b : Nat)
    (hs : l.Pairwise (fun x y => x.addr < y.addr)) :
    setContains (setErase l a) b = (!decide (b = a) && setContains l b) := by
  induction l with
  | nil => simp [setErase, setContains]
  | cons q rest ih =>
    rw [List.pairwise_cons] at hs
    by_cases hq : q.addr = a
    · simp only [setErase, hq, if_true]
      by_cases hb : b = a
      · subst hb
        have hnot : setContains rest b = false := by
          cases hc : setContains rest b with
          | false => rfl
          | true =>
            obtain ⟨x, hx, hxa⟩ := (setContains_iff _ _).mp hc
            have := hs.1 x hx
            omega
        simp [hnot]
      · have hqb : ¬ q.addr = b := by
          rw [hq]
          exact fun h' => hb h'.symm
        simp [setContains, hb, hqb]
    · simp only [setErase, hq, if_false]
      by_cases hqb : q.addr = b
      · have hb : ¬ b = a := by
          rw [← hqb]
          exact hq
        simp [setContains, hqb, hb]
      · simp [setContains, hqb, ih hs.2]

/-- C20: the dynamic objects of a world are a set keyed by the address of the object. In a
world whose set is in increasing address order: `addObject` ends normally,
leaves the set as it is when the object is already in it and otherwise adds
the object (the set grows by one and holds it), and calls `addRigidBody`
exactly when the object has a physical body; `removeObject` of an object of
the set erases it (the set shrinks by one and no longer holds it) and calls
`removeRigidBody` exactly when the object has a physical body, and
`removeObject` of an object that is not in the set changes nothing and calls
nothing; `removeObject` after `addObject` of an object that was not in the set
gives the set back. The other objects stay where they are, and the set stays
in increasing address order. -/
theorem World.objects_set_semantics {α : Type} (w : World α) (object : ObjectRef α)
    (tr : List (Call α))
    (hsorted : w.objects.Pairwise (fun a b => a.addr < b.addr)) :
    (w.addObject object tr
      = (Except.ok { w with objects := setInsert w.objects object },
          tr ++ if object.target.getPhysical.isSome then [Call.addRigidBody object.addr]
            else [])) ∧
    (setContains w.objects object.addr = true → setInsert w.objects object = w.objects) ∧
    (setContains w.objects object.addr = false →
      (setInsert w.objects object).length = w.objects.length + 1 ∧
      setErase (setInsert w.objects object) object.addr = w.objects) ∧
    (∀ a, setContains (setInsert w.objects object) a
      = (decide (object.addr = a) || setContains w.objects a)) ∧
    (setInsert w.objects object).Pairwise (fun a b => a.addr < b.addr) ∧
    (setContains w.objects object.addr = true →
      w.removeObject object tr
        = (Except.ok { w with objects := setErase w.objects object.addr },
            tr ++ if object.target.getPhysical.isSome then
              [Call.removeRigidBody object.addr] else []) ∧
      (setErase w.objects object.addr).length + 1 = w.objects.length) ∧
    (setContains w.objects object.addr = false →
      w.removeObject object tr = (Except.ok w, tr)) ∧
    (∀ a, setContains (setErase w.objects object.addr) a
      = (!decide (a = object.addr) && setContains w.objects a)) ∧
    (setErase w.objects object.addr).Pairwise (fun a b => a.addr < b.addr) := by
  refine ⟨World.addObject_run w object tr, setInsert_of_contains _ _ hsorted, ?_,
    setInsert_contains _ _, setInsert_pairwise _ _ hsorted, ?_, ?_,
    fun a => setErase_contains _ _ a hsorted,
    List.Pairwise.sublist (setErase_sublist _ _) hsorted⟩
  · intro h
    exact ⟨setInsert_length _ _ h, setErase_insert _ _ h⟩
  · intro h
    refine ⟨?_, setErase_length _ _ h⟩
    rw [World.removeObject_run, if_pos h]
  · intro h
    rw [World.removeObject_run, if_neg (by simp [h])]

/-- Witness of C20: an object with a body at address 2 and a world that holds the objects at
the addresses 1 and 3. -/
theorem World.objects_set_semantics_witness :
    ((World.mk [ObjectRef.mk 1 (Example.object Int), ObjectRef.mk 3 (Example.object Int)]
        [] 0 60 0 true 1 0 : World Int).addObject
        (ObjectRef.mk 2 (Object.mk (Example.object Int).position none
          (some (PhysicalBody.mk (CollisionShape.mk 7) 1 (Example.object Int).position)))) []
      = (Except.ok
          { (World.mk [ObjectRef.mk 1 (Example.object Int), ObjectRef.mk 3 (Example.object Int)]
              [] 0 60 0 true 1 0 : World Int) with
            objects := setInsert
              [ObjectRef.mk 1 (Example.object Int), ObjectRef.mk 3 (Example.object Int)]
              (ObjectRef.mk 2 (Object.mk (Example.object Int).position none
                (some (PhysicalBody.mk (CollisionShape.mk 7) 1
                  (Example.object Int).position)))) },
          [] ++ if (ObjectRef.mk 2 (Object.mk (Example.object Int).position none
              (some (PhysicalBody.mk (CollisionShape.mk 7) 1
                (Example.object Int).position)))).target.getPhysical.isSome
            then [Call.addRigidBody 2] else [])) :=
  (World.objects_set_semantics
    (World.mk [ObjectRef.mk 1 (Example.object Int), ObjectRef.mk 3 (Example.object Int)]
      [] 0 60 0 true 1 0 : World Int)
    (ObjectRef.mk 2 (Object.mk (Example.object Int).position none
      (some (PhysicalBody.mk (CollisionShape.mk 7) 1 (Example.object Int).position)))) []
    (by simp)).1

/-! ## Physics settings -/

theorem World.setPhysicsStepTime_run {α : Type} (w : World α) (time : α)
    (tr : List (Call α)) :
    w.setPhysicsStepTime time tr =
      if w.alignPStep2FPS then
        (Except.error
          "Tried to manually set physics step time when physics step is aligned to FPS.", tr)
      else (Except.ok { w with physicsStepTime := time }, tr) := by
  cases h : w.alignPStep2FPS <;>
    simp [World.setPhysicsStepTime, h, Routine.run_bind, Routine.bind, Routine.run_pure,
      throw_MagicException]

theorem World.setPhysicsStepsPerFrame_run {α : Type} (w : World α) (steps : Int)
    (tr : List (Call α)) :
    w.setPhysicsStepsPerFrame steps tr =
      if w.alignPStep2FPS then
        (Except.error
          "Tried to manually set physics steps per frame when physics step is aligned to FPS.",
          tr)
      else (Except.ok { w with physicsStepsPerFrame := steps }, tr) := by
  cases h : w.alignPStep2FPS <;>
    simp [World.setPhysicsStepsPerFrame, h, Routine.run_bind, Routine.bind, Routine.run_pure,
      throw_MagicException]

theorem World.applyConfig_aligned {α : Type} [LinearOrderedField α] (w : World α)
    (op : ConfigOp α)
    (h : w.alignPStep2FPS = true →
      w.physicsStepTime = 1 / (w.fps : α) ∧ w.physicsStepsPerFrame = 1) :
    (w.applyConfig op).alignPStep2FPS = true →
      (w.applyConfig op).physicsStepTime = 1 / ((w.applyConfig op).fps : α) ∧
      (w.applyConfig op).physicsStepsPerFrame = 1 := by
  cases op with
  | setTargetFPS fps =>
    cases ha : w.alignPStep2FPS with
    | false => simp [World.applyConfig, World.setTargetFPS, ha]
    | true =>
      intro _
      simp only [World.applyConfig, World.setTargetFPS, ha, if_true]
      exact ⟨trivial, (h ha).2⟩
  | alignPhysicsStepToFPS align =>
    cases align with
    | false => simp [World.applyConfig, World.alignPhysicsStepToFPS]
    | true =>
      intro _
      simp [World.applyConfig, World.alignPhysicsStepToFPS]
  | setPhysicsStepTime time =>
    cases ha : w.alignPStep2FPS with
    | false =>
      simp [World.applyConfig, World.setPhysicsStepTime_run, ha]
    | true =>
      simp only [World.applyConfig, World.setPhysicsStepTime_run, ha, if_true]
      exact fun _ => h ha
  | setPhysicsStepsPerFrame steps =>
    cases ha : w.alignPStep2FPS with
    | false =>
      simp [World.applyConfig, World.setPhysicsStepsPerFrame_run, ha]
    | true =>
      simp only [World.applyConfig, World.setPhysicsStepsPerFrame_run, ha, if_true]
      exact fun _ => h ha

/-- C28: in every World state reached from the constructor by `setTargetFPS`,
`alignPhysicsStepToFPS`, `setPhysicsStepTime` and `setPhysicsStepsPerFrame`
calls (a call that throws leaves the world as it was), a step that is aligned
to the frame rate has physicsStepTime = 1/fps and physicsStepsPerFrame = 1;
`setTargetFPS` sets fps, for every fps, and leaves the physics step time as it
was when the step is not aligned. -/
theorem World.aligned_step_invariant {α : Type} [LinearOrderedField α]
    (ops : List (ConfigOp α)) (w : World α) (fps : Int) :
    ((ops.foldl World.applyConfig (World.new : World α)).alignPStep2FPS = true →
      (ops.foldl World.applyConfig (World.new : World α)).physicsStepTime
          = 1 / ((ops.foldl World.applyConfig (World.new : World α)).fps : α) ∧
      (ops.foldl World.applyConfig (World.new : World α)).physicsStepsPerFrame = 1) ∧
    (w.setTargetFPS fps).fps = fps ∧
    (w.alignPStep2FPS = false → (w.setTargetFPS fps).physicsStepTime = w.physicsStepTime) := by
  refine ⟨?_, ?_, ?_⟩
  · have key : ∀ (l : List (ConfigOp α)) (w0 : World α),
        (w0.alignPStep2FPS = true →
          w0.physicsStepTime = 1 / (w0.fps : α) ∧ w0.physicsStepsPerFrame = 1) →
        ((l.foldl World.applyConfig w0).alignPStep2FPS = true →
          (l.foldl World.applyConfig w0).physicsStepTime
              = 1 / ((l.foldl World.applyConfig w0).fps : α) ∧
          (l.foldl World.applyConfig w0).physicsStepsPerFrame = 1) := by
      intro l
      induction l with
      | nil => exact fun w0 h => h
      | cons op rest ih =>
        intro w0 h
        exact ih (w0.applyConfig op) (World.applyConfig_aligned w0 op h)
    apply key
    intro _
    constructor
    · show (1 / 60 : α) = 1 / (((60 : Int) : α))
      norm_num
    · rfl
  · cases h : w.alignPStep2FPS <;> simp [World.setTargetFPS, h]
  · intro h
    simp [World.setTargetFPS, h]

theorem World.aligned_step_invariant_witness :
    (([ConfigOp.alignPhysicsStepToFPS false, ConfigOp.setPhysicsStepTime (1 / 30),
        ConfigOp.setTargetFPS 30, ConfigOp.alignPhysicsStepToFPS true].foldl
        World.applyConfig (World.new : World ℚ)).alignPStep2FPS = true) ∧
    ([ConfigOp.alignPhysicsStepToFPS false, ConfigOp.setPhysicsStepTime (1 / 30),
        ConfigOp.setTargetFPS 30, ConfigOp.alignPhysicsStepToFPS true].foldl
        World.applyConfig (World.new : World ℚ)).physicsStepTime
      = 1 / (([ConfigOp.alignPhysicsStepToFPS false, ConfigOp.setPhysicsStepTime (1 / 30),
        ConfigOp.setTargetFPS 30, ConfigOp.alignPhysicsStepToFPS true].foldl
        World.applyConfig (World.new : World ℚ)).fps : ℚ) ∧
    ([ConfigOp.alignPhysicsStepToFPS false, ConfigOp.setPhysicsStepTime (1 / 30),
        ConfigOp.setTargetFPS 30, ConfigOp.alignPhysicsStepToFPS true].foldl
        World.applyConfig (World.new : World ℚ)).physicsStepsPerFrame = 1 :=
  ⟨rfl, (World.aligned_step_invariant _ (World.new : World ℚ) 30).1 rfl⟩

/-- C29: `setPhysicsStepTime` and `setPhysicsStepsPerFrame` throw exactly when the physics step
is aligned to the frame rate, before any field is written and with no device
call; when the step is not aligned they end normally with the physics step
time, respectively the steps per frame, set to the argument and every other
field as it was. -/
theorem World.physics_setters_guarded {α : Type} (w : World α) (time : α) (steps : Int)
    (tr : List (Call α)) :
    w.setPhysicsStepTime time tr =
      (if w.alignPStep2FPS then
        (Except.error
          "Tried to manually set physics step time when physics step is aligned to FPS.", tr)
      else
        (Except.ok (World.mk w.objects w.staticObjects w.staticObjectCount w.fps time
          w.alignPStep2FPS w.physicsStepsPerFrame w.actualFPS), tr)) ∧
    w.setPhysicsStepsPerFrame steps tr =
      (if w.alignPStep2FPS then
        (Except.error
          "Tried to manually set physics steps per frame when physics step is aligned to FPS.",
          tr)
      else
        (Except.ok (World.mk w.objects w.staticObjects w.staticObjectCount w.fps
          w.physicsStepTime w.alignPStep2FPS steps w.actualFPS), tr)) ∧
    threw (w.setPhysicsStepTime time tr) = w.alignPStep2FPS ∧
    threw (w.setPhysicsStepsPerFrame steps tr) = w.alignPStep2FPS := by
  refine ⟨World.setPhysicsStepTime_run w time tr, World.setPhysicsStepsPerFrame_run w steps tr,
    ?_, ?_⟩
  · rw [World.setPhysicsStepTime_run]
    cases w.alignPStep2FPS <;> rfl
  · rw [World.setPhysicsStepsPerFrame_run]
    cases w.alignPStep2FPS <;> rfl

/-! ## The light position -/

theorem Shader.setUniformf3_undeclared_run {α : Type} (gl : GLDevice α) (s : Shader)
    (name : String) (v1 v2 v3 : α) (tr : List (Call α))
    (h : gl.glGetUniformLocation s.programId name < 0) :
    s.setUniformf3 gl name v1 v2 v3 tr
      = (Except.error "Tried to set a uniform that is not present in shader.", tr) := by
  simp [Shader.setUniformf3, Routine.run_bind, Routine.bind, MAGIC_THROW, h,
    throw_MagicException]

theorem World.setUniforms_light_undeclared {α : Type} [CommSemiring α] (gl : GLDevice α)
    (scene : Scene α) (actualFPS : Int) (shader : Shader) (material : Material α)
    (model view projection : Matrix4 α) (tr : List (Call α))
    (hlight : gl.glGetUniformLocation shader.programId "lightPosition" < 0) :
    (∃ e tr1, World.setUniforms gl scene actualFPS shader material model view projection tr
      = (Except.error e, tr1)) ∧
    ∀ tr1, Routine.forEach material.namedUniforms (World.setNamedUniform gl shader)
        (tr ++ [Call.shaderUse shader.programId]) = (Except.ok (), tr1) →
      World.setUniforms gl scene actualFPS shader material model view projection tr
        = (Except.error "Tried to set a uniform that is not present in shader.", tr1) := by
  have hrun : ∀ r tr1, Routine.forEach material.namedUniforms
      (World.setNamedUniform gl shader) (tr ++ [Call.shaderUse shader.programId]) = (r, tr1) →
      World.setUniforms gl scene actualFPS shader material model view projection tr
        = match r with
          | Except.ok _ =>
              (Except.error "Tried to set a uniform that is not present in shader.", tr1)
          | Except.error e => (Except.error e, tr1) := by
    intro r tr1 hn
    simp only [World.setUniforms, Shader.use, Routine.run_bind]
    rw [Routine.bind_ok _ _ _ _ _ (Routine.run_call _ tr)]
    rw [Routine.run_bind]
    cases r with
    | error e => rw [Routine.bind_error _ _ _ _ _ hn]
    | ok u =>
      rw [Routine.bind_ok _ _ _ _ _ hn, Routine.run_bind,
        Routine.bind_error _ _ _ _ _
          (Shader.setUniformf3_undeclared_run gl shader "lightPosition" _ _ _ tr1 hlight)]
  constructor
  · cases hn : Routine.forEach material.namedUniforms (World.setNamedUniform gl shader)
        (tr ++ [Call.shaderUse shader.programId]) with
    | mk r tr1 =>
      cases r with
      | error e => exact ⟨e, tr1, hrun _ _ hn⟩
      | ok u => exact ⟨_, tr1, hrun _ _ hn⟩
  · intro tr1 hn
    exact hrun _ _ hn

theorem Shader.setUniformf3_declared_run {α : Type} (gl : GLDevice α) (s : Shader)
    (name : String) (v1 v2 v3 : α) (tr : List (Call α))
    (h : 0 ≤ gl.glGetUniformLocation s.programId name) :
    s.setUniformf3 gl name v1 v2 v3 tr
      = if gl.glGetError
            (tr ++ [Call.glUniform3f (gl.glGetUniformLocation s.programId name) v1 v2 v3]) then
          (Except.error "Could not bind float uniform for shader",
            tr ++ [Call.glUniform3f (gl.glGetUniformLocation s.programId name) v1 v2 v3])
        else
          (Except.ok (),
            tr ++ [Call.glUniform3f (gl.glGetUniformLocation s.programId name) v1 v2 v3]) := by
  have hn : ¬ gl.glGetUniformLocation s.programId name < 0 := not_lt.2 h
  cases hg : gl.glGetError
      (tr ++ [Call.glUniform3f (gl.glGetUniformLocation s.programId name) v1 v2 v3]) <;>
    simp [Shader.setUniformf3, Routine.run_bind, Routine.bind, MAGIC_THROW, hn, hg,
      throw_MagicException, Routine.call, GLDevice.failed, Routine.calls, Routine.run_pure]

theorem World.setUniforms_light_declared {α : Type} [CommSemiring α] (gl : GLDevice α)
    (scene : Scene α) (actualFPS : Int) (shader : Shader) (material : Material α)
    (model view projection : Matrix4 α) (tr tr1 : List (Call α))
    (hn : Routine.forEach material.namedUniforms (World.setNamedUniform gl shader)
        (tr ++ [Call.shaderUse shader.programId]) = (Except.ok (), tr1))
    (hl : 0 ≤ gl.glGetUniformLocation shader.programId "lightPosition") :
    ∃ rest : List (Call α),
      (World.setUniforms gl scene actualFPS shader material model view projection tr).2
        = tr1 ++ Call.glUniform3f (gl.glGetUniformLocation shader.programId "lightPosition")
            (scene.transform (Point3.mk 0 1000 0) view).x
            (scene.transform (Point3.mk 0 1000 0) view).y
            (scene.transform (Point3.mk 0 1000 0) view).z :: rest := by
  simp only [World.setUniforms, Shader.use, Routine.run_bind]
  rw [Routine.bind_ok _ _ _ _ _ (Routine.run_call _ tr), Routine.run_bind,
    Routine.bind_ok _ _ _ _ _ hn, Routine.run_bind]
  have hrun := Shader.setUniformf3_declared_run gl shader "lightPosition"
    (scene.transform (Point3.mk 0 1000 0) view).x
    (scene.transform (Point3.mk 0 1000 0) view).y
    (scene.transform (Point3.mk 0 1000 0) view).z tr1 hl
  split at hrun
  · rw [Routine.bind_error _ _ _ _ _ hrun]
    exact ⟨[], by simp⟩
  · rw [Routine.bind_ok _ _ _ _ _ hrun]
    obtain ⟨new, hnew, _⟩ := Routine.emitsOnly_forEach (fun c : Call α => !c.isDraw)
      material.uniforms _
      (World.setAutoUniform_noDraw gl actualFPS shader material model view projection)
      (tr1 ++ [Call.glUniform3f (gl.glGetUniformLocation shader.programId "lightPosition")
        (scene.transform (Point3.mk 0 1000 0) view).x
        (scene.transform (Point3.mk 0 1000 0) view).y
        (scene.transform (Point3.mk 0 1000 0) view).z])
    exact ⟨new, by rw [hnew]; simp⟩

theorem World.renderMesh_extends_uniforms {α : Type} [CommSemiring α] (gl : GLDevice α)
    (scene : Scene α) (actualFPS : Int) (model view projection : Matrix4 α) (mesh : Mesh)
    (material : Material α) (shader : Shader) (tr : List (Call α))
    (hs : material.shader = some shader) :
    ∃ more : List (Call α),
      (World.renderMesh gl scene actualFPS model view projection (mesh, material) tr).2
        = (World.setUniforms gl scene actualFPS shader material model view projection tr).2
            ++ more := by
  cases hu : World.setUniforms gl scene actualFPS shader material model view projection tr with
  | mk r t2 =>
    cases r with
    | error e =>
      rw [World.renderMesh_uniform_error gl scene actualFPS model view projection mesh
        material shader tr t2 e hs hu]
      exact ⟨[], by simp⟩
    | ok u =>
      obtain ⟨new, hnew, _⟩ := Routine.emitsOnly_forEach (fun _ : Call α => true)
        mesh.attributeData (World.bindAttribute scene.tables shader)
        (fun a => by
          simp only [World.bindAttribute]
          apply Routine.emitsOnly_ite
          · exact Routine.emitsOnly_pure _ _
          · exact Routine.emitsOnly_call _ _ rfl) t2
      cases ha : Routine.forEach mesh.attributeData
          (World.bindAttribute scene.tables shader) t2 with
      | mk r2 t3 =>
        rw [ha] at hnew
        simp only at hnew
        cases r2 with
        | error e =>
          refine ⟨new, ?_⟩
          simp [World.renderMesh, hs, MAGIC_ASSERT, Routine.run_bind, Routine.bind,
            Routine.run_pure, hu, ha, hnew]
        | ok u2 =>
          refine ⟨new ++ [Call.draw material.primitive mesh.vertexCount], ?_⟩
          simp [World.renderMesh, hs, MAGIC_ASSERT, Routine.run_bind, Routine.bind,
            Routine.run_pure, hu, ha, hnew, Routine.run_call]

/-- C30: `processFrame` sets the uniform "lightPosition" on the shader of every (mesh,
material) pair, whatever the material lists: once the named uniforms of the
pair are set, a shader that declares the name receives `glUniform3f` at its
location with the transformed light position as the next device call; when
the shader does not declare the name, rendering the pair throws and the calls
it made contain no draw call, and when the named uniforms of the material
were all set the exception is the one of the undeclared name, so declaring
every uniform of the material does not help. Resolving the auto-uniform kind
LIGHT_LOCATION makes no device call and never throws, on every device. -/
theorem World.renderMesh_lightPosition {α : Type} [CommSemiring α] (gl : GLDevice α)
    (scene : Scene α) (actualFPS : Int) (model view projection : Matrix4 α) (mesh : Mesh)
    (material : Material α) (shader : Shader) (tr : List (Call α))
    (hs : material.shader = some shader) :
    (∀ tr1, Routine.forEach material.namedUniforms (World.setNamedUniform gl shader)
        (tr ++ [Call.shaderUse shader.programId]) = (Except.ok (), tr1) →
      0 ≤ gl.glGetUniformLocation shader.programId "lightPosition" →
      ∃ rest : List (Call α),
        (World.renderMesh gl scene actualFPS model view projection (mesh, material) tr).2
          = tr1 ++ Call.glUniform3f (gl.glGetUniformLocation shader.programId "lightPosition")
              (scene.transform (Point3.mk 0 1000 0) view).x
              (scene.transform (Point3.mk 0 1000 0) view).y
              (scene.transform (Point3.mk 0 1000 0) view).z :: rest) ∧
    (gl.glGetUniformLocation shader.programId "lightPosition" < 0 →
      threw (World.renderMesh gl scene actualFPS model view projection (mesh, material) tr)
        = true ∧
      (∃ new : List (Call α),
        (World.renderMesh gl scene actualFPS model view projection (mesh, material) tr).2
          = tr ++ new ∧ ∀ c ∈ new, c.isDraw = false) ∧
      (∀ tr1, Routine.forEach material.namedUniforms (World.setNamedUniform gl shader)
          (tr ++ [Call.shaderUse shader.programId]) = (Except.ok (), tr1) →
        World.renderMesh gl scene actualFPS model view projection (mesh, material) tr
          = (Except.error "Tried to set a uniform that is not present in shader.", tr1))) ∧
    ∀ (name : String) (tr0 : List (Call α)),
      World.setAutoUniform gl actualFPS shader material model view projection
          (AutoUniform.mk name AutoUniformType.LIGHT_LOCATION) tr0
        = (Except.ok (), tr0) := by
  refine ⟨?_, ?_, fun _ _ => rfl⟩
  · intro tr1 hn hl
    obtain ⟨rest, hrest⟩ := World.setUniforms_light_declared gl scene actualFPS shader
      material model view projection tr tr1 hn hl
    obtain ⟨more, hmore⟩ := World.renderMesh_extends_uniforms gl scene actualFPS model view
      projection mesh material shader tr hs
    exact ⟨rest ++ more, by rw [hmore, hrest]; simp⟩
  · intro hlight
    obtain ⟨⟨e, tr1, herr⟩, hnamed⟩ := World.setUniforms_light_undeclared gl scene actualFPS
      shader material model view projection tr hlight
    have hmesh := World.renderMesh_uniform_error gl scene actualFPS model view projection mesh
      material shader tr tr1 e hs herr
    refine ⟨?_, ?_, ?_⟩
    · rw [hmesh]
      rfl
    · obtain ⟨new, hnew, hall⟩ := World.setUniforms_noDraw gl scene actualFPS shader material
        model view projection tr
      rw [herr] at hnew
      rw [hmesh]
      refine ⟨new, hnew, ?_⟩
      intro c hc
      simpa using hall c hc
    · intro tr2 hn
      exact World.renderMesh_uniform_error gl scene actualFPS model view projection mesh
        material shader tr tr2 _ hs (hnamed tr2 hn)

/-- Witness of C30: the plain material on a program that declares no uniform at all, which
throws, and on a program that declares "lightPosition" at location 0, which
receives the light position. -/
theorem World.renderMesh_lightPosition_witness :
    threw (World.renderMesh (GLDevice.mk (fun _ _ => -1) (fun _ => false))
      (Example.scene Int) 0 Matrix4.identity Matrix4.identity Matrix4.identity
      (Example.mesh, Example.plainMaterial Int) []) = true ∧
    ∃ rest : List (Call Int),
      (World.renderMesh (Example.gl Int) (Example.scene Int) 0 Matrix4.identity
        Matrix4.identity Matrix4.identity (Example.mesh, Example.plainMaterial Int) []).2
        = [Call.shaderUse 1] ++ Call.glUniform3f 0 0 1000 0 :: rest :=
  ⟨((World.renderMesh_lightPosition (GLDevice.mk (fun _ _ => -1) (fun _ => false))
      (Example.scene Int) 0 Matrix4.identity Matrix4.identity Matrix4.identity Example.mesh
      (Example.plainMaterial Int) Example.shader [] rfl).2.1 (by decide)).1,
   (World.renderMesh_lightPosition (Example.gl Int)
      (Example.scene Int) 0 Matrix4.identity Matrix4.identity Matrix4.identity Example.mesh
      (Example.plainMaterial Int) Example.shader [] rfl).1 [Call.shaderUse 1] rfl
      (by decide)⟩

/-! ## Draw calls of a frame -/

theorem World.bindAttribute_noDraw {α : Type} (tables : MeshTables) (shader : Shader)
    (a : AttributeData) :
    Routine.emitsOnly (fun c : Call α => !c.isDraw) (World.bindAttribute tables shader a) := by
  simp only [World.bindAttribute]
  apply Routine.emitsOnly_ite
  · exact Routine.emitsOnly_pure _ _
  · exact Routine.emitsOnly_call _ _ rfl

theorem World.renderMesh_draws {α : Type} [CommSemiring α] (gl : GLDevice α)
    (scene : Scene α) (actualFPS : Int) (model view projection : Matrix4 α)
    (pair : Mesh × Material α) (tr tr1 : List (Call α))
    (h : World.renderMesh gl scene actualFPS model view projection pair tr
      = (Except.ok (), tr1)) :
    tr1.filter Call.isDraw
      = tr.filter Call.isDraw ++ [Call.draw pair.2.primitive pair.1.vertexCount] := by
  cases hs : pair.2.shader with
  | none =>
    simp [World.renderMesh, hs, MAGIC_ASSERT, Routine.run_bind, Routine.bind,
      throw_MagicException] at h
  | some shader =>
    have hU := Routine.emitsOnly_filter Call.isDraw _
      (World.setUniforms_noDraw gl scene actualFPS shader pair.2 model view projection) tr
    cases hu : World.setUniforms gl scene actualFPS shader pair.2 model view projection tr with
    | mk r t2 =>
      rw [hu] at hU
      have hA := Routine.emitsOnly_filter Call.isDraw _
        (Routine.emitsOnly_forEach _ pair.1.attributeData _
          (World.bindAttribute_noDraw (α := α) scene.tables shader)) t2
      cases ha : Routine.forEach pair.1.attributeData
          (World.bindAttribute scene.tables shader) t2 with
      | mk r2 t3 =>
        rw [ha] at hA
        cases r with
        | error e =>
          simp [World.renderMesh, hs, MAGIC_ASSERT, Routine.run_bind, Routine.bind,
            Routine.run_pure, hu] at h
        | ok u =>
          cases r2 with
          | error e =>
            simp [World.renderMesh, hs, MAGIC_ASSERT, Routine.run_bind, Routine.bind,
              Routine.run_pure, hu, ha] at h
          | ok u2 =>
            simp only [World.renderMesh, hs, MAGIC_ASSERT, Routine.run_bind, Routine.bind,
              Routine.run_pure, hu, ha, Routine.run_call, Option.isSome_some, if_true,
              Prod.mk.injEq, true_and] at h
            rw [← h, List.filter_append]
            simp only at hA hU
            rw [hA, hU]
            rfl

theorem Routine.forEach_filter {C β : Type} (Q : C → Bool) (body : β → Routine C Unit)
    (f : β → List C)
    (hbody : ∀ x tr tr1, body x tr = (Except.ok (), tr1) → tr1.filter Q = tr.filter Q ++ f x)
    (xs : List β) :
    ∀ tr tr1, Routine.forEach xs body tr = (Except.ok (), tr1) →
      tr1.filter Q = tr.filter Q ++ (xs.map f).flatten := by
  induction xs with
  | nil =>
    intro tr tr1 h
    rw [Routine.forEach_nil] at h
    cases h
    simp
  | cons x rest ih =>
    intro tr tr1 h
    rw [Routine.forEach_cons] at h
    cases hb : body x tr with
    | mk r t2 =>
      cases r with
      | error e =>
        rw [Routine.bind_error _ _ _ _ _ hb] at h
        cases h
      | ok u =>
        rw [Routine.bind_ok _ _ _ _ _ hb] at h
        rw [ih t2 tr1 h, hbody x tr t2 hb]
        simp

theorem World.renderObject_draws {α : Type} [CommSemiring α] (gl : GLDevice α)
    (scene : Scene α) (actualFPS : Int) (view projection : Matrix4 α) (ob : Object α)
    (tr tr1 : List (Call α))
    (h : World.renderObject gl scene actualFPS view projection ob tr = (Except.ok (), tr1)) :
    tr1.filter Call.isDraw = tr.filter Call.isDraw ++ ob.drawCalls := by
  cases hg : ob.getGraphical with
  | none =>
    simp only [World.renderObject, hg, Routine.run_pure, Prod.mk.injEq, true_and] at h
    simp [Object.drawCalls, hg, h]
  | some en =>
    cases hm : en.model with
    | none =>
      simp [World.renderObject, hg, hm, MAGIC_ASSERT, Routine.run_bind, Routine.bind,
        throw_MagicException] at h
    | some m =>
      by_cases hlen : 0 < m.pairs.length
      · simp only [World.renderObject, hg, hm, MAGIC_ASSERT, Routine.run_bind, Routine.bind,
          Routine.run_pure, Option.isSome_some, if_true, hlen, decide_True] at h
        have := Routine.forEach_filter Call.isDraw _
          (fun pair : Mesh × Material α => [Call.draw pair.2.primitive pair.1.vertexCount])
          (World.renderMesh_draws gl scene actualFPS (scene.getTransformMatrix ob.getPosition)
            view projection) m.pairs tr tr1 h
        rw [this]
        simp [Object.drawCalls, hg, hm, List.map_map]
        induction m.pairs with
        | nil => rfl
        | cons p ps ih => simp [ih]
      · simp [World.renderObject, hg, hm, MAGIC_ASSERT, Routine.run_bind, Routine.bind,
          Routine.run_pure, hlen, throw_MagicException] at h

theorem Object.drawCalls_length {α : Type} (ob : Object α) :
    ob.drawCalls.length = ob.meshCount := by
  cases hg : ob.getGraphical with
  | none => simp [Object.drawCalls, Object.meshCount, hg]
  | some en =>
    cases hm : en.model with
    | none => simp [Object.drawCalls, Object.meshCount, hg, hm]
    | some m => simp [Object.drawCalls, Object.meshCount, hg, hm]

/-- C21: a `processFrame` that ends without an exception adds to the calls made before it
exactly one draw call for each (mesh, material) pair of each dynamic object
that has a graphical part, in the order of the objects and of their pairs,
with the primitive of that material and the vertex count of that mesh, and no
draw call for an object without a graphical part; their number is the sum of
the mesh counts of the objects with a graphical part. -/
theorem World.processFrame_draw_calls {α : Type} [LinearOrderedField α] [FloorRing α]
    (gl : GLDevice α) (scene : Scene α) (w : World α) (tr tr1 : List (Call α))
    (hok : World.processFrame gl scene w tr = (Except.ok (), tr1)) :
    tr1.filter Call.isDraw
      = tr.filter Call.isDraw ++
          ((w.objects.map ObjectRef.target).map Object.drawCalls).flatten ∧
    (((w.objects.map ObjectRef.target).map Object.drawCalls).flatten).length
      = ((w.objects.map ObjectRef.target).map Object.meshCount).sum ∧
    (∀ ob : Object α, ob.getGraphical = none → ob.drawCalls = [] ∧ ob.meshCount = 0) ∧
    (∀ (ob : Object α) (en : GraphicalEntity α) (m : Model α),
      ob.getGraphical = some en → en.model = some m →
      ob.drawCalls = m.pairs.map (fun pair => Call.draw pair.2.primitive pair.1.vertexCount) ∧
      ob.meshCount = m.pairs.length) := by
  refine ⟨?_, ?_, ?_, ?_⟩
  · simp only [World.processFrame, Routine.run_bind] at hok
    rw [Routine.bind_ok _ _ _ _ _ (World.stepPhysics_run w tr)] at hok
    simp only [World.renderFrame, Routine.run_bind] at hok
    rw [Routine.bind_ok _ _ _ _ _ (Routine.run_call _ _), Routine.run_bind] at hok
    cases hobs : Routine.forEach (w.objects.map ObjectRef.target)
        (World.renderObject gl scene w.actualFPS (scene.getCameraMatrix scene.cameraPosition)
          scene.projection)
        (tr ++ (if 0 < w.physicsStepTime then
            List.replicate w.physicsStepsPerFrame.toNat
              (Call.stepSimulation w.physicsStepTime
                (max 1 (Int.floor (divFloat w.physicsStepTime (divFloat 1 60)))))
          else []) ++ [Call.clearDisplay]) with
    | mk r t2 =>
      cases r with
      | error e =>
        rw [Routine.bind_error _ _ _ _ _ hobs] at hok
        cases hok
      | ok u =>
        rw [Routine.bind_ok _ _ _ _ _ hobs, Routine.run_call] at hok
        simp only [Prod.mk.injEq, true_and] at hok
        have hdraw := Routine.forEach_filter Call.isDraw _ Object.drawCalls
          (World.renderObject_draws gl scene w.actualFPS
            (scene.getCameraMatrix scene.cameraPosition) scene.projection)
          (w.objects.map ObjectRef.target) _ t2 hobs
        rw [← hok, List.filter_append, hdraw, List.filter_append, List.filter_append]
        have hsteps : (if 0 < w.physicsStepTime then
            List.replicate w.physicsStepsPerFrame.toNat
              (Call.stepSimulation w.physicsStepTime
                (max 1 (Int.floor (divFloat w.physicsStepTime (divFloat 1 60)))))
          else []).filter Call.isDraw = [] := by
          rw [List.filter_eq_nil_iff]
          intro c hc
          split at hc
          · rw [List.eq_of_mem_replicate hc]
            simp [Call.isDraw]
          · simp at hc
        rw [hsteps]
        simp [Call.isDraw]
  · rw [List.length_flatten, List.map_map]
    congr 1
    apply List.map_congr_left
    intro ob _
    exact Object.drawCalls_length ob
  · intro ob h
    simp [Object.drawCalls, Object.meshCount, h]
  · intro ob en m hg hm
    simp [Object.drawCalls, Object.meshCount, hg, hm]

/-- Witness of C21: a frame of the world that holds one drawn object and one body without a
graphical part makes one draw call. -/
theorem World.processFrame_draw_calls_witness :
    ([Call.clearDisplay, Call.shaderUse 1, Call.glUniform3f 0 0 1000 0, Call.draw 4 3,
        Call.swapBuffers] : List (Call ℚ)).filter Call.isDraw
      = ([] : List (Call ℚ)).filter Call.isDraw ++
          ((Example.plainWorld.objects.map ObjectRef.target).map Object.drawCalls).flatten :=
  (World.processFrame_draw_calls (Example.gl ℚ) (Example.scene ℚ) Example.plainWorld []
    [Call.clearDisplay, Call.shaderUse 1, Call.glUniform3f 0 0 1000 0, Call.draw 4 3,
      Call.swapBuffers]
    (by
      simp [World.processFrame, World.stepPhysics, World.renderFrame, Example.plainWorld,
        Example.object, Example.mesh, Example.plainMaterial, Example.gl, Example.shader,
        Example.scene, World.renderObject, World.renderMesh, World.setUniforms,
        World.bindAttribute, Shader.getAttribBinding, Object.getGraphical,
        Object.getPosition, MAGIC_ASSERT, Shader.use, Routine.run_bind, Routine.bind,
        Routine.run_call, Routine.forEach, Routine.run_pure, Shader.setUniformf3,
        MAGIC_THROW, GLDevice.failed, Routine.calls, throw_MagicException])).1

/-! ## The matrix product in place -/

theorem Matrix4.store_all {α : Type} (m : Matrix4 α) (s0 s1 s2 s3 : XMM α) :
    (((m.store 0 s0).store 1 s1).store 2 s2).store 3 s3 = Matrix4.ofStores s0 s1 s2 s3 := by
  simp only [Matrix4.store, Matrix4.ofStores, Matrix4.mk.injEq]
  funext k
  fin_cases k <;> rfl

theorem Matrix4.load_store_ne {α : Type} (m : Matrix4 α) (n j : Fin 4) (x : XMM α)
    (h : n ≠ j) : (m.store j x).load n = m.load n := by
  funext i
  have hne : ¬ (4 * n.val + i.val) / 4 = j.val := by
    have hi := i.isLt
    have : (4 * n.val + i.val) / 4 = n.val := by omega
    rw [this]
    exact fun h' => h (Fin.ext h')
  simp only [Matrix4.load, Matrix4.store, hne, if_false]

theorem COMPUTE_ROW_congr {α : Type} [CommSemiring α] (r0 r1 r2 r3 : XMM α)
    (m m1 : Matrix4 α) (n : Fin 4) (h : m.load n = m1.load n) :
    COMPUTE_ROW r0 r1 r2 r3 m n = COMPUTE_ROW r0 r1 r2 r3 m1 n := by
  rw [COMPUTE_ROW_eq, COMPUTE_ROW_eq, h]

theorem Matrix4.multiplyInPlace_eq {α : Type} [CommSemiring α] (result : Matrix4 α)
    (m1 m2 : Operand α) :
    Matrix4.multiplyInPlace result m1 m2
      = Matrix4.multiply (m1.read result) (m2.read result) := by
  cases m2 with
  | other b =>
    simp only [Matrix4.multiplyInPlace, Operand.read, Matrix4.store_all, Matrix4.multiply]
  | result =>
    simp only [Matrix4.multiplyInPlace, Operand.read, Matrix4.multiply]
    rw [COMPUTE_ROW_congr _ _ _ _ (result.store 0 _) result 1
        (Matrix4.load_store_ne _ _ _ _ (by decide)),
      COMPUTE_ROW_congr _ _ _ _ ((result.store 0 _).store 1 _) result 2
        (by rw [Matrix4.load_store_ne _ _ _ _ (by decide),
          Matrix4.load_store_ne _ _ _ _ (by decide)]),
      COMPUTE_ROW_congr _ _ _ _ (((result.store 0 _).store 1 _).store 2 _) result 3
        (by rw [Matrix4.load_store_ne _ _ _ _ (by decide),
          Matrix4.load_store_ne _ _ _ _ (by decide),
          Matrix4.load_store_ne _ _ _ _ (by decide)]),
      Matrix4.store_all]

theorem Matrix4.identity_toMatrix {α : Type} [CommSemiring α] :
    (Matrix4.identity : Matrix4 α).toMatrix = 1 := by
  funext r c
  fin_cases r <;> fin_cases c <;> rfl

theorem Matrix4.toMatrix_injective {α : Type} (a b : Matrix4 α)
    (h : a.toMatrix = b.toMatrix) : a = b := by
  rw [← Matrix4.ofMatrix_toMatrix a, ← Matrix4.ofMatrix_toMatrix b, h]

theorem Matrix4.multiplyInPlace_toMatrix {α : Type} [CommSemiring α] (result : Matrix4 α)
    (m1 m2 : Operand α) :
    (Matrix4.multiplyInPlace result m1 m2).toMatrix
      = (m1.read result).toMatrix * (m2.read result).toMatrix :=
  (congrArg Matrix4.toMatrix (Matrix4.multiplyInPlace_eq result m1 m2)).trans
    (Matrix4.multiply_toMatrix _ _)

theorem Matrix4.multiplyInPlace_identity_left {α : Type} [CommSemiring α]
    (result m : Matrix4 α) :
    Matrix4.multiplyInPlace result (Operand.other Matrix4.identity) (Operand.other m) = m := by
  apply Matrix4.toMatrix_injective
  refine (Matrix4.multiplyInPlace_toMatrix _ _ _).trans ?_
  simp only [Operand.read, Matrix4.identity_toMatrix, one_mul]

theorem Matrix4.multiplyInPlace_identity_right {α : Type} [CommSemiring α]
    (result : Matrix4 α) (m1 : Operand α) :
    Matrix4.multiplyInPlace result m1 (Operand.other Matrix4.identity) = m1.read result := by
  apply Matrix4.toMatrix_injective
  refine (Matrix4.multiplyInPlace_toMatrix _ _ _).trans ?_
  simp only [Operand.read, Matrix4.identity_toMatrix, mul_one]

/-- C24: `Matrix4::multiply(m1, m2)` stores in the result matrix the product m1·m2 under the
column-major layout: whichever operand is the result matrix itself, entry
data[4*col + row] of the result is the sum over k in 0..3 of
m1.data[4*k + row] * m2.data[4*col + k], taken on the operands as they were
before the call (in particular whenever the result matrix is distinct from
m2); multiplying by the identity matrix on either side gives the other
operand, also through `multiply(m)`. -/
theorem Matrix4.multiplyInPlace_product {α : Type} [CommSemiring α] (result : Matrix4 α)
    (m1 m2 : Operand α) (m : Matrix4 α) :
    (∀ row col : Fin 4,
      (Matrix4.multiplyInPlace result m1 m2).data (Fin.mk (4 * col.val + row.val) (by omega))
        = ∑ k : Fin 4,
            (m1.read result).data (Fin.mk (4 * k.val + row.val) (by omega)) *
              (m2.read result).data (Fin.mk (4 * col.val + k.val) (by omega))) ∧
    (Matrix4.multiplyInPlace result m1 m2).toMatrix
      = (m1.read result).toMatrix * (m2.read result).toMatrix ∧
    Matrix4.multiplyInPlace result (Operand.other Matrix4.identity) (Operand.other m) = m ∧
    Matrix4.multiplyInPlace result (Operand.other m) (Operand.other Matrix4.identity) = m ∧
    Matrix4.multiplyBy result (Operand.other Matrix4.identity) = result := by
  refine ⟨?_, Matrix4.multiplyInPlace_toMatrix _ _ _,
    Matrix4.multiplyInPlace_identity_left _ _,
    Matrix4.multiplyInPlace_identity_right _ _,
    Matrix4.multiplyInPlace_identity_right _ _⟩
  intro row col
  have h := congrFun (congrFun (Matrix4.multiplyInPlace_toMatrix result m1 m2) row) col
  rw [Matrix.mul_apply] at h
  exact h

/-! ## Images -/

theorem Image.setPixel_run {C : Type} (img : Image) (p : Color) (x y : Int) (tr : List C) :
    img.setPixel p x y tr =
      if x ≥ img.width then (Except.error "X component out of range", tr)
      else if y ≥ img.height then (Except.error "Y component out of range", tr)
      else (Except.ok (Image.mk img.width img.height img.channels
        (memcpyBytes img.data (x * y * img.channels) (p.getColor img.channels) 0
          img.channels)), tr) := by
  by_cases hx : x ≥ img.width <;> by_cases hy : y ≥ img.height <;>
    simp [Image.setPixel, MAGIC_THROW, throw_MagicException, Routine.run_bind, Routine.bind,
      Routine.run_pure, hx, hy]

theorem Image.getPixel_run {C : Type} (img : Image) (x y : Int) (tr : List C) :
    img.getPixel x y tr =
      if x ≥ img.width then (Except.error "X component out of range", tr)
      else if y ≥ img.height then (Except.error "Y component out of range", tr)
      else (Except.ok ((List.range img.channels.toNat).map
        (fun (k : Nat) => img.data (x * y * img.channels + (k : Int)))), tr) := by
  by_cases hx : x ≥ img.width <;> by_cases hy : y ≥ img.height <;>
    simp [Image.getPixel, MAGIC_THROW, throw_MagicException, Routine.run_bind, Routine.bind,
      Routine.run_pure, hx, hy]

/-- C23: `getPixel` and `setPixel` test x >= width and y >= height only, so they throw
exactly for these coordinates; a coordinate below 0 is outside the pixel grid
and not rejected: on a 2x2 image of one channel `setPixel(p, -1, 1)` ends
normally and writes the byte before the buffer, and `getPixel(p, -1, 1)` ends
normally with that byte. -/
theorem Image.pixel_access_negative_not_rejected :
    (∀ (img : Image) (p : Color) (x y : Int) (tr : List Unit),
      threw (img.setPixel p x y tr) = (decide (x ≥ img.width) || decide (y ≥ img.height)) ∧
      threw (img.getPixel x y tr) = (decide (x ≥ img.width) || decide (y ≥ img.height))) ∧
    (∃ out, Example.blank.setPixel Example.white (-1) 1 ([] : List Unit) = (Except.ok out, []) ∧
      out.data (-1) = 255 ∧ Example.blank.data (-1) = 0) ∧
    Example.ramp.getPixel (-1) 1 ([] : List Unit) = (Except.ok [99], []) := by
  refine ⟨?_, ⟨_, rfl, rfl, rfl⟩, rfl⟩
  intro img p x y tr
  rw [Image.setPixel_run, Image.getPixel_run]
  by_cases hx : x ≥ img.width <;> by_cases hy : y ≥ img.height <;> simp [threw, hx, hy]

theorem Image.copyImage_run {C : Type} (dest source : Image)
    (destX destY sourceX sourceY width height : Int) (tr : List C) :
    Image.copyImage dest source destX destY sourceX sourceY width height tr =
      if sourceX + (if width < 0 then source.width else width) > source.width then
        (Except.error "Width of rect too large.", tr)
      else if sourceY + (if height < 0 then source.height else height) > source.height then
        (Except.error "Height of rect too large.", tr)
      else if destX + (if width < 0 then source.width else width) > dest.width then
        (Except.error "Width of rect too large.", tr)
      else if destY + (if height < 0 then source.height else height) > dest.height then
        (Except.error "Height of rect too large.", tr)
      else if source.channels ≠ dest.channels then
        (Except.error "Channel counts do not match.", tr)
      else
        (Except.ok (Image.mk dest.width dest.height dest.channels
          ((List.range (if height < 0 then source.height else height).toNat).foldl
            (fun (data : Int → Nat) (row : Nat) =>
              memcpyBytes data
                (destX * dest.channels + destY * dest.width * dest.channels
                  + (row : Int) * dest.width * dest.channels)
                source.data
                (sourceX * source.channels + sourceY * source.width * source.channels
                  + (row : Int) * source.width * source.channels)
                ((if width < 0 then source.width else width) * dest.channels))
            dest.data)), tr) := by
  generalize hW : (if width < 0 then source.width else width) = W
  generalize hH : (if height < 0 then source.height else height) = H
  simp only [Image.copyImage, hW, hH]
  by_cases h1 : sourceX + W > source.width
  · simp [MAGIC_THROW, throw_MagicException, Routine.run_bind, Routine.bind, h1]
  by_cases h2 : sourceY + H > source.height
  · simp [MAGIC_THROW, throw_MagicException, Routine.run_bind, Routine.bind, Routine.run_pure,
      h1, h2]
  by_cases h3 : destX + W > dest.width
  · simp [MAGIC_THROW, throw_MagicException, Routine.run_bind, Routine.bind, Routine.run_pure,
      h1, h2, h3]
  by_cases h4 : destY + H > dest.height
  · simp [MAGIC_THROW, throw_MagicException, Routine.run_bind, Routine.bind, Routine.run_pure,
      h1, h2, h3, h4]
  by_cases h5 : source.channels = dest.channels
  · simp [MAGIC_THROW, throw_MagicException, Routine.run_bind, Routine.bind, Routine.run_pure,
      h1, h2, h3, h4, h5]
  · simp [MAGIC_THROW, throw_MagicException, Routine.run_bind, Routine.bind, Routine.run_pure,
      h1, h2, h3, h4, h5]

/-- C22: `copyImage` tests the upper ends of the rectangle and the channel counts only: it
throws exactly when sourceX + width > source.width, sourceY + height >
source.height, destX + width > dest->width, destY + height > dest->height or
the channel counts differ (width and height after the replacement of a
negative value). A rectangle that starts at a negative offset does not lie
inside the image and is not rejected: with 2x2 images of one channel,
`copyImage(dest, source, -1, 0, 0, 0, 1, 1)` ends normally and writes the
first byte of the source to the byte before the destination buffer. -/
theorem Image.copyImage_negative_offset_not_rejected :
    (∀ (dest source : Image) (destX destY sourceX sourceY width height : Int)
        (tr : List Unit),
      threw (Image.copyImage dest source destX destY sourceX sourceY width height tr) =
        (decide (sourceX + (if width < 0 then source.width else width) > source.width) ||
         decide (sourceY + (if height < 0 then source.height else height) > source.height) ||
         decide (destX + (if width < 0 then source.width else width) > dest.width) ||
         decide (destY + (if height < 0 then source.height else height) > dest.height) ||
         decide (source.channels ≠ dest.channels))) ∧
    (∃ out, Image.copyImage Example.blank Example.ramp (-1) 0 0 0 1 1 ([] : List Unit)
        = (Except.ok out, []) ∧
      out.data (-1) = 100 ∧ Example.blank.data (-1) = 0 ∧ Example.ramp.data 0 = 100) := by
  refine ⟨?_, ⟨_, rfl, rfl, rfl, rfl⟩⟩
  intro dest source destX destY sourceX sourceY width height tr
  rw [Image.copyImage_run]
  generalize (if width < 0 then source.width else width) = W
  generalize (if height < 0 then source.height else height) = H
  by_cases h1 : sourceX + W > source.width
  · simp [threw, h1]
  by_cases h2 : sourceY + H > source.height
  · simp [threw, h1, h2]
  by_cases h3 : destX + W > dest.width
  · simp [threw, h1, h2, h3]
  by_cases h4 : destY + H > dest.height
  · simp [threw, h1, h2, h3, h4]
  by_cases h5 : source.channels = dest.channels
  · simp [threw, h1, h2, h3, h4, h5]
  · simp [threw, h1, h2, h3, h4, h5]

/-- C26: `setPixel` and `getPixel` address the bytes at x*y*channels, not the pixel (x, y) of
the row-major data: on a 2x2 image of one channel, all bytes 0,
`setPixel(white, 0, 1)` writes byte 0, so that afterwards `getPixel` at the
other coordinate (1, 0) returns 255 where it returned 0 before the call, and
the pixel (0, 1) of the data (byte 2) still is 0 while pixel (0, 0) is 255. -/
theorem Image.setPixel_changes_other_pixel :
    (∀ (img : Image) (p : Color) (x y : Int) (tr : List Unit),
      img.setPixel p x y tr =
        if x ≥ img.width then (Except.error "X component out of range", tr)
        else if y ≥ img.height then (Except.error "Y component out of range", tr)
        else (Except.ok (Image.mk img.width img.height img.channels
          (memcpyBytes img.data (x * y * img.channels) (p.getColor img.channels) 0
            img.channels)), tr)) ∧
    (∃ out, Example.blank.setPixel Example.white 0 1 ([] : List Unit) = (Except.ok out, []) ∧
      out.getPixel 0 1 ([] : List Unit) = (Except.ok [255], []) ∧
      out.getPixel 1 0 ([] : List Unit) = (Except.ok [255], []) ∧
      Example.blank.getPixel 1 0 ([] : List Unit) = (Except.ok [0], []) ∧
      out.pixelAt 0 1 = [0] ∧ out.pixelAt 0 0 = [255] ∧ Example.blank.pixelAt 0 0 = [0]) :=
  ⟨fun img p x y tr => Image.setPixel_run img p x y tr, ⟨_, rfl, rfl, rfl, rfl, rfl, rfl, rfl⟩⟩

theorem Image.rectFillLoop_fuel (c : Int → Nat) (channels end_ : Int) (hc : 1 ≤ channels) :
    ∀ (fuel fuel1 : Nat) (i : Int) (data : Int → Nat),
      (end_ - i).toNat ≤ fuel → (end_ - i).toNat ≤ fuel1 →
      Image.rectFillLoop c channels end_ fuel i data
        = Image.rectFillLoop c channels end_ fuel1 i data := by
  intro fuel
  induction fuel with
  | zero =>
    intro fuel1 i data h0 _
    have hi : ¬ i < end_ := by omega
    cases fuel1 with
    | zero => rfl
    | succ n => simp [Image.rectFillLoop, hi]
  | succ n ih =>
    intro fuel1 i data h0 h1
    by_cases hi : i < end_
    · cases fuel1 with
      | zero => omega
      | succ m =>
        simp only [Image.rectFillLoop, hi, if_true]
        exact ih m _ _ (by omega) (by omega)
    · cases fuel1 with
      | zero => simp [Image.rectFillLoop, hi]
      | succ m => simp [Image.rectFillLoop, hi]

/-- C27: `rectFill` fills the bytes from x*y*channels up to (x+width)*(y+height)*channels,
not the rows of the rectangle: on a 3x3 image of one channel, all bytes 0,
`rectFill(white, 1, 1, 1, 1)` ends normally with the bytes 1, 2 and 3 set to
255, which are the pixels (1, 0), (2, 0) and (0, 1) outside the rectangle,
and leaves the one pixel (1, 1) of the rectangle (byte 4) at 0; read through
`getPixel`, the pixel (2, 1) outside the rectangle has changed from 0 to 255. -/
theorem Image.rectFill_fills_linear_range :
    ∃ out, Example.canvas.rectFill Example.white 1 1 1 1 ([] : List Unit)
        = (Except.ok out, []) ∧
      out.pixelAt 1 1 = [0] ∧
      out.pixelAt 1 0 = [255] ∧ out.pixelAt 2 0 = [255] ∧ out.pixelAt 0 1 = [255] ∧
      Example.canvas.pixelAt 1 0 = [0] ∧ Example.canvas.pixelAt 2 0 = [0] ∧
      Example.canvas.pixelAt 0 1 = [0] ∧
      out.getPixel 2 1 ([] : List Unit) = (Except.ok [255], []) ∧
      Example.canvas.getPixel 2 1 ([] : List Unit) = (Except.ok [0], []) :=
  ⟨_, rfl, rfl, rfl, rfl, rfl, rfl, rfl, rfl, rfl, rfl⟩

theorem memcpyBytes_rows_unchanged (g s : Nat → Int) (src : Int → Nat) (count : Int)
    (data : Int → Nat) (idx : Int) :
    ∀ n : Nat, (∀ r, r < n → ¬ (g r ≤ idx ∧ idx < g r + count)) →
      ((List.range n).foldl (fun d row => memcpyBytes d (g row) src (s row) count) data) idx
        = data idx := by
  intro n
  induction n with
  | zero => intro _; rfl
  | succ n ih =>
    intro h
    rw [List.range_succ, List.foldl_append]
    simp only [List.foldl_cons, List.foldl_nil, memcpyBytes]
    rw [if_neg (h n (Nat.lt_succ_self n))]
    exact ih (fun r hr => h r (Nat.lt_succ_of_lt hr))

theorem memcpyBytes_rows_written (g s : Nat → Int) (src : Int → Nat) (count : Int)
    (data : Int → Nat) (idx : Int) (r0 : Nat) (hin : g r0 ≤ idx ∧ idx < g r0 + count) :
    ∀ n : Nat, r0 < n → (∀ r, r < n → r ≠ r0 → ¬ (g r ≤ idx ∧ idx < g r + count)) →
      ((List.range n).foldl (fun d row => memcpyBytes d (g row) src (s row) count) data) idx
        = src (s r0 + (idx - g r0)) := by
  intro n
  induction n with
  | zero => intro h; omega
  | succ n ih =>
    intro hr0 h
    rw [List.range_succ, List.foldl_append]
    simp only [List.foldl_cons, List.foldl_nil, memcpyBytes]
    by_cases hn : r0 = n
    · subst hn
      rw [if_pos hin]
    · rw [if_neg (h n (Nat.lt_succ_self n) (fun e => hn e.symm))]
      exact ih (by omega) (fun r hr hne => h r (Nat.lt_succ_of_lt hr) hne)

theorem Image.row_range_iff (dw ch destX destY W : Int) (hX : 0 ≤ destX)
    (hW : destX + W ≤ dw) (i j k r : Int) (hi0 : 0 ≤ i) (hi : i < dw) (hk0 : 0 ≤ k)
    (hk : k < ch) :
    (destX * ch + destY * dw * ch + r * dw * ch ≤ (j * dw + i) * ch + k ∧
      (j * dw + i) * ch + k < destX * ch + destY * dw * ch + r * dw * ch + W * ch)
      ↔ (j = destY + r ∧ destX ≤ i ∧ i < destX + W) := by
  have hch : 0 ≤ ch := by omega
  have hdw : 0 ≤ dw := by omega
  have hA : 0 ≤ dw * ch := mul_nonneg hdw hch
  constructor
  · rintro ⟨h1, h2⟩
    have hj : j = destY + r := by
      rcases lt_trichotomy j (destY + r) with hlt | heq | hgt
      · exfalso
        have e1 : 0 ≤ (destY + r - j - 1) * (dw * ch) := mul_nonneg (by omega) hA
        have e2 : 0 ≤ (dw - 1 - i) * ch := mul_nonneg (by omega) hch
        have e3 : 0 ≤ destX * ch := mul_nonneg hX hch
        nlinarith [e1, e2, e3]
      · exact heq
      · exfalso
        have e1 : 0 ≤ (j - destY - r - 1) * (dw * ch) := mul_nonneg (by omega) hA
        have e2 : 0 ≤ (dw - destX - W) * ch := mul_nonneg (by omega) hch
        have e3 : 0 ≤ i * ch := mul_nonneg hi0 hch
        nlinarith [e1, e2, e3]
    subst hj
    refine ⟨rfl, ?_, ?_⟩
    · by_contra hlt
      have e1 : 0 ≤ (destX - 1 - i) * ch := mul_nonneg (by omega) hch
      nlinarith [e1]
    · by_contra hge
      have e1 : 0 ≤ (i - destX - W) * ch := mul_nonneg (by omega) hch
      nlinarith [e1]
  · rintro ⟨rfl, h1, h2⟩
    have e1 : 0 ≤ (i - destX) * ch := mul_nonneg (by omega) hch
    have e2 : 0 ≤ (destX + W - 1 - i) * ch := mul_nonneg (by omega) hch
    constructor
    · nlinarith [e1]
    · nlinarith [e2]

/-- C25: for images with equal channel counts and a rectangle that passes the checks of
`copyImage` at non-negative offsets (W and H are the width and height after
the replacement of a negative value), `copyImage` ends normally, and then
every destination pixel (destX + c, destY + r) with 0 ≤ c < W and 0 ≤ r < H
holds the bytes of the source pixel (sourceX + c, sourceY + r), every
destination pixel outside that rectangle holds the bytes it held before, and
the width, height and channel count of the destination are as before; the
source is only read. -/
theorem Image.copyImage_copies_rect {C : Type} (dest source : Image)
    (destX destY sourceX sourceY width height W H : Int) (tr : List C)
    (hW : W = if width < 0 then source.width else width)
    (hH : H = if height < 0 then source.height else height)
    (hch : source.channels = dest.channels)
    (hoff : 0 ≤ destX ∧ 0 ≤ destY ∧ 0 ≤ sourceX ∧ 0 ≤ sourceY)
    (hsw : sourceX + W ≤ source.width) (hsh : sourceY + H ≤ source.height)
    (hdw : destX + W ≤ dest.width) (hdh : destY + H ≤ dest.height) :
    ∃ out : Image,
      Image.copyImage dest source destX destY sourceX sourceY width height tr
        = (Except.ok out, tr) ∧
      (∀ c r : Int, 0 ≤ c → c < W → 0 ≤ r → r < H →
        out.pixelAt (destX + c) (destY + r) = source.pixelAt (sourceX + c) (sourceY + r)) ∧
      (∀ i j : Int, 0 ≤ i → i < dest.width → 0 ≤ j → j < dest.height →
        ¬ (destX ≤ i ∧ i < destX + W ∧ destY ≤ j ∧ j < destY + H) →
        out.pixelAt i j = dest.pixelAt i j) ∧
      out.width = dest.width ∧ out.height = dest.height ∧ out.channels = dest.channels := by
  have hrun := Image.copyImage_run dest source destX destY sourceX sourceY width height tr
  rw [← hW, ← hH, if_neg (by omega), if_neg (by omega), if_neg (by omega), if_neg (by omega),
    if_neg (by simp [hch])] at hrun
  refine ⟨_, hrun, ?_, ?_, rfl, rfl, rfl⟩
  · intro c r hc0 hc hr0 hr
    simp only [Image.pixelAt]
    rw [show source.channels.toNat = dest.channels.toNat from by rw [hch]]
    apply List.map_congr_left
    intro k hk
    rw [List.mem_range] at hk
    have hk1 : (k : Int) < dest.channels := by omega
    have hk0 : (0 : Int) ≤ (k : Int) := Int.ofNat_nonneg k
    have hrn : ((r.toNat : Nat) : Int) = r := Int.toNat_of_nonneg hr0
    have hmem := fun r1 : Int =>
      Image.row_range_iff dest.width dest.channels destX destY W hoff.1 hdw
        (destX + c) (destY + r) k r1 (by omega) (by omega) hk0 hk1
    refine (memcpyBytes_rows_written
      (fun row : Nat => destX * dest.channels + destY * dest.width * dest.channels
        + (row : Int) * dest.width * dest.channels)
      (fun row : Nat => sourceX * source.channels + sourceY * source.width * source.channels
        + (row : Int) * source.width * source.channels)
      source.data (W * dest.channels) dest.data _ r.toNat ?_ H.toNat ?_ ?_).trans ?_
    · beta_reduce
      rw [hrn]
      exact (hmem r).2 ⟨rfl, by omega, by omega⟩
    · omega
    · intro r1 _ hne hin
      have := ((hmem (r1 : Int)).1 hin).1
      omega
    · beta_reduce
      rw [hrn, hch]
      congr 1
      ring
  · intro i j hi0 hi hj0 hj hout
    simp only [Image.pixelAt]
    apply List.map_congr_left
    intro k hk
    rw [List.mem_range] at hk
    have hk1 : (k : Int) < dest.channels := by omega
    have hk0 : (0 : Int) ≤ (k : Int) := Int.ofNat_nonneg k
    exact memcpyBytes_rows_unchanged
      (fun row : Nat => destX * dest.channels + destY * dest.width * dest.channels
        + (row : Int) * dest.width * dest.channels)
      (fun row : Nat => sourceX * source.channels + sourceY * source.width * source.channels
        + (row : Int) * source.width * source.channels)
      source.data (W * dest.channels) dest.data _ H.toNat
      (by
        intro r1 hr1 hin
        have h3 := (Image.row_range_iff dest.width dest.channels destX destY W hoff.1 hdw
          i j k r1 hi0 hi hk0 hk1).1 hin
        apply hout
        refine ⟨h3.2.1, h3.2.2, ?_, ?_⟩ <;> omega)

theorem Image.copyImage_copies_rect_witness :
    ∃ out : Image,
      Image.copyImage Example.blank Example.ramp 1 0 0 0 1 (-1) ([] : List Unit)
        = (Except.ok out, []) ∧
      (∀ c r : Int, 0 ≤ c → c < 1 → 0 ≤ r → r < 2 →
        out.pixelAt (1 + c) (0 + r) = Example.ramp.pixelAt (0 + c) (0 + r)) ∧
      (∀ i j : Int, 0 ≤ i → i < Example.blank.width → 0 ≤ j → j < Example.blank.height →
        ¬ (1 ≤ i ∧ i < 1 + 1 ∧ 0 ≤ j ∧ j < 0 + 2) →
        out.pixelAt i j = Example.blank.pixelAt i j) ∧
      out.width = Example.blank.width ∧ out.height = Example.blank.height ∧
      out.channels = Example.blank.channels :=
  Image.copyImage_copies_rect Example.blank Example.ramp 1 0 0 0 1 (-1) 1 2 []
    (by decide) (by decide) (by decide) (by decide) (by decide) (by decide) (by decide)
    (by decide)

end Magic3D
